import Mathlib

/-!
# ZeroCrashLab, 12_ExceptionHandling: crash classification and dump filters

A shallow embedding of `src/12_ExceptionHandling/main.cpp`.

* A narrow C string is a `List Char`, one element per `char` (one byte); the
  terminating NUL is not stored.  ASCII literals are written `"...".toList`;
  literals with Korean or box-drawing text go through `lit`, which yields the
  UTF-8 bytes that stand in the source file.
* Machine integers are `Nat`; a cast to `unsigned long long` is `% 2 ^ 64`.
* Console output, dialogs and file operations are recorded as a list of
  `Event`s; a computation is a `Run`: the events so far and either a value or
  nothing, when the CRT invalid-parameter handler has ended the process
  (`sprintf_s` on a buffer that is too small).
* The macros of the generated `BuildInfo.h` and the compiler macro `_M_X64`
  are not in the repository sources; they are the fields of `Build`.
-/

namespace ZeroCrashLab

/-! ## Platform constants (Windows.h) -/

def EXCEPTION_ACCESS_VIOLATION : Nat := 0xC0000005
def EXCEPTION_INT_DIVIDE_BY_ZERO : Nat := 0xC0000094
def EXCEPTION_STACK_OVERFLOW : Nat := 0xC00000FD
def EXCEPTION_ILLEGAL_INSTRUCTION : Nat := 0xC000001D
def EXCEPTION_PRIV_INSTRUCTION : Nat := 0xC0000096
def EXCEPTION_BREAKPOINT : Nat := 0x80000003
def EXCEPTION_FLT_DIVIDE_BY_ZERO : Nat := 0xC000008E

def EXCEPTION_EXECUTE_HANDLER : Int := 1
def EXCEPTION_CONTINUE_SEARCH : Int := 0

def IDYES : Int := 6
def IDNO : Int := 7

/-! ## Data model -/

/-- The `EXCEPTION_RECORD` fields the handlers read. -/
structure EXCEPTION_RECORD where
  ExceptionCode : Nat
  ExceptionAddress : Nat
  NumberParameters : Nat
  ExceptionInformation : Fin 15 → Nat

/-- The `CONTEXT` registers the handlers read (x64). -/
structure CONTEXT where
  Rip : Nat
  Rsp : Nat
  Rbp : Nat

structure EXCEPTION_POINTERS where
  ExceptionRecord : EXCEPTION_RECORD
  ContextRecord : CONTEXT

/-- Build configuration: the string macros of `BuildInfo.h` and whether the
target defines `_M_X64`. -/
structure Build where
  BUILD_GIT_REVISION : List Char
  BUILD_GIT_BRANCH : List Char
  BUILD_GIT_DATE : List Char
  BUILD_TIMESTAMP : List Char
  M_X64 : Bool

/-- What the platform answers during one run of a handler: the return value of
`MessageBoxA`, the handle `CreateFileW` returns (`none` is
`INVALID_HANDLE_VALUE`) and the `BOOL` returned by `MiniDumpWriteDump`. -/
structure Host where
  MessageBoxA : Int
  CreateFileW : Option Nat
  MiniDumpWriteDump : Int

inductive Event where
  | cout (text : List Char)
  | messageBoxA (text : List Char) (caption : List Char)
  | createFileW (filename : List Char)
  | miniDumpWriteDump (hFile : Nat)
  | closeHandle (hFile : Nat)
  | invalidParameter
  | getFileAttributesW (filename : List Char)
  | getFileAttributesExW (filename : List Char)
deriving DecidableEq, Repr

/-- A computation with effects: the events it produced, and its value unless
the process was ended on the way. -/
structure Run (α : Type) where
  trace : List Event
  val : Option α

def Run.pure {α : Type} (a : α) : Run α := ⟨[], some a⟩

def Run.bind {α β : Type} (m : Run α) (f : α → Run β) : Run β :=
  match m.val with
  | none => ⟨m.trace, none⟩
  | some a => ⟨m.trace ++ (f a).trace, (f a).val⟩

instance : Monad Run where
  pure := Run.pure
  bind := Run.bind

def emit (e : Event) : Run Unit := ⟨[e], some ()⟩

/-- The statement `std::cout << ... ;` with the text it inserts. -/
def cout (text : List Char) : Run Unit := emit (Event.cout text)

/-! ## Text helpers -/

/-- UTF-8 bytes of one character, each byte as a `char`. -/
def utf8Bytes (c : Char) : List Char :=
  let v := c.toNat
  if v ≤ 0x7F then [c]
  else if v ≤ 0x7FF then [Char.ofNat (0xC0 + v / 64), Char.ofNat (0x80 + v % 64)]
  else if v ≤ 0xFFFF then
    [Char.ofNat (0xE0 + v / 4096), Char.ofNat (0x80 + v / 64 % 64), Char.ofNat (0x80 + v % 64)]
  else
    [Char.ofNat (0xF0 + v / 262144), Char.ofNat (0x80 + v / 4096 % 64),
     Char.ofNat (0x80 + v / 64 % 64), Char.ofNat (0x80 + v % 64)]

/-- A narrow string literal of the (UTF-8, BOM-less) source file, as bytes. -/
def lit (s : String) : List Char := s.toList.flatMap utf8Bytes

/-- The cast of an integer or pointer value to `unsigned long long`. -/
def ull (n : Nat) : Nat := n % 2 ^ 64

/-- Digits of `std::hex << n`: lower case, no padding. -/
def hexLower (n : Nat) : List Char := Nat.toDigits 16 n

/-- Digits of `%llX`: upper case, no padding. -/
def hexUpper (n : Nat) : List Char := (Nat.toDigits 16 n).map Char.toUpper

/-- The call `sprintf_s(buffer + pos, sizeOfBuffer - pos, fmt, ...)` where `buffer`
holds `pos` characters and `text` is the formatted output: the text and its
terminator must fit in what remains, otherwise the invalid-parameter handler
runs.  The value is the new content of the buffer. -/
def sprintf_s (buffer : List Char) (sizeOfBuffer : Nat) (text : List Char) :
    Run (List Char) :=
  if text.length < sizeOfBuffer - buffer.length then Run.pure (buffer ++ text)
  else ⟨[Event.invalidParameter], none⟩

/-- The template overload `swprintf_s(buffer, fmt, ...)` on a `wchar_t` array of
`sizeOfBuffer` elements. -/
def swprintf_s (sizeOfBuffer : Nat) (text : List Char) : Run (List Char) :=
  sprintf_s [] sizeOfBuffer text

/-- The conversion `%hs` applies to a narrow argument of a wide format: each
`char` becomes the `wchar_t` of the same value (the build strings are ASCII). -/
def widen (s : List Char) : List Char := s

/-! ## Utilities of main.cpp -/

def WriteMiniDump (host : Host) (_pExInfo : EXCEPTION_POINTERS) (filename : List Char) :
    Run Bool := do
  emit (Event.createFileW filename)
  match host.CreateFileW with
  | none => do
    cout (lit "  [ERROR] 덤프 파일 생성 실패!\n")
    pure false
  | some hFile => do
    emit (Event.miniDumpWriteDump hFile)
    let result := host.MiniDumpWriteDump
    emit (Event.closeHandle hFile)
    pure (decide (result ≠ 0))

/-- The test of the `if` in the loop of `MakeSafeFilename`. -/
def isForbiddenChar (c : Char) : Bool :=
  c = '/' || c = Char.ofNat 92 || c = ':' || c = '*' ||
  c = '?' || c = Char.ofNat 34 || c = '<' || c = '>' || c = '|'

/-- The loop of `MakeSafeFilename`, run for at most `n` more iterations on the
rest of `src`: the characters it stores into `dst`, in order. -/
def MakeSafeFilenameLoop : Nat → List Char → List Char
  | 0, _ => []
  | _ + 1, [] => []
  | n + 1, c :: src =>
    if c = Char.ofNat 0 then []
    else (if isForbiddenChar c then '_' else c) :: MakeSafeFilenameLoop n src

/-- The string `MakeSafeFilename(dst, dstSize, src)` leaves in `dst`: the
characters stored by the loop; the terminator is stored right after them.  The
bound `dstSize - 1` is computed in `size_t` (64 bits). -/
def MakeSafeFilename (dstSize : Nat) (src : List Char) : List Char :=
  MakeSafeFilenameLoop ((dstSize + 2 ^ 64 - 1) % 2 ^ 64) src

/-- The assignments `dst[i] = ...` that `MakeSafeFilename` executes from index `i`
on, with at most `n` more iterations of the loop on the rest of `src`: index and
stored character, in order; the last one is the terminator `dst[i] = 0` after the
loop. -/
def MakeSafeFilenameStoresFrom (i : Nat) : Nat → List Char → List (Nat × Char)
  | 0, _ => [(i, Char.ofNat 0)]
  | _ + 1, [] => [(i, Char.ofNat 0)]
  | n + 1, c :: src =>
    if c = Char.ofNat 0 then [(i, Char.ofNat 0)]
    else (i, if isForbiddenChar c then '_' else c) :: MakeSafeFilenameStoresFrom (i + 1) n src

/-- All the assignments to `dst` of one call `MakeSafeFilename(dst, dstSize, src)`. -/
def MakeSafeFilenameStores (dstSize : Nat) (src : List Char) : List (Nat × Char) :=
  MakeSafeFilenameStoresFrom 0 ((dstSize + 2 ^ 64 - 1) % 2 ^ 64) src

/-- The test of the `if` in the loop of `MakeSafeFilenameW`, on wide characters. -/
def isForbiddenWChar (c : Char) : Bool :=
  c = '/' || c = Char.ofNat 92 || c = ':' || c = '*' ||
  c = '?' || c = Char.ofNat 34 || c = '<' || c = '>' || c = '|'

/-- The loop of `MakeSafeFilenameW`; a wide string is a list with one element per
`wchar_t`. -/
def MakeSafeFilenameWLoop : Nat → List Char → List Char
  | 0, _ => []
  | _ + 1, [] => []
  | n + 1, c :: src =>
    if c = Char.ofNat 0 then []
    else (if isForbiddenWChar c then '_' else c) :: MakeSafeFilenameWLoop n src

/-- The wide string `MakeSafeFilenameW(dst, dstSize, src)` leaves in `dst`. -/
def MakeSafeFilenameW (dstSize : Nat) (src : List Char) : List Char :=
  MakeSafeFilenameWLoop ((dstSize + 2 ^ 64 - 1) % 2 ^ 64) src

/-- The assignments `dst[i] = ...` of `MakeSafeFilenameW` from index `i` on. -/
def MakeSafeFilenameWStoresFrom (i : Nat) : Nat → List Char → List (Nat × Char)
  | 0, _ => [(i, Char.ofNat 0)]
  | _ + 1, [] => [(i, Char.ofNat 0)]
  | n + 1, c :: src =>
    if c = Char.ofNat 0 then [(i, Char.ofNat 0)]
    else (i, if isForbiddenWChar c then '_' else c) :: MakeSafeFilenameWStoresFrom (i + 1) n src

/-- All the assignments to `dst` of one call `MakeSafeFilenameW(dst, dstSize, src)`. -/
def MakeSafeFilenameWStores (dstSize : Nat) (src : List Char) : List (Nat × Char) :=
  MakeSafeFilenameWStoresFrom 0 ((dstSize + 2 ^ 64 - 1) % 2 ^ 64) src

def GetExceptionCodeString (code : Nat) : List Char :=
  if code = EXCEPTION_ACCESS_VIOLATION then "EXCEPTION_ACCESS_VIOLATION (0xC0000005)".toList
  else if code = EXCEPTION_INT_DIVIDE_BY_ZERO then
    "EXCEPTION_INT_DIVIDE_BY_ZERO (0xC0000094)".toList
  else if code = EXCEPTION_STACK_OVERFLOW then "EXCEPTION_STACK_OVERFLOW (0xC00000FD)".toList
  else if code = EXCEPTION_ILLEGAL_INSTRUCTION then
    "EXCEPTION_ILLEGAL_INSTRUCTION (0xC000001D)".toList
  else if code = EXCEPTION_PRIV_INSTRUCTION then "EXCEPTION_PRIV_INSTRUCTION (0xC0000096)".toList
  else if code = EXCEPTION_BREAKPOINT then "EXCEPTION_BREAKPOINT (0x80000003)".toList
  else if code = EXCEPTION_FLT_DIVIDE_BY_ZERO then
    "EXCEPTION_FLT_DIVIDE_BY_ZERO (0xC000008E)".toList
  else "UNKNOWN".toList

/-! ### The diagnosis texts of PrintCrashMessage -/

def diagNullDeref : List Char :=
  "nullptr dereference!\nCheck pointer initialization.".toList

def diagLowAddress : List Char :=
  "Low address access.\nBase pointer may be nullptr\n".toList ++
    "(accessing struct member with null base).".toList

def diagFreedOrInvalid : List Char := "Accessing freed or invalid memory.".toList

def diagIntDivide : List Char :=
  "Integer division by zero.\nAdd zero-check before division.".toList

def diagStackOverflow : List Char :=
  "Stack memory exceeded (default 1MB).\n".toList ++
    "Infinite recursion or large stack allocation.".toList

def diagIllegalInstruction : List Char :=
  "Invalid CPU instruction.\nFunction pointer error or memory corruption.".toList

def diagBreakpoint : List Char :=
  "__debugbreak() or Assert failure.\nCheck the assert condition.".toList

/-- The tail `PrintCrashMessage` appends to the message for the dialog. -/
def dumpQuestion : List Char :=
  lit "\n\n──────────────────────\nCrash dump를 저장하시겠습니까?"

/-- What `PrintCrashMessage` leaves behind: its `bool` result, and the locals
`diagnosis` and `msgBuf` as they stand when it returns. -/
structure CrashMessage where
  diagnosis : List Char
  msgBuf : List Char
  result : Bool
deriving DecidableEq

/-- Lines 187 to 242 of `PrintCrashMessage`, the branch on the exception code:
it appends the access line to `msgBuf`, prints cause and diagnosis, and yields
the local `diagnosis` with the new content of `msgBuf`. -/
def PrintCrashMessage.diagnose (pRecord : EXCEPTION_RECORD) (msgBuf : List Char) :
    Run (List Char × List Char) :=
  let code := pRecord.ExceptionCode
  if code = EXCEPTION_ACCESS_VIOLATION ∧ pRecord.NumberParameters ≥ 2 then do
    let rwFlag := pRecord.ExceptionInformation 0
    let target := pRecord.ExceptionInformation 1
    let action : List Char :=
      if rwFlag = 1 then "Write".toList
      else if rwFlag = 8 then "DEP Execute".toList
      else "Read".toList
    let msgBuf ← sprintf_s msgBuf 1024
      ("\n".toList ++ action ++ " at 0x".toList ++ hexUpper (ull target) ++ "\n".toList)
    cout (lit "  │ 원인:    0x" ++ hexLower target ++ lit " 주소에 " ++
      (if rwFlag = 0 then lit "읽기" else if rwFlag = 1 then lit "쓰기" else lit "DEP 실행") ++
      lit " 시도\n")
    if target = 0 then do
      cout (lit "  │ 진단:    nullptr 역참조! 포인터 초기화를 확인하세요.\n")
      pure (diagNullDeref, msgBuf)
    else if target < 0x10000 then do
      cout (lit "  │ 진단:    낮은 주소 접근 → 구조체 멤버 오프셋일 수 있음\n" ++
        lit "  │          (base 포인터가 nullptr인 상태에서 멤버 접근)\n")
      pure (diagLowAddress, msgBuf)
    else do
      cout (lit "  │ 진단:    해제된 메모리 또는 잘못된 포인터 접근\n")
      pure (diagFreedOrInvalid, msgBuf)
  else if code = EXCEPTION_INT_DIVIDE_BY_ZERO then do
    cout (lit "  │ 원인:    정수 나눗셈에서 제수(divisor)가 0\n")
    cout (lit "  │ 진단:    나누기 전에 0 체크를 추가하세요.\n")
    pure (diagIntDivide, msgBuf)
  else if code = EXCEPTION_STACK_OVERFLOW then do
    cout (lit "  │ 원인:    스택 메모리 초과 (기본 1MB)\n")
    cout (lit "  │ 진단:    무한 재귀 또는 스택에 너무 큰 배열 할당\n")
    pure (diagStackOverflow, msgBuf)
  else if code = EXCEPTION_ILLEGAL_INSTRUCTION then do
    cout (lit "  │ 원인:    CPU가 해석할 수 없는 명령어 실행\n")
    cout (lit "  │ 진단:    함수 포인터 오류 또는 메모리 오염 가능성\n")
    pure (diagIllegalInstruction, msgBuf)
  else if code = EXCEPTION_BREAKPOINT then do
    cout (lit "  │ 원인:    __debugbreak() 또는 Assert 실패\n")
    cout (lit "  │ 진단:    Assert 조건을 확인하세요.\n")
    pure (diagBreakpoint, msgBuf)
  else pure ([], msgBuf)

/-- Lines 250 to 259 of `PrintCrashMessage`, compiled only under `_M_X64`: the
register lines on the console and in `msgBuf`. -/
def PrintCrashMessage.registers (b : Build) (pCtx : CONTEXT) (msgBuf : List Char) :
    Run (List Char) :=
  if b.M_X64 then do
    cout (lit "  │ RIP:     0x" ++ hexLower pCtx.Rip ++ "\n".toList)
    cout (lit "  │ RSP:     0x" ++ hexLower pCtx.Rsp ++ "\n".toList)
    cout (lit "  │ RBP:     0x" ++ hexLower pCtx.Rbp ++ "\n".toList)
    sprintf_s msgBuf 1024
      ("\nRIP: 0x".toList ++ hexUpper (ull pCtx.Rip) ++
       "\nRSP: 0x".toList ++ hexUpper (ull pCtx.Rsp) ++
       "\nRBP: 0x".toList ++ hexUpper (ull pCtx.Rbp) ++ "\n".toList)
  else pure msgBuf

/-- Lines 267 to 285 of `PrintCrashMessage`: the dialog when `bAskDump` is set,
and the `bool` the function returns. -/
def PrintCrashMessage.askDump (host : Host) (bAskDump : Bool) (msgBuf : List Char) :
    Run Bool :=
  if bAskDump then do
    let fullMsg ← sprintf_s [] 1280 (msgBuf ++ dumpQuestion)
    emit (Event.messageBoxA fullMsg "ZeroCrashLab - Crash Detected".toList)
    let result := host.MessageBoxA
    pure (decide (result = IDYES))
  else
    pure true

/-- The function `PrintCrashMessage(pExInfo, bAskDump)`; `msgBuf` is the text of
`msgBuf[0 .. pos)`. -/
def PrintCrashMessage (b : Build) (host : Host) (pExInfo : EXCEPTION_POINTERS)
    (bAskDump : Bool) : Run CrashMessage := do
  let pRecord := pExInfo.ExceptionRecord
  let pCtx := pExInfo.ContextRecord
  let code := pRecord.ExceptionCode
  let msgBuf ← sprintf_s [] 1024
    ("[ CRASH ]\n\nCode: ".toList ++ GetExceptionCodeString code ++ "\n".toList)
  let msgBuf ← sprintf_s msgBuf 1024
    ("Address: 0x".toList ++ hexUpper (ull pRecord.ExceptionAddress) ++ "\n".toList)
  cout (lit "  ┌─── Crash Info ───────────────────────────────┐\n")
  cout (lit "  │ Code:    " ++ GetExceptionCodeString code ++ "\n".toList)
  cout (lit "  │ Address: 0x" ++ hexLower pRecord.ExceptionAddress ++ "\n".toList)
  let (diagnosis, msgBuf) ← PrintCrashMessage.diagnose pRecord msgBuf
  let msgBuf ←
    (if diagnosis ≠ [] then
      sprintf_s msgBuf 1024 ("\nDiagnosis:\n".toList ++ diagnosis ++ "\n".toList)
    else pure msgBuf : Run (List Char))
  let msgBuf ← PrintCrashMessage.registers b pCtx msgBuf
  let msgBuf ← sprintf_s msgBuf 1024
    ("\nBuild: ".toList ++ b.BUILD_GIT_REVISION ++ " (".toList ++ b.BUILD_GIT_BRANCH ++
      ")".toList)
  cout (lit "  │ Build:   " ++ b.BUILD_GIT_REVISION ++ " (".toList ++ b.BUILD_GIT_BRANCH ++
    ")\n".toList)
  cout (lit "  └──────────────────────────────────────────────┘\n")
  let result ← PrintCrashMessage.askDump host bAskDump msgBuf
  pure ⟨diagnosis, msgBuf, result⟩

/-- The SEH filter of demonstration E. -/
def ExceptionFilter (b : Build) (host : Host) (pExInfo : EXCEPTION_POINTERS) : Run Int := do
  let code := pExInfo.ExceptionRecord.ExceptionCode
  let _ ← PrintCrashMessage b host pExInfo false
  if code = EXCEPTION_ACCESS_VIOLATION ∨ code = EXCEPTION_INT_DIVIDE_BY_ZERO ∨
      code = EXCEPTION_STACK_OVERFLOW then do
    cout (lit "  [필터] → EXCEPTION_EXECUTE_HANDLER (잡겠다!)\n")
    pure EXCEPTION_EXECUTE_HANDLER
  else do
    cout (lit "  [필터] → EXCEPTION_CONTINUE_SEARCH (상위로 전달)\n")
    pure EXCEPTION_CONTINUE_SEARCH

/-- The SEH filter of demonstration F, which writes a minidump. -/
def DumpFilter (b : Build) (host : Host) (pExInfo : EXCEPTION_POINTERS) : Run Int := do
  cout "\n".toList
  let bSaveDump ← PrintCrashMessage b host pExInfo true
  if bSaveDump.result then do
    let safeBranch := MakeSafeFilename 128 b.BUILD_GIT_BRANCH
    let dumpFile ← swprintf_s 256
      ("CrashDump_".toList ++ widen b.BUILD_GIT_REVISION ++ "_".toList ++ widen safeBranch ++
        ".dmp".toList)
    let dumpFileA ← sprintf_s [] 256
      ("CrashDump_".toList ++ b.BUILD_GIT_REVISION ++ "_".toList ++ safeBranch ++
        ".dmp".toList)
    cout (lit "  [덤프 필터] 미니덤프 생성 중: " ++ dumpFileA ++ "\n".toList)
    if (← WriteMiniDump host pExInfo dumpFile) then do
      cout (lit "  [덤프 필터] ✓ 미니덤프 생성 성공!\n")
      cout (lit "  [덤프 필터] Visual Studio에서 .dmp 파일을 열면\n")
      cout (lit "             크래시 시점의 콜스택을 확인할 수 있습니다.\n")
      cout (lit "  [덤프 필터] 방법: .dmp 더블클릭 → '네이티브만 디버깅'\n")
      cout (lit "  [덤프 필터] 조사식에 g_BuildGitRevision 입력 → revision 확인!\n")
    else
      cout (lit "  [덤프 필터] ✗ 미니덤프 생성 실패!\n")
  else
    cout (lit "  [덤프 필터] 사용자가 덤프 저장을 취소했습니다.\n")
  pure EXCEPTION_EXECUTE_HANDLER

/-- The SEH filter `GameSim::GameCrashFilter` of demonstration G. -/
def GameSim.GameCrashFilter (b : Build) (host : Host) (pExInfo : EXCEPTION_POINTERS) :
    Run Int := do
  cout (lit "\n  ╔══════════════════════════════════════════╗\n")
  cout (lit "  ║       GAME CRASH DETECTED!               ║\n")
  cout (lit "  ╚══════════════════════════════════════════╝\n")
  let bSaveDump ← PrintCrashMessage b host pExInfo true
  if bSaveDump.result then do
    let safeBranch := MakeSafeFilename 128 b.BUILD_GIT_BRANCH
    let dumpFile ← swprintf_s 256
      ("GameCrash_".toList ++ widen b.BUILD_GIT_REVISION ++ "_".toList ++ widen safeBranch ++
        ".dmp".toList)
    let dumpFileA ← sprintf_s [] 256
      ("GameCrash_".toList ++ b.BUILD_GIT_REVISION ++ "_".toList ++ safeBranch ++
        ".dmp".toList)
    if (← WriteMiniDump host pExInfo dumpFile) then
      cout ("  Crash dump saved: ".toList ++ dumpFileA ++ "\n".toList)
    else
      cout (lit "  Crash dump 생성 실패!\n")
  else
    cout (lit "  사용자가 덤프 저장을 취소했습니다.\n")
  pure EXCEPTION_EXECUTE_HANDLER

/-- What the file system answers to `HandleF_SehWithDump` about the dump file:
the attributes from `GetFileAttributesW` (`none` is `INVALID_FILE_ATTRIBUTES`) and
the field `nFileSizeLow` filled in by `GetFileAttributesExW`. -/
structure FileAttributes where
  attr : Option Nat
  nFileSizeLow : Nat

/-- Demonstration F.  The fault raised by `CrashFunction_NullDeref()` inside the
`__try` block is the descriptor `pExInfo` the platform hands to the filter
expression; the `__except` block runs when the filter returns
`EXCEPTION_EXECUTE_HANDLER`, and with any other disposition control does not
come back to this function. -/
def HandleF_SehWithDump (b : Build) (host : Host) (fs : FileAttributes)
    (pExInfo : EXCEPTION_POINTERS) : Run Unit := do
  cout (lit "\n[F] SEH + 미니덤프(.dmp) 파일 생성\n")
  cout (List.replicate 60 '=' ++ "\n".toList)
  cout (lit "  크래시 발생 시 미니덤프를 남기면 나중에 원인을 분석할 수 있습니다.\n")
  cout (lit "  MiniDumpWriteDump() API를 사용합니다. (DbgHelp.h)\n\n")
  cout (lit "  nullptr 역참조로 크래시 유발...\n")
  let disposition ← DumpFilter b host pExInfo
  if disposition = EXCEPTION_EXECUTE_HANDLER then do
    cout (lit "\n  [HANDLED] 크래시를 잡고 덤프를 남겼습니다.\n")
    cout (lit "  프로그램은 계속 실행됩니다.\n")
    let safeBranchCheck := MakeSafeFilename 128 b.BUILD_GIT_BRANCH
    let checkFile ← swprintf_s 256
      ("CrashDump_".toList ++ widen b.BUILD_GIT_REVISION ++ "_".toList ++
        widen safeBranchCheck ++ ".dmp".toList)
    emit (Event.getFileAttributesW checkFile)
    let attr := fs.attr
    if attr ≠ none then do
      emit (Event.getFileAttributesExW checkFile)
      let fileSize := fs.nFileSizeLow
      cout (lit "\n  [확인] 덤프 파일 크기: " ++ Nat.toDigits 10 (fileSize / 1024) ++
        " KB\n".toList)
      cout (lit "  [확인] 실행 파일과 같은 폴더에 생성되었습니다.\n")
    else pure ()
    let safeBranchName := MakeSafeFilename 128 b.BUILD_GIT_BRANCH
    let dumpNameA ← sprintf_s [] 256
      ("CrashDump_".toList ++ b.BUILD_GIT_REVISION ++ "_".toList ++ safeBranchName ++
        ".dmp".toList)
    cout (lit "\n  [실습] 생성된 .dmp 파일을 Visual Studio에서 열어보세요!\n")
    cout ("  1. ".toList ++ dumpNameA ++ lit " 파일을 더블클릭\n")
    cout (lit "  2. '네이티브만 사용하여 디버깅' 클릭\n")
    cout (lit "  3. 콜스택에서 CrashFunction_NullDeref()를 확인\n")
    cout (lit "  4. 조사식(Watch)에 g_BuildGitRevision 입력 → Git revision 확인!\n")
    cout (lit "\n  ✓ F 완료\n")
  else ⟨[], none⟩

/-! ## What a trace shows -/

/-- The events that touch the file system. -/
def isSystemCall : Event → Bool
  | Event.createFileW _ => true
  | Event.miniDumpWriteDump _ => true
  | Event.closeHandle _ => true
  | Event.getFileAttributesW _ => true
  | Event.getFileAttributesExW _ => true
  | _ => false

/-- The file names of the `CreateFileW` calls of a trace, in order: one per
attempted snapshot write. -/
def snapshotWrites (t : List Event) : List (List Char) :=
  t.filterMap fun e =>
    match e with
    | Event.createFileW filename => some filename
    | _ => none

/-- The file names of the `GetFileAttributesW` calls of a trace, in order. -/
def attributeQueries (t : List Event) : List (List Char) :=
  t.filterMap fun e =>
    match e with
    | Event.getFileAttributesW filename => some filename
    | _ => none

/-- The events of a trace that touch the file system, in order. -/
def systemCalls (t : List Event) : List Event := t.filter isSystemCall

/-! ## Closed forms

What the segments of `PrintCrashMessage` compute when every `sprintf_s` fits;
the theorems `PrintCrashMessage.diagnose_val`, `PrintCrashMessage.registers_val`
and `PrintCrashMessage_val` below prove that the functions above compute them. -/

/-- The word chosen for `action` from the access flag. -/
def accessAction (rwFlag : Nat) : List Char :=
  if rwFlag = 1 then "Write".toList
  else if rwFlag = 8 then "DEP Execute".toList
  else "Read".toList

/-- The access line appended to `msgBuf` for an access violation with parameters. -/
def accessLine (r : EXCEPTION_RECORD) : List Char :=
  if r.ExceptionCode = EXCEPTION_ACCESS_VIOLATION ∧ r.NumberParameters ≥ 2 then
    "\n".toList ++ accessAction (r.ExceptionInformation 0) ++ " at 0x".toList ++
      hexUpper (ull (r.ExceptionInformation 1)) ++ "\n".toList
  else []

/-- The value of the local `diagnosis` after the branch on the exception code. -/
def diagnosisOf (r : EXCEPTION_RECORD) : List Char :=
  if r.ExceptionCode = EXCEPTION_ACCESS_VIOLATION ∧ r.NumberParameters ≥ 2 then
    if r.ExceptionInformation 1 = 0 then diagNullDeref
    else if r.ExceptionInformation 1 < 0x10000 then diagLowAddress
    else diagFreedOrInvalid
  else if r.ExceptionCode = EXCEPTION_INT_DIVIDE_BY_ZERO then diagIntDivide
  else if r.ExceptionCode = EXCEPTION_STACK_OVERFLOW then diagStackOverflow
  else if r.ExceptionCode = EXCEPTION_ILLEGAL_INSTRUCTION then diagIllegalInstruction
  else if r.ExceptionCode = EXCEPTION_BREAKPOINT then diagBreakpoint
  else []

/-- The first two lines of the message: code and fault address. -/
def headerLines (r : EXCEPTION_RECORD) : List Char :=
  "[ CRASH ]\n\nCode: ".toList ++ GetExceptionCodeString r.ExceptionCode ++ "\n".toList ++
    ("Address: 0x".toList ++ hexUpper (ull r.ExceptionAddress) ++ "\n".toList)

/-- The Diagnosis section of the message; nothing for an empty diagnosis. -/
def diagnosisSection (diagnosis : List Char) : List Char :=
  if diagnosis ≠ [] then "\nDiagnosis:\n".toList ++ diagnosis ++ "\n".toList else []

/-- The register lines of the message (x64 only). -/
def registerLines (b : Build) (pCtx : CONTEXT) : List Char :=
  if b.M_X64 then
    "\nRIP: 0x".toList ++ hexUpper (ull pCtx.Rip) ++
    "\nRSP: 0x".toList ++ hexUpper (ull pCtx.Rsp) ++
    "\nRBP: 0x".toList ++ hexUpper (ull pCtx.Rbp) ++ "\n".toList
  else []

/-- The last line of the message. -/
def buildLine (b : Build) : List Char :=
  "\nBuild: ".toList ++ b.BUILD_GIT_REVISION ++ " (".toList ++ b.BUILD_GIT_BRANCH ++ ")".toList

/-- The whole text of `msgBuf` when `PrintCrashMessage` returns. -/
def messageOf (b : Build) (p : EXCEPTION_POINTERS) : List Char :=
  headerLines p.ExceptionRecord ++ accessLine p.ExceptionRecord ++
    diagnosisSection (diagnosisOf p.ExceptionRecord) ++ registerLines b p.ContextRecord ++
    buildLine b

/-- The dump file name the filters format: the stem, the revision as it is, an
underscore, the branch after `MakeSafeFilename` into 128 characters, and ".dmp". -/
def dumpFileName (stem : List Char) (b : Build) : List Char :=
  stem ++ b.BUILD_GIT_REVISION ++ "_".toList ++ MakeSafeFilename 128 b.BUILD_GIT_BRANCH ++
    ".dmp".toList

/-! ## Sample inputs -/

/-- A build as the pre-build step generates it: a short revision and the branch
named in the comment on `MakeSafeFilename`. -/
def sampleBuild : Build :=
  { BUILD_GIT_REVISION := "a1b2c3d".toList
    BUILD_GIT_BRANCH := "claude/infallible-dubinsky".toList
    BUILD_GIT_DATE := "2025-01-15".toList
    BUILD_TIMESTAMP := "2025-01-15 10:30:00".toList
    M_X64 := true }

/-- The user answers Yes and the dump is written. -/
def hostYes : Host := { MessageBoxA := IDYES, CreateFileW := some 0x1F4, MiniDumpWriteDump := 1 }

/-- The user answers Yes and the dump file cannot be created. -/
def hostYesWriteFails : Host := { MessageBoxA := IDYES, CreateFileW := none, MiniDumpWriteDump := 0 }

/-- The user answers No. -/
def hostNo : Host := { MessageBoxA := IDNO, CreateFileW := some 0x1F4, MiniDumpWriteDump := 1 }

def sampleContext : CONTEXT := { Rip := 0x7FF6A0001234, Rsp := 0x14FE20, Rbp := 0x14FE60 }

/-- An access violation carrying its two parameters: access flag and target. -/
def accessViolation (rwFlag target : Nat) : EXCEPTION_POINTERS :=
  { ExceptionRecord :=
      { ExceptionCode := EXCEPTION_ACCESS_VIOLATION
        ExceptionAddress := 0x7FF6A0001234
        NumberParameters := 2
        ExceptionInformation := fun i => if i = 0 then rwFlag else if i = 1 then target else 0 }
    ContextRecord := sampleContext }

/-- A fault with the given code and no parameters. -/
def faultWithCode (code : Nat) : EXCEPTION_POINTERS :=
  { ExceptionRecord :=
      { ExceptionCode := code
        ExceptionAddress := 0x7FF6A0001234
        NumberParameters := 0
        ExceptionInformation := fun _ => 0 }
    ContextRecord := sampleContext }

/-- A build whose revision string holds a path separator. -/
def slashBuild : Build :=
  { BUILD_GIT_REVISION := "v1/rc".toList
    BUILD_GIT_BRANCH := "main".toList
    BUILD_GIT_DATE := "2025-01-15".toList
    BUILD_TIMESTAMP := "2025-01-15 10:30:00".toList
    M_X64 := true }

/-- The user answers Yes, the file is created and `MiniDumpWriteDump` fails. -/
def hostYesDumpFails : Host :=
  { MessageBoxA := IDYES, CreateFileW := some 0x1F4, MiniDumpWriteDump := 0 }

/-- The dump file exists and has 48 KB. -/
def sampleFile : FileAttributes := { attr := some 0x20, nFileSizeLow := 49152 }

/-! ## The build tag -/

/-- The array `g_BuildTag`: the adjacent string literals and macros of its
initializer, concatenated in the order they stand in the source. -/
def g_BuildTag (b : Build) : List Char :=
  "<<<BUILDTAG>>> ".toList ++
  "Rev:".toList ++ b.BUILD_GIT_REVISION ++ " ".toList ++
  "Branch:".toList ++ b.BUILD_GIT_BRANCH ++ " ".toList ++
  "Date:".toList ++ b.BUILD_GIT_DATE ++ " ".toList ++
  "Built:".toList ++ b.BUILD_TIMESTAMP ++ " ".toList ++
  "<<<END_BUILDTAG>>>".toList

/-- The marker the tag opens with, the text to search a dump for. -/
def openingSentinel : List Char := "<<<BUILDTAG>>>".toList

/-- The marker the tag closes with. -/
def closingSentinel : List Char := "<<<END_BUILDTAG>>>".toList

/-- The tag form the specification gives, with the sentinels of the source: the
opening sentinel, " Rev:" and the revision, " Branch:" and the branch, " Built:"
and the timestamp, a space and the closing sentinel. -/
def specTagForm (r br t : List Char) : List Char :=
  openingSentinel ++ " Rev:".toList ++ r ++ " Branch:".toList ++ br ++ " Built:".toList ++ t ++
    " ".toList ++ closingSentinel

/-- A literal substring search: every index of `s` at which `pat` starts. -/
def occurrences (pat s : List Char) : List Nat :=
  (List.range (s.length + 1)).filter fun i => pat.isPrefixOf (s.drop i)

/-! ## Exceptions turned into error codes (demonstrations B and H) -/

/-- A C++ exception in flight, by its dynamic type: the two classes the simulated
libraries throw, each with its `what()` text, and a thrown value whose type is
not derived from `std::exception`. -/
inductive CppException where
  | invalid_argument (what : List Char)
  | runtime_error (what : List Char)
  | nonStd
deriving DecidableEq, Repr

/-- What a handler `catch (const std::exception& e)` sees: the text of `e.what()`
when the exception is derived from `std::exception`, nothing when the handler
does not match. -/
def CppException.asStdException : CppException → Option (List Char)
  | CppException.invalid_argument what => some what
  | CppException.runtime_error what => some what
  | CppException.nonStd => none

/-- The call `s.find(c)` on a `std::string`: the index of the first `c`, and
`none` for `std::string::npos`. -/
def string_find (s : List Char) (c : Char) : Option Nat :=
  if s.indexOf c < s.length then some (s.indexOf c) else none

/-- The struct `ThirdPartyLib::ParseResult`; the `float` member holds a value
that is exact in binary, written as a rational. -/
structure ThirdPartyLib.ParseResult where
  name : List Char
  hp : Int
  speed : ℚ
deriving DecidableEq

/-- The function `ThirdPartyLib::ParseConfig`: the record it returns or the
exception it throws. -/
def ThirdPartyLib.ParseConfig (data : List Char) :
    Except CppException ThirdPartyLib.ParseResult :=
  if data.isEmpty then
    Except.error (CppException.invalid_argument "Empty config data".toList)
  else if string_find data (Char.ofNat 123) = none then
    Except.error (CppException.runtime_error "Invalid JSON format".toList)
  else
    Except.ok { name := "Hero".toList, hp := 100, speed := 5.5 }

/-- The boundary function `SafeParseConfig(data, outResult)`.  The value is
`Except.error` when an exception leaves the function; otherwise it is the `bool`
returned together with the content of `outResult` at the return. -/
def SafeParseConfig (data : List Char) (outResult : ThirdPartyLib.ParseResult) :
    Run (Except CppException (Bool × ThirdPartyLib.ParseResult)) :=
  match ThirdPartyLib.ParseConfig data with
  | Except.ok r => pure (Except.ok (true, r))
  | Except.error (CppException.invalid_argument what) => do
    cout (lit "  [WARNING] 파싱 실패 (invalid_argument): " ++ what ++ "\n".toList)
    pure (Except.ok (false, outResult))
  | Except.error (CppException.runtime_error what) => do
    cout (lit "  [WARNING] 파싱 실패 (runtime_error): " ++ what ++ "\n".toList)
    pure (Except.ok (false, outResult))
  | Except.error CppException.nonStd => do
    cout (lit "  [WARNING] 파싱 실패 (알 수 없는 예외)\n")
    pure (Except.ok (false, outResult))

/-- The text `std::cout << n` inserts for an `int` in decimal. -/
def decimal (n : Int) : List Char :=
  if n < 0 then '-' :: Nat.toDigits 10 n.natAbs else Nat.toDigits 10 n.natAbs

/-- The function `ExternalPhysicsLib::Initialize`: it throws or prints its line. -/
def ExternalPhysicsLib.Initialize (maxObjects : Int) : Run (Except CppException Unit) :=
  if maxObjects ≤ 0 then
    pure (Except.error (CppException.invalid_argument "maxObjects must be > 0".toList))
  else if maxObjects > 100000 then
    pure (Except.error
      (CppException.runtime_error "Too many objects for physics simulation".toList))
  else do
    cout ("    [PhysicsLib] Initialized with ".toList ++ decimal maxObjects ++
      " objects\n".toList)
    pure (Except.ok ())

/-- The member function `PhysicsWrapper::Init`.  The value is `Except.error` when
an exception leaves the function, which is what happens to one the handler
`catch (const std::exception& e)` does not match. -/
def PhysicsWrapper.Init (maxObjects : Int) : Run (Except CppException Bool) := do
  match (← ExternalPhysicsLib.Initialize maxObjects) with
  | Except.ok () => do
    cout (lit "    [Wrapper] 물리 엔진 초기화 성공\n")
    pure (Except.ok true)
  | Except.error e =>
    match e.asStdException with
    | some what => do
      cout (lit "    [Wrapper] 물리 엔진 초기화 실패: " ++ what ++ "\n".toList)
      pure (Except.ok false)
    | none => pure (Except.error e)

/-! ## Console wording, code names and prompts -/

/-- The word the console line of `PrintCrashMessage` inserts for the access flag. -/
def accessWord (rwFlag : Nat) : List Char :=
  if rwFlag = 0 then lit "읽기" else if rwFlag = 1 then lit "쓰기" else lit "DEP 실행"

/-- The console line on the cause of an access violation with parameters. -/
def causeLine (r : EXCEPTION_RECORD) : List Char :=
  lit "  │ 원인:    0x" ++ hexLower (r.ExceptionInformation 1) ++ lit " 주소에 " ++
    accessWord (r.ExceptionInformation 0) ++ lit " 시도\n"

/-- The kinds of memory access the messages name. -/
inductive AccessKind where
  | read
  | write
  | execute
deriving DecidableEq, Repr

/-- The access kind an `action` word of the dialog message names. -/
def dialogAccessKind (action : List Char) : Option AccessKind :=
  if action = "Read".toList then some AccessKind.read
  else if action = "Write".toList then some AccessKind.write
  else if action = "DEP Execute".toList then some AccessKind.execute
  else none

/-- The access kind a word of the console line names: 읽기 is reading, 쓰기 is
writing, DEP 실행 is executing. -/
def consoleAccessKind (word : List Char) : Option AccessKind :=
  if word = lit "읽기" then some AccessKind.read
  else if word = lit "쓰기" then some AccessKind.write
  else if word = lit "DEP 실행" then some AccessKind.execute
  else none

/-- The seven exception codes `GetExceptionCodeString` has a case for, each with
the name of its macro. -/
def knownCodes : List (Nat × List Char) :=
  [(EXCEPTION_ACCESS_VIOLATION, "EXCEPTION_ACCESS_VIOLATION".toList),
   (EXCEPTION_INT_DIVIDE_BY_ZERO, "EXCEPTION_INT_DIVIDE_BY_ZERO".toList),
   (EXCEPTION_STACK_OVERFLOW, "EXCEPTION_STACK_OVERFLOW".toList),
   (EXCEPTION_ILLEGAL_INSTRUCTION, "EXCEPTION_ILLEGAL_INSTRUCTION".toList),
   (EXCEPTION_PRIV_INSTRUCTION, "EXCEPTION_PRIV_INSTRUCTION".toList),
   (EXCEPTION_BREAKPOINT, "EXCEPTION_BREAKPOINT".toList),
   (EXCEPTION_FLT_DIVIDE_BY_ZERO, "EXCEPTION_FLT_DIVIDE_BY_ZERO".toList)]

/-- The texts of the `MessageBoxA` calls of a trace, in order: one per question put
to the user. -/
def prompts (t : List Event) : List (List Char) :=
  t.filterMap fun e =>
    match e with
    | Event.messageBoxA text _ => some text
    | _ => none

/-- A build with a revision of 113 characters and a branch of 200. -/
def edgeBuild : Build :=
  { BUILD_GIT_REVISION := List.replicate 113 'r'
    BUILD_GIT_BRANCH := List.replicate 200 'b'
    BUILD_GIT_DATE := "2025-01-15".toList
    BUILD_TIMESTAMP := "2025-01-15 10:30:00".toList
    M_X64 := true }

/-- A build with a revision of 114 characters and a branch of 127. -/
def longBuild : Build :=
  { BUILD_GIT_REVISION := List.replicate 114 'r'
    BUILD_GIT_BRANCH := List.replicate 127 'b'
    BUILD_GIT_DATE := "2025-01-15".toList
    BUILD_TIMESTAMP := "2025-01-15 10:30:00".toList
    M_X64 := true }

/-- A build string in which neither sentinel occurs. -/
def sentinelFree (s : List Char) : Prop :=
  ¬ openingSentinel <:+: s ∧ ¬ closingSentinel <:+: s

instance (s : List Char) : Decidable (sentinelFree s) := by
  unfold sentinelFree; infer_instance

/-! ## Lemmas on the effect model -/

@[simp] theorem Run.bind_eq {α β : Type} (m : Run α) (f : α → Run β) :
    (m >>= f) = Run.bind m f := rfl

theorem val_pure {α : Type} (a : α) : (pure a : Run α).val = some a := rfl

theorem trace_pure {α : Type} (a : α) : (pure a : Run α).trace = [] := rfl

theorem Run.pure_bind {α β : Type} (a : α) (f : α → Run β) :
    (Run.pure a).bind f = f a := by
  simp [Run.pure, Run.bind]

theorem Run.val_bind {α β : Type} (m : Run α) (f : α → Run β) :
    (m.bind f).val = m.val.bind (fun a => (f a).val) := by
  unfold Run.bind
  cases m.val <;> rfl

theorem Run.trace_bind {α β : Type} (m : Run α) (f : α → Run β) :
    (m.bind f).trace = m.trace ++ (m.val.elim [] (fun a => (f a).trace)) := by
  unfold Run.bind
  cases m.val <;> simp

theorem Run.pure_val {α : Type} (a : α) : (Run.pure a).val = some a := rfl

theorem Run.pure_trace {α : Type} (a : α) : (Run.pure a).trace = [] := rfl

theorem cout_val (t : List Char) : (cout t).val = some () := rfl

theorem cout_trace (t : List Char) : (cout t).trace = [Event.cout t] := rfl

theorem emit_val (e : Event) : (emit e).val = some () := rfl

theorem emit_trace (e : Event) : (emit e).trace = [e] := rfl

theorem sprintf_s_fit {buffer text : List Char} {size : Nat}
    (h : text.length < size - buffer.length) :
    sprintf_s buffer size text = Run.pure (buffer ++ text) := by
  simp [sprintf_s, h]

/-! ## Lengths of the formatted pieces -/

theorem hexUpper_length_le (n : Nat) : (hexUpper (ull n)).length ≤ 16 := by
  unfold hexUpper ull
  rw [List.length_map]
  exact Nat.toDigitsCore_length 16 (by decide) _ _ 16 (Nat.mod_lt _ (by decide)) (by decide)

theorem GetExceptionCodeString_length_le (code : Nat) :
    (GetExceptionCodeString code).length ≤ 42 := by
  unfold GetExceptionCodeString
  split_ifs <;> decide

theorem accessAction_length_le (rwFlag : Nat) : (accessAction rwFlag).length ≤ 11 := by
  unfold accessAction
  split_ifs <;> decide

theorem diagnosisOf_length_le (r : EXCEPTION_RECORD) : (diagnosisOf r).length ≤ 89 := by
  unfold diagnosisOf
  split_ifs <;> decide

theorem headerLines_length_le (r : EXCEPTION_RECORD) : (headerLines r).length ≤ 88 := by
  have h1 := GetExceptionCodeString_length_le r.ExceptionCode
  have h2 := hexUpper_length_le r.ExceptionAddress
  unfold headerLines
  simp only [List.length_append, String.toList, List.length_cons, List.length_nil]
  omega

theorem accessLine_length_le (r : EXCEPTION_RECORD) : (accessLine r).length ≤ 35 := by
  have h1 := accessAction_length_le (r.ExceptionInformation 0)
  have h2 := hexUpper_length_le (r.ExceptionInformation 1)
  unfold accessLine
  split_ifs
  · simp only [List.length_append, String.toList, List.length_cons, List.length_nil]
    omega
  · simp

theorem diagnosisSection_length_le (r : EXCEPTION_RECORD) :
    (diagnosisSection (diagnosisOf r)).length ≤ 102 := by
  have h1 := diagnosisOf_length_le r
  unfold diagnosisSection
  split_ifs
  · simp only [List.length_append, String.toList, List.length_cons, List.length_nil]
    omega
  · simp

theorem registerLines_length_le (b : Build) (pCtx : CONTEXT) :
    (registerLines b pCtx).length ≤ 73 := by
  have h1 := hexUpper_length_le pCtx.Rip
  have h2 := hexUpper_length_le pCtx.Rsp
  have h3 := hexUpper_length_le pCtx.Rbp
  unfold registerLines
  split_ifs
  · simp only [List.length_append, String.toList, List.length_cons, List.length_nil]
    omega
  · simp

theorem buildLine_length (b : Build) :
    (buildLine b).length = b.BUILD_GIT_REVISION.length + b.BUILD_GIT_BRANCH.length + 11 := by
  unfold buildLine
  simp only [List.length_append, String.toList, List.length_cons, List.length_nil]
  omega

theorem dumpQuestion_length : dumpQuestion.length = 108 := by decide


/-! ## What PrintCrashMessage computes -/

theorem PrintCrashMessage.diagnose_val (r : EXCEPTION_RECORD) (msgBuf : List Char)
    (h : msgBuf.length ≤ 900) :
    (PrintCrashMessage.diagnose r msgBuf).val = some (diagnosisOf r, msgBuf ++ accessLine r) := by
  have h1 := accessAction_length_le (r.ExceptionInformation 0)
  have h2 := hexUpper_length_le (r.ExceptionInformation 1)
  unfold PrintCrashMessage.diagnose diagnosisOf accessLine
  unfold accessAction at *
  simp only [Run.bind_eq]
  generalize (if r.ExceptionInformation 0 = 1 then "Write".toList
    else if r.ExceptionInformation 0 = 8 then "DEP Execute".toList
    else "Read".toList) = act at *
  by_cases hav : r.ExceptionCode = EXCEPTION_ACCESS_VIOLATION ∧ r.NumberParameters ≥ 2
  · rw [if_pos hav, if_pos hav, if_pos hav]
    rw [sprintf_s_fit (by
      simp only [List.length_append, String.toList, List.length_cons, List.length_nil]; omega)]
    simp only [Run.pure_bind, Run.val_bind, cout_val, Option.some_bind]
    split_ifs <;> rfl
  · rw [if_neg hav, if_neg hav, if_neg hav]
    split_ifs <;>
      simp only [Run.pure_bind, Run.val_bind, cout_val, Option.some_bind, Run.pure_val, val_pure,
        List.append_nil]

theorem PrintCrashMessage.registers_val (b : Build) (pCtx : CONTEXT) (msgBuf : List Char)
    (h : msgBuf.length ≤ 900) :
    (PrintCrashMessage.registers b pCtx msgBuf).val = some (msgBuf ++ registerLines b pCtx) := by
  have h1 := hexUpper_length_le pCtx.Rip
  have h2 := hexUpper_length_le pCtx.Rsp
  have h3 := hexUpper_length_le pCtx.Rbp
  unfold PrintCrashMessage.registers registerLines
  simp only [Run.bind_eq]
  split_ifs
  · rw [sprintf_s_fit (by
      simp only [List.length_append, String.toList, List.length_cons, List.length_nil]; omega)]
    simp only [Run.val_bind, cout_val, Option.some_bind, Run.pure_val, val_pure]
  · simp only [val_pure, List.append_nil]

theorem PrintCrashMessage.askDump_val (host : Host) (bAskDump : Bool) (msgBuf : List Char)
    (h : msgBuf.length ≤ 1023) :
    (PrintCrashMessage.askDump host bAskDump msgBuf).val =
      some (if bAskDump then decide (host.MessageBoxA = IDYES) else true) := by
  have hq := dumpQuestion_length
  unfold PrintCrashMessage.askDump
  simp only [Run.bind_eq]
  split_ifs
  · rw [sprintf_s_fit (by simp only [List.length_append, List.length_nil]; omega)]
    simp only [Run.pure_bind, Run.val_bind, emit_val, Option.some_bind, val_pure]
  · rfl

theorem PrintCrashMessage_val (b : Build) (host : Host) (p : EXCEPTION_POINTERS)
    (bAskDump : Bool)
    (hb : b.BUILD_GIT_REVISION.length + b.BUILD_GIT_BRANCH.length ≤ 700) :
    (PrintCrashMessage b host p bAskDump).val =
      some ⟨diagnosisOf p.ExceptionRecord, messageOf b p,
        if bAskDump then decide (host.MessageBoxA = IDYES) else true⟩ := by
  have h1 := GetExceptionCodeString_length_le p.ExceptionRecord.ExceptionCode
  have h2 := hexUpper_length_le p.ExceptionRecord.ExceptionAddress
  have h3 := headerLines_length_le p.ExceptionRecord
  have h4 := accessLine_length_le p.ExceptionRecord
  have h5 := diagnosisSection_length_le p.ExceptionRecord
  have h6 := registerLines_length_le b p.ContextRecord
  have h7 := buildLine_length b
  have h8 := diagnosisOf_length_le p.ExceptionRecord
  unfold PrintCrashMessage
  simp only [Run.bind_eq]
  rw [sprintf_s_fit (by
    simp only [List.length_append, String.toList, List.length_cons, List.length_nil]; omega),
    Run.pure_bind]
  rw [sprintf_s_fit (by
    simp only [List.length_append, String.toList, List.length_cons, List.length_nil]; omega),
    Run.pure_bind]
  have e1 : ([] ++ ("[ CRASH ]\n\nCode: ".toList ++
      GetExceptionCodeString p.ExceptionRecord.ExceptionCode ++ "\n".toList) ++
      ("Address: 0x".toList ++ hexUpper (ull p.ExceptionRecord.ExceptionAddress) ++ "\n".toList))
      = headerLines p.ExceptionRecord := by
    unfold headerLines; simp only [List.nil_append]
  rw [e1]
  simp only [Run.val_bind, cout_val, Option.some_bind]
  rw [PrintCrashMessage.diagnose_val _ _ (by omega)]
  simp only [Option.some_bind]
  have e2 : (if diagnosisOf p.ExceptionRecord ≠ [] then
      sprintf_s (headerLines p.ExceptionRecord ++ accessLine p.ExceptionRecord) 1024
        ("\nDiagnosis:\n".toList ++ diagnosisOf p.ExceptionRecord ++ "\n".toList)
      else pure (headerLines p.ExceptionRecord ++ accessLine p.ExceptionRecord)) =
      Run.pure (headerLines p.ExceptionRecord ++ accessLine p.ExceptionRecord ++
        diagnosisSection (diagnosisOf p.ExceptionRecord)) := by
    unfold diagnosisSection
    split_ifs
    · rw [sprintf_s_fit (by
        simp only [List.length_append, String.toList, List.length_cons, List.length_nil]; omega)]
    · rw [List.append_nil]; rfl
  rw [e2]
  simp only [Run.pure_val, val_pure, Option.some_bind]
  rw [PrintCrashMessage.registers_val _ _ _ (by simp only [List.length_append]; omega)]
  simp only [Option.some_bind]
  rw [sprintf_s_fit (by
    unfold buildLine at h7
    simp only [List.length_append, String.toList, List.length_cons, List.length_nil] at h7 ⊢
    omega)]
  simp only [Run.pure_val, val_pure, Option.some_bind]
  rw [PrintCrashMessage.askDump_val _ _ _ (by
    unfold buildLine at h7
    simp only [List.length_append, String.toList, List.length_cons, List.length_nil] at h7 ⊢
    omega)]
  simp only [Option.some_bind]
  rfl

/-! ## What the filters return -/

theorem MakeSafeFilenameLoop_length_le (n : Nat) (src : List Char) :
    (MakeSafeFilenameLoop n src).length ≤ n := by
  induction n generalizing src with
  | zero => simp [MakeSafeFilenameLoop]
  | succ n ih =>
    cases src with
    | nil => simp [MakeSafeFilenameLoop]
    | cons c rest =>
      unfold MakeSafeFilenameLoop
      split_ifs
      · simp
      · simp only [List.length_cons]
        exact Nat.succ_le_succ (ih rest)
      · simp only [List.length_cons]
        exact Nat.succ_le_succ (ih rest)

theorem MakeSafeFilename_128_length_le (src : List Char) :
    (MakeSafeFilename 128 src).length ≤ 127 := by
  unfold MakeSafeFilename
  exact MakeSafeFilenameLoop_length_le 127 src

theorem WriteMiniDump_val (host : Host) (p : EXCEPTION_POINTERS) (filename : List Char) :
    (WriteMiniDump host p filename).val =
      some (match host.CreateFileW with
        | none => false
        | some _ => decide (host.MiniDumpWriteDump ≠ 0)) := by
  unfold WriteMiniDump
  simp only [Run.bind_eq, Run.val_bind, emit_val, Option.some_bind]
  cases host.CreateFileW <;>
    simp only [Run.bind_eq, Run.val_bind, emit_val, cout_val, Option.some_bind, val_pure]

theorem ExceptionFilter_val (b : Build) (host : Host) (p : EXCEPTION_POINTERS)
    (hb : b.BUILD_GIT_REVISION.length + b.BUILD_GIT_BRANCH.length ≤ 700) :
    (ExceptionFilter b host p).val =
      some (if p.ExceptionRecord.ExceptionCode = EXCEPTION_ACCESS_VIOLATION ∨
          p.ExceptionRecord.ExceptionCode = EXCEPTION_INT_DIVIDE_BY_ZERO ∨
          p.ExceptionRecord.ExceptionCode = EXCEPTION_STACK_OVERFLOW
        then EXCEPTION_EXECUTE_HANDLER else EXCEPTION_CONTINUE_SEARCH) := by
  unfold ExceptionFilter
  simp only [Run.bind_eq, Run.val_bind, PrintCrashMessage_val b host p false hb,
    Option.some_bind]
  split_ifs <;> simp only [Run.bind_eq, Run.val_bind, cout_val, Option.some_bind, val_pure]

theorem DumpFilter_val (b : Build) (host : Host) (p : EXCEPTION_POINTERS)
    (hr : b.BUILD_GIT_REVISION.length ≤ 113)
    (hb : b.BUILD_GIT_REVISION.length + b.BUILD_GIT_BRANCH.length ≤ 700) :
    (DumpFilter b host p).val = some EXCEPTION_EXECUTE_HANDLER := by
  have hs := MakeSafeFilename_128_length_le b.BUILD_GIT_BRANCH
  unfold DumpFilter swprintf_s widen
  simp only [Run.bind_eq, Run.val_bind, cout_val, PrintCrashMessage_val b host p true hb,
    Option.some_bind, reduceIte]
  by_cases hyes : host.MessageBoxA = IDYES
  · simp only [hyes, decide_True, reduceIte]
    rw [sprintf_s_fit (by
      simp only [List.length_append, String.toList, List.length_cons, List.length_nil]; omega)]
    simp only [Run.val_bind, Run.pure_val, Option.some_bind, cout_val, WriteMiniDump_val]
    split_ifs <;> simp only [Run.bind_eq, Run.val_bind, cout_val, Option.some_bind, val_pure]
  · simp only [hyes, decide_False, Bool.false_eq_true, reduceIte, Run.val_bind, cout_val,
      Option.some_bind, val_pure]

theorem GameCrashFilter_val (b : Build) (host : Host) (p : EXCEPTION_POINTERS)
    (hr : b.BUILD_GIT_REVISION.length ≤ 113)
    (hb : b.BUILD_GIT_REVISION.length + b.BUILD_GIT_BRANCH.length ≤ 700) :
    (GameSim.GameCrashFilter b host p).val = some EXCEPTION_EXECUTE_HANDLER := by
  have hs := MakeSafeFilename_128_length_le b.BUILD_GIT_BRANCH
  unfold GameSim.GameCrashFilter swprintf_s widen
  simp only [Run.bind_eq, Run.val_bind, cout_val, PrintCrashMessage_val b host p true hb,
    Option.some_bind, reduceIte]
  by_cases hyes : host.MessageBoxA = IDYES
  · simp only [hyes, decide_True, reduceIte]
    rw [sprintf_s_fit (by
      simp only [List.length_append, String.toList, List.length_cons, List.length_nil]; omega)]
    simp only [Run.val_bind, Run.pure_val, Option.some_bind, cout_val, WriteMiniDump_val]
    split_ifs <;> simp only [Run.bind_eq, Run.val_bind, cout_val, Option.some_bind, val_pure]
  · simp only [hyes, decide_False, Bool.false_eq_true, reduceIte, Run.val_bind, cout_val,
      Option.some_bind, val_pure]

/-! ## Events of PrintCrashMessage do not depend on the host -/

theorem elim_nil_nil {α β : Type} (o : Option α) :
    o.elim ([] : List β) (fun _ => []) = [] := by
  cases o <;> rfl

theorem PrintCrashMessage.askDump_trace (host : Host) (bAskDump : Bool) (msgBuf : List Char) :
    (PrintCrashMessage.askDump host bAskDump msgBuf).trace =
      if bAskDump then
        (sprintf_s [] 1280 (msgBuf ++ dumpQuestion)).trace ++
          (sprintf_s [] 1280 (msgBuf ++ dumpQuestion)).val.elim []
            (fun fullMsg =>
              [Event.messageBoxA fullMsg "ZeroCrashLab - Crash Detected".toList])
      else [] := by
  unfold PrintCrashMessage.askDump
  split_ifs
  · simp only [Run.bind_eq, Run.trace_bind, emit_trace, emit_val, trace_pure,
      Option.elim_some, List.append_nil]
  · rfl

theorem PrintCrashMessage_trace_host (b : Build) (host host' : Host) (p : EXCEPTION_POINTERS)
    (bAskDump : Bool) :
    (PrintCrashMessage b host p bAskDump).trace = (PrintCrashMessage b host' p bAskDump).trace := by
  unfold PrintCrashMessage
  simp only [Run.bind_eq, Run.trace_bind, trace_pure, elim_nil_nil, List.append_nil,
    PrintCrashMessage.askDump_trace]

theorem DumpFilter_trace (b : Build) (host : Host) (p : EXCEPTION_POINTERS) :
    ∃ rest, (DumpFilter b host p).trace =
      Event.cout "\n".toList :: (PrintCrashMessage b host p true).trace ++ rest := by
  unfold DumpFilter
  simp only [Run.bind_eq, Run.trace_bind, cout_trace, cout_val, Option.elim_some,
    List.singleton_append, List.cons.injEq, true_and]
  exact ⟨_, rfl⟩

theorem GameCrashFilter_trace (b : Build) (host : Host) (p : EXCEPTION_POINTERS) :
    ∃ rest, (GameSim.GameCrashFilter b host p).trace =
      [Event.cout (lit "\n  ╔══════════════════════════════════════════╗\n"),
       Event.cout (lit "  ║       GAME CRASH DETECTED!               ║\n"),
       Event.cout (lit "  ╚══════════════════════════════════════════╝\n")] ++
      (PrintCrashMessage b host p true).trace ++ rest := by
  unfold GameSim.GameCrashFilter
  simp only [Run.bind_eq, Run.trace_bind, cout_trace, cout_val, Option.elim_some,
    List.singleton_append, List.cons_append, List.nil_append, List.cons.injEq, true_and]
  exact ⟨_, rfl⟩


theorem mem_trace_bind {α β : Type} {m : Run α} {f : α → Run β} {a : α} {e : Event}
    (h : m.val = some a) (he : e ∈ (f a).trace) : e ∈ (m.bind f).trace := by
  rw [Run.trace_bind, h]
  exact List.mem_append_right _ he

theorem mem_trace_bind_left {α β : Type} {m : Run α} {f : α → Run β} {e : Event}
    (he : e ∈ m.trace) : e ∈ (m.bind f).trace := by
  rw [Run.trace_bind]
  exact List.mem_append_left _ he

theorem PrintCrashMessage_dialog (b : Build) (host : Host) (p : EXCEPTION_POINTERS)
    (hb : b.BUILD_GIT_REVISION.length + b.BUILD_GIT_BRANCH.length ≤ 700) :
    Event.messageBoxA (messageOf b p ++ dumpQuestion) "ZeroCrashLab - Crash Detected".toList ∈
      (PrintCrashMessage b host p true).trace := by
  have h1 := GetExceptionCodeString_length_le p.ExceptionRecord.ExceptionCode
  have h2 := hexUpper_length_le p.ExceptionRecord.ExceptionAddress
  have h3 := headerLines_length_le p.ExceptionRecord
  have h4 := accessLine_length_le p.ExceptionRecord
  have h5 := diagnosisSection_length_le p.ExceptionRecord
  have h6 := registerLines_length_le b p.ContextRecord
  have h7 := buildLine_length b
  have h8 := diagnosisOf_length_le p.ExceptionRecord
  have hq := dumpQuestion_length
  have hlen : (messageOf b p).length ≤ 1023 := by
    unfold messageOf
    simp only [List.length_append]
    omega
  unfold PrintCrashMessage
  simp only [Run.bind_eq]
  refine mem_trace_bind (a := "[ CRASH ]\n\nCode: ".toList ++
    GetExceptionCodeString p.ExceptionRecord.ExceptionCode ++ "\n".toList) ?_ ?_
  · rw [sprintf_s_fit (by
      simp only [List.length_append, String.toList, List.length_cons, List.length_nil]; omega)]
    rfl
  refine mem_trace_bind (a := headerLines p.ExceptionRecord) ?_ ?_
  · rw [sprintf_s_fit (by
      simp only [List.length_append, String.toList, List.length_cons, List.length_nil]; omega)]
    rfl
  refine mem_trace_bind (cout_val _) ?_
  refine mem_trace_bind (cout_val _) ?_
  refine mem_trace_bind (cout_val _) ?_
  refine mem_trace_bind (PrintCrashMessage.diagnose_val _ _ (by omega)) ?_
  refine mem_trace_bind (a := headerLines p.ExceptionRecord ++ accessLine p.ExceptionRecord ++
    diagnosisSection (diagnosisOf p.ExceptionRecord)) ?_ ?_
  · unfold diagnosisSection
    split_ifs
    · rw [sprintf_s_fit (by
        simp only [List.length_append, String.toList, List.length_cons, List.length_nil]; omega)]
      rfl
    · rw [List.append_nil]; rfl
  refine mem_trace_bind (PrintCrashMessage.registers_val _ _ _ (by
    simp only [List.length_append]; omega)) ?_
  refine mem_trace_bind (a := messageOf b p) ?_ ?_
  · rw [sprintf_s_fit (by
      unfold buildLine at h7
      simp only [List.length_append, String.toList, List.length_cons, List.length_nil] at h7 ⊢
      omega)]
    rfl
  refine mem_trace_bind (cout_val _) ?_
  refine mem_trace_bind (cout_val _) ?_
  refine mem_trace_bind_left ?_
  rw [PrintCrashMessage.askDump_trace, if_pos rfl,
    sprintf_s_fit (by simp only [List.length_append, List.length_nil]; omega)]
  simp [Run.pure]

/-! ## Facts on the closed forms -/

theorem diagnosisOf_accessViolation (r : EXCEPTION_RECORD)
    (hcode : r.ExceptionCode = EXCEPTION_ACCESS_VIOLATION) (hn : r.NumberParameters ≥ 2) :
    diagnosisOf r =
      if r.ExceptionInformation 1 = 0 then diagNullDeref
      else if r.ExceptionInformation 1 < 0x10000 then diagLowAddress
      else diagFreedOrInvalid := by
  unfold diagnosisOf
  rw [if_pos ⟨hcode, hn⟩]

theorem accessLine_accessViolation (r : EXCEPTION_RECORD)
    (hcode : r.ExceptionCode = EXCEPTION_ACCESS_VIOLATION) (hn : r.NumberParameters ≥ 2) :
    accessLine r = "\n".toList ++ accessAction (r.ExceptionInformation 0) ++ " at 0x".toList ++
      hexUpper (ull (r.ExceptionInformation 1)) ++ "\n".toList := by
  unfold accessLine
  rw [if_pos ⟨hcode, hn⟩]

theorem diagnosisOf_of_not_accessViolation (r : EXCEPTION_RECORD)
    (h : ¬(r.ExceptionCode = EXCEPTION_ACCESS_VIOLATION ∧ r.NumberParameters ≥ 2)) :
    diagnosisOf r =
      if r.ExceptionCode = EXCEPTION_INT_DIVIDE_BY_ZERO then diagIntDivide
      else if r.ExceptionCode = EXCEPTION_STACK_OVERFLOW then diagStackOverflow
      else if r.ExceptionCode = EXCEPTION_ILLEGAL_INSTRUCTION then diagIllegalInstruction
      else if r.ExceptionCode = EXCEPTION_BREAKPOINT then diagBreakpoint
      else [] := by
  unfold diagnosisOf
  rw [if_neg h]

theorem accessLine_of_not_accessViolation (r : EXCEPTION_RECORD)
    (h : ¬(r.ExceptionCode = EXCEPTION_ACCESS_VIOLATION ∧ r.NumberParameters ≥ 2)) :
    accessLine r = [] := by
  unfold accessLine
  rw [if_neg h]

theorem accessLine_in_messageOf (b : Build) (p : EXCEPTION_POINTERS) :
    accessLine p.ExceptionRecord <:+: messageOf b p := by
  unfold messageOf
  exact ⟨headerLines p.ExceptionRecord,
    diagnosisSection (diagnosisOf p.ExceptionRecord) ++ registerLines b p.ContextRecord ++
      buildLine b, by simp only [List.append_assoc]⟩

theorem diagnosisSection_in_messageOf (b : Build) (p : EXCEPTION_POINTERS) :
    diagnosisSection (diagnosisOf p.ExceptionRecord) <:+: messageOf b p := by
  unfold messageOf
  exact ⟨headerLines p.ExceptionRecord ++ accessLine p.ExceptionRecord,
    registerLines b p.ContextRecord ++ buildLine b, by simp only [List.append_assoc]⟩

/-! ## The claims -/

set_option maxRecDepth 100000

/-- The whole report for a write to address 0 under the sample build, evaluated. -/
theorem PrintCrashMessage_sample :
    (PrintCrashMessage sampleBuild hostYes (accessViolation 1 0) false).val =
      some
        { diagnosis := "nullptr dereference!\nCheck pointer initialization.".toList
          msgBuf :=
            ("[ CRASH ]\n\nCode: EXCEPTION_ACCESS_VIOLATION (0xC0000005)\n" ++
              "Address: 0x7FF6A0001234\n\nWrite at 0x0\n\nDiagnosis:\n" ++
              "nullptr dereference!\nCheck pointer initialization.\n" ++
              "\nRIP: 0x7FF6A0001234\nRSP: 0x14FE20\nRBP: 0x14FE60\n" ++
              "\nBuild: a1b2c3d (claude/infallible-dubinsky)").toList
          result := true } :=
  (PrintCrashMessage_val sampleBuild hostYes (accessViolation 1 0) false (by decide)).trans
    (by decide)

/-- C1: for every access-violation record that carries its parameters
(`NumberParameters >= 2`) and whose target address is 0, whatever the access flag,
`PrintCrashMessage` returns with the null-dereference diagnosis, and the message
text in `msgBuf` contains "nullptr dereference!".  The build strings are assumed to
fit `msgBuf` (revision and branch together at most 700 characters). -/
theorem null_dereference_diagnosis (b : Build) (host : Host) (p : EXCEPTION_POINTERS)
    (bAskDump : Bool)
    (hb : b.BUILD_GIT_REVISION.length + b.BUILD_GIT_BRANCH.length ≤ 700)
    (hcode : p.ExceptionRecord.ExceptionCode = EXCEPTION_ACCESS_VIOLATION)
    (hn : p.ExceptionRecord.NumberParameters ≥ 2)
    (ht : p.ExceptionRecord.ExceptionInformation 1 = 0) :
    ∃ m, (PrintCrashMessage b host p bAskDump).val = some m ∧
      m.diagnosis = diagNullDeref ∧ "nullptr dereference!".toList <:+: m.msgBuf := by
  have hd : diagnosisOf p.ExceptionRecord = diagNullDeref := by
    rw [diagnosisOf_accessViolation _ hcode hn, if_pos ht]
  refine ⟨_, PrintCrashMessage_val b host p bAskDump hb, hd, ?_⟩
  refine List.IsInfix.trans ?_ (diagnosisSection_in_messageOf b p)
  rw [hd]
  exact ⟨"\nDiagnosis:\n".toList, "\nCheck pointer initialization.\n".toList, by decide⟩

theorem null_dereference_diagnosis_witness :
    ∃ m, (PrintCrashMessage sampleBuild hostYes (accessViolation 1 0) false).val = some m ∧
      m.diagnosis = diagNullDeref ∧ "nullptr dereference!".toList <:+: m.msgBuf :=
  null_dereference_diagnosis sampleBuild hostYes (accessViolation 1 0) false
    (by decide) (by decide) (by decide) (by decide)


/-- C2: for every access-violation record that carries its parameters and whose
target address `t` is not 0, the diagnosis is the low-address one exactly when
`t < 0x10000` and the freed-or-invalid-memory one exactly when `t >= 0x10000`. -/
theorem low_address_threshold (b : Build) (host : Host) (p : EXCEPTION_POINTERS)
    (bAskDump : Bool)
    (hb : b.BUILD_GIT_REVISION.length + b.BUILD_GIT_BRANCH.length ≤ 700)
    (hcode : p.ExceptionRecord.ExceptionCode = EXCEPTION_ACCESS_VIOLATION)
    (hn : p.ExceptionRecord.NumberParameters ≥ 2)
    (ht : p.ExceptionRecord.ExceptionInformation 1 ≠ 0) :
    ∃ m, (PrintCrashMessage b host p bAskDump).val = some m ∧
      (m.diagnosis = diagLowAddress ↔ p.ExceptionRecord.ExceptionInformation 1 < 0x10000) ∧
      (m.diagnosis = diagFreedOrInvalid ↔ 0x10000 ≤ p.ExceptionRecord.ExceptionInformation 1) := by
  have hne : diagLowAddress ≠ diagFreedOrInvalid := by decide
  have hd := diagnosisOf_accessViolation _ hcode hn
  rw [if_neg ht] at hd
  refine ⟨_, PrintCrashMessage_val b host p bAskDump hb, ?_, ?_⟩
  · show diagnosisOf p.ExceptionRecord = _ ↔ _
    rw [hd]
    by_cases hlt : p.ExceptionRecord.ExceptionInformation 1 < 0x10000
    · rw [if_pos hlt]; exact ⟨fun _ => hlt, fun _ => rfl⟩
    · rw [if_neg hlt]; exact ⟨fun h => absurd h.symm hne, fun h => absurd h hlt⟩
  · show diagnosisOf p.ExceptionRecord = _ ↔ _
    rw [hd]
    by_cases hlt : p.ExceptionRecord.ExceptionInformation 1 < 0x10000
    · rw [if_pos hlt]; exact ⟨fun h => absurd h hne, fun h => absurd hlt (Nat.not_lt.mpr h)⟩
    · rw [if_neg hlt]; exact ⟨fun _ => Nat.not_lt.mp hlt, fun _ => rfl⟩

theorem low_address_threshold_witness :
    (∃ m, (PrintCrashMessage sampleBuild hostYes (accessViolation 0 0x800) false).val = some m ∧
      m.diagnosis = diagLowAddress) ∧
    (∃ m, (PrintCrashMessage sampleBuild hostYes (accessViolation 0 0xFFFF) false).val = some m ∧
      m.diagnosis = diagLowAddress) ∧
    (∃ m, (PrintCrashMessage sampleBuild hostYes (accessViolation 0 0x10000) false).val = some m ∧
      m.diagnosis = diagFreedOrInvalid) :=
  ⟨(low_address_threshold sampleBuild hostYes (accessViolation 0 0x800) false
      (by decide) (by decide) (by decide) (by decide)).elim
      fun m hm => ⟨m, hm.1, hm.2.1.mpr (by decide)⟩,
   (low_address_threshold sampleBuild hostYes (accessViolation 0 0xFFFF) false
      (by decide) (by decide) (by decide) (by decide)).elim
      fun m hm => ⟨m, hm.1, hm.2.1.mpr (by decide)⟩,
   (low_address_threshold sampleBuild hostYes (accessViolation 0 0x10000) false
      (by decide) (by decide) (by decide) (by decide)).elim
      fun m hm => ⟨m, hm.1, hm.2.2.mpr (by decide)⟩⟩

/-- C3 as amended: for an access-violation record with parameters whose access
flag is 8 (execute), the message names the access as "DEP Execute at 0x<target>"
and the diagnosis is chosen by the target address alone, as for every other access
flag: null dereference at 0, low address below 0x10000, freed or invalid memory
from 0x10000 on. -/
theorem execute_access_diagnosed_by_address (b : Build) (host : Host) (p : EXCEPTION_POINTERS)
    (bAskDump : Bool)
    (hb : b.BUILD_GIT_REVISION.length + b.BUILD_GIT_BRANCH.length ≤ 700)
    (hcode : p.ExceptionRecord.ExceptionCode = EXCEPTION_ACCESS_VIOLATION)
    (hn : p.ExceptionRecord.NumberParameters ≥ 2)
    (hx : p.ExceptionRecord.ExceptionInformation 0 = 8) :
    ∃ m, (PrintCrashMessage b host p bAskDump).val = some m ∧
      m.diagnosis =
        (if p.ExceptionRecord.ExceptionInformation 1 = 0 then diagNullDeref
         else if p.ExceptionRecord.ExceptionInformation 1 < 0x10000 then diagLowAddress
         else diagFreedOrInvalid) ∧
      ("\nDEP Execute at 0x".toList ++
        hexUpper (ull (p.ExceptionRecord.ExceptionInformation 1)) ++ "\n".toList) <:+: m.msgBuf := by
  refine ⟨_, PrintCrashMessage_val b host p bAskDump hb,
    diagnosisOf_accessViolation _ hcode hn, ?_⟩
  refine List.IsInfix.trans ?_ (accessLine_in_messageOf b p)
  rw [accessLine_accessViolation _ hcode hn, hx]
  exact ⟨[], [], by simp [accessAction]⟩

theorem execute_access_diagnosed_by_address_witness :
    ∃ m, (PrintCrashMessage sampleBuild hostYes (accessViolation 8 0x14FE20) false).val = some m ∧
      m.diagnosis = diagFreedOrInvalid ∧ "\nDEP Execute at 0x14FE20\n".toList <:+: m.msgBuf :=
  (execute_access_diagnosed_by_address sampleBuild hostYes (accessViolation 8 0x14FE20) false
    (by decide) (by decide) (by decide) (by decide)).elim
    fun m hm => ⟨m, hm.1, hm.2.1.trans (by decide), hm.2.2⟩

/-- C3 fails as stated: two execute accesses (flag 8), one at address 0 and one at
0x14FE20, get two different diagnoses, the ones of a null dereference and of freed
or invalid memory; there is no execute-protection category that holds whatever the
target address. -/
theorem execute_category_counterexample :
    (∃ m, (PrintCrashMessage sampleBuild hostYes (accessViolation 8 0) false).val = some m ∧
      m.diagnosis = diagNullDeref) ∧
    (∃ m, (PrintCrashMessage sampleBuild hostYes (accessViolation 8 0x14FE20) false).val = some m ∧
      m.diagnosis = diagFreedOrInvalid) ∧
    diagNullDeref ≠ diagFreedOrInvalid :=
  ⟨⟨_, PrintCrashMessage_val sampleBuild hostYes (accessViolation 8 0) false (by decide),
      by decide⟩,
   ⟨_, PrintCrashMessage_val sampleBuild hostYes (accessViolation 8 0x14FE20) false (by decide),
      by decide⟩,
   by decide⟩

/-- C4: each of the codes integer-divide-by-zero, stack-overflow,
illegal-instruction and breakpoint gets its one fixed diagnosis, for every record
with that code: nothing but the code is assumed of the record, so the number of
parameters, their values, the fault address and the registers play no part. -/
theorem fixed_diagnosis_of_code (b : Build) (host : Host) (p : EXCEPTION_POINTERS)
    (bAskDump : Bool)
    (hb : b.BUILD_GIT_REVISION.length + b.BUILD_GIT_BRANCH.length ≤ 700) :
    ∃ m, (PrintCrashMessage b host p bAskDump).val = some m ∧
      (p.ExceptionRecord.ExceptionCode = EXCEPTION_INT_DIVIDE_BY_ZERO →
        m.diagnosis = diagIntDivide) ∧
      (p.ExceptionRecord.ExceptionCode = EXCEPTION_STACK_OVERFLOW →
        m.diagnosis = diagStackOverflow) ∧
      (p.ExceptionRecord.ExceptionCode = EXCEPTION_ILLEGAL_INSTRUCTION →
        m.diagnosis = diagIllegalInstruction) ∧
      (p.ExceptionRecord.ExceptionCode = EXCEPTION_BREAKPOINT →
        m.diagnosis = diagBreakpoint) := by
  refine ⟨_, PrintCrashMessage_val b host p bAskDump hb, ?_, ?_, ?_, ?_⟩
  all_goals
    intro hc
    show diagnosisOf p.ExceptionRecord = _
    rw [diagnosisOf_of_not_accessViolation _ (fun h => absurd (hc.symm.trans h.1) (by decide)),
      hc]
    decide

theorem fixed_diagnosis_of_code_witness :
    (∃ m, (PrintCrashMessage sampleBuild hostYes
        (faultWithCode EXCEPTION_INT_DIVIDE_BY_ZERO) false).val = some m ∧
      m.diagnosis = diagIntDivide) ∧
    (∃ m, (PrintCrashMessage sampleBuild hostNo
        (faultWithCode EXCEPTION_BREAKPOINT) true).val = some m ∧
      m.diagnosis = diagBreakpoint) :=
  ⟨(fixed_diagnosis_of_code sampleBuild hostYes (faultWithCode EXCEPTION_INT_DIVIDE_BY_ZERO)
      false (by decide)).elim fun m hm => ⟨m, hm.1, hm.2.1 rfl⟩,
   (fixed_diagnosis_of_code sampleBuild hostNo (faultWithCode EXCEPTION_BREAKPOINT)
      true (by decide)).elim fun m hm => ⟨m, hm.1, hm.2.2.2.2 rfl⟩⟩

/-- C5: `PrintCrashMessage` is total: for every exception code and every record
it returns a report, and for every code other than access violation, integer divide
by zero, stack overflow, illegal instruction and breakpoint the diagnosis is empty
and the message consists of the header lines, the register lines and the build line
only, with no Diagnosis section. -/
theorem classification_total (b : Build) (host : Host) (p : EXCEPTION_POINTERS)
    (bAskDump : Bool)
    (hb : b.BUILD_GIT_REVISION.length + b.BUILD_GIT_BRANCH.length ≤ 700) :
    ∃ m, (PrintCrashMessage b host p bAskDump).val = some m ∧
      (p.ExceptionRecord.ExceptionCode ≠ EXCEPTION_ACCESS_VIOLATION →
       p.ExceptionRecord.ExceptionCode ≠ EXCEPTION_INT_DIVIDE_BY_ZERO →
       p.ExceptionRecord.ExceptionCode ≠ EXCEPTION_STACK_OVERFLOW →
       p.ExceptionRecord.ExceptionCode ≠ EXCEPTION_ILLEGAL_INSTRUCTION →
       p.ExceptionRecord.ExceptionCode ≠ EXCEPTION_BREAKPOINT →
        m.diagnosis = [] ∧
        m.msgBuf = headerLines p.ExceptionRecord ++ registerLines b p.ContextRecord ++
          buildLine b) := by
  refine ⟨_, PrintCrashMessage_val b host p bAskDump hb, ?_⟩
  intro h1 h2 h3 h4 h5
  have hna : ¬(p.ExceptionRecord.ExceptionCode = EXCEPTION_ACCESS_VIOLATION ∧
      p.ExceptionRecord.NumberParameters ≥ 2) := fun h => h1 h.1
  have hd : diagnosisOf p.ExceptionRecord = [] := by
    rw [diagnosisOf_of_not_accessViolation _ hna, if_neg h2, if_neg h3, if_neg h4, if_neg h5]
  refine ⟨hd, ?_⟩
  show messageOf b p = _
  unfold messageOf
  rw [hd, accessLine_of_not_accessViolation _ hna]
  simp [diagnosisSection]

theorem classification_total_witness :
    GetExceptionCodeString EXCEPTION_PRIV_INSTRUCTION =
      "EXCEPTION_PRIV_INSTRUCTION (0xC0000096)".toList ∧
    GetExceptionCodeString EXCEPTION_FLT_DIVIDE_BY_ZERO =
      "EXCEPTION_FLT_DIVIDE_BY_ZERO (0xC000008E)".toList ∧
    (∃ m, (PrintCrashMessage sampleBuild hostYes
        (faultWithCode EXCEPTION_PRIV_INSTRUCTION) false).val = some m ∧ m.diagnosis = []) ∧
    (∃ m, (PrintCrashMessage sampleBuild hostYes
        (faultWithCode EXCEPTION_FLT_DIVIDE_BY_ZERO) false).val = some m ∧ m.diagnosis = []) ∧
    (∃ m, (PrintCrashMessage sampleBuild hostYes (faultWithCode 0xE06D7363) false).val = some m ∧
      m.diagnosis = [] ∧
      m.msgBuf = ("[ CRASH ]\n\nCode: UNKNOWN\nAddress: 0x7FF6A0001234\n" ++
        "\nRIP: 0x7FF6A0001234\nRSP: 0x14FE20\nRBP: 0x14FE60\n" ++
        "\nBuild: a1b2c3d (claude/infallible-dubinsky)").toList) :=
  ⟨by decide, by decide,
   (classification_total sampleBuild hostYes (faultWithCode EXCEPTION_PRIV_INSTRUCTION) false
      (by decide)).elim fun m hm =>
        ⟨m, hm.1, (hm.2 (by decide) (by decide) (by decide) (by decide) (by decide)).1⟩,
   (classification_total sampleBuild hostYes (faultWithCode EXCEPTION_FLT_DIVIDE_BY_ZERO) false
      (by decide)).elim fun m hm =>
        ⟨m, hm.1, (hm.2 (by decide) (by decide) (by decide) (by decide) (by decide)).1⟩,
   (classification_total sampleBuild hostYes (faultWithCode 0xE06D7363) false
      (by decide)).elim fun m hm =>
        have h := hm.2 (by decide) (by decide) (by decide) (by decide) (by decide)
        ⟨m, hm.1, h.1, h.2.trans (by decide)⟩⟩

/-- C6 as amended: for an access-violation record without its parameters
(`NumberParameters < 2`) there is no fallback diagnosis: the diagnosis is empty and
the message has neither an access line nor a Diagnosis section; its Code line still
names EXCEPTION_ACCESS_VIOLATION (0xC0000005). -/
theorem access_violation_without_parameters (b : Build) (host : Host) (p : EXCEPTION_POINTERS)
    (bAskDump : Bool)
    (hb : b.BUILD_GIT_REVISION.length + b.BUILD_GIT_BRANCH.length ≤ 700)
    (hcode : p.ExceptionRecord.ExceptionCode = EXCEPTION_ACCESS_VIOLATION)
    (hn : p.ExceptionRecord.NumberParameters < 2) :
    ∃ m, (PrintCrashMessage b host p bAskDump).val = some m ∧
      m.diagnosis = [] ∧
      m.msgBuf = "[ CRASH ]\n\nCode: EXCEPTION_ACCESS_VIOLATION (0xC0000005)\n".toList ++
        ("Address: 0x".toList ++ hexUpper (ull p.ExceptionRecord.ExceptionAddress) ++
          "\n".toList) ++
        registerLines b p.ContextRecord ++ buildLine b := by
  have hna : ¬(p.ExceptionRecord.ExceptionCode = EXCEPTION_ACCESS_VIOLATION ∧
      p.ExceptionRecord.NumberParameters ≥ 2) := fun h => absurd h.2 (Nat.not_le.mpr hn)
  have hd : diagnosisOf p.ExceptionRecord = [] := by
    rw [diagnosisOf_of_not_accessViolation _ hna, hcode]
    decide
  refine ⟨_, PrintCrashMessage_val b host p bAskDump hb, hd, ?_⟩
  show messageOf b p = _
  unfold messageOf headerLines
  rw [hd, accessLine_of_not_accessViolation _ hna, hcode]
  simp [diagnosisSection, GetExceptionCodeString]

theorem access_violation_without_parameters_witness :
    ∃ m, (PrintCrashMessage sampleBuild hostYes
        (faultWithCode EXCEPTION_ACCESS_VIOLATION) false).val = some m ∧
      m.diagnosis = [] ∧
      m.msgBuf = ("[ CRASH ]\n\nCode: EXCEPTION_ACCESS_VIOLATION (0xC0000005)\n" ++
        "Address: 0x7FF6A0001234\n" ++
        "\nRIP: 0x7FF6A0001234\nRSP: 0x14FE20\nRBP: 0x14FE60\n" ++
        "\nBuild: a1b2c3d (claude/infallible-dubinsky)").toList :=
  (access_violation_without_parameters sampleBuild hostYes
    (faultWithCode EXCEPTION_ACCESS_VIOLATION) false (by decide) (by decide) (by decide)).elim
    fun m hm => ⟨m, hm.1, hm.2.1, hm.2.2.trans (by decide)⟩

/-- C6 fails as stated: an access violation with `NumberParameters = 0` is
reported with an empty diagnosis. -/
theorem access_violation_fallback_counterexample :
    (faultWithCode EXCEPTION_ACCESS_VIOLATION).ExceptionRecord.ExceptionCode =
      EXCEPTION_ACCESS_VIOLATION ∧
    (faultWithCode EXCEPTION_ACCESS_VIOLATION).ExceptionRecord.NumberParameters < 2 ∧
    ∃ m, (PrintCrashMessage sampleBuild hostYes
        (faultWithCode EXCEPTION_ACCESS_VIOLATION) false).val = some m ∧ m.diagnosis = [] :=
  ⟨by decide, by decide,
   _, PrintCrashMessage_val sampleBuild hostYes (faultWithCode EXCEPTION_ACCESS_VIOLATION) false
      (by decide), by decide⟩

/-- C7: for every access-violation record that carries its parameters the message
contains the line "Read at 0x<target>" for access flag 0, "Write at 0x<target>" for
flag 1 and "DEP Execute at 0x<target>" for flag 8, the target in upper-case
hexadecimal. -/
theorem access_kind_line (b : Build) (host : Host) (p : EXCEPTION_POINTERS)
    (bAskDump : Bool)
    (hb : b.BUILD_GIT_REVISION.length + b.BUILD_GIT_BRANCH.length ≤ 700)
    (hcode : p.ExceptionRecord.ExceptionCode = EXCEPTION_ACCESS_VIOLATION)
    (hn : p.ExceptionRecord.NumberParameters ≥ 2) :
    ∃ m, (PrintCrashMessage b host p bAskDump).val = some m ∧
      (p.ExceptionRecord.ExceptionInformation 0 = 0 →
        ("\nRead at 0x".toList ++ hexUpper (ull (p.ExceptionRecord.ExceptionInformation 1)) ++
          "\n".toList) <:+: m.msgBuf) ∧
      (p.ExceptionRecord.ExceptionInformation 0 = 1 →
        ("\nWrite at 0x".toList ++ hexUpper (ull (p.ExceptionRecord.ExceptionInformation 1)) ++
          "\n".toList) <:+: m.msgBuf) ∧
      (p.ExceptionRecord.ExceptionInformation 0 = 8 →
        ("\nDEP Execute at 0x".toList ++
          hexUpper (ull (p.ExceptionRecord.ExceptionInformation 1)) ++ "\n".toList) <:+:
            m.msgBuf) := by
  have hi := accessLine_in_messageOf b p
  rw [accessLine_accessViolation _ hcode hn] at hi
  refine ⟨_, PrintCrashMessage_val b host p bAskDump hb, ?_, ?_, ?_⟩
  all_goals
    intro hf
    rw [hf] at hi
    refine List.IsInfix.trans ?_ hi
    exact ⟨[], [], by simp [accessAction]⟩

theorem access_kind_line_witness :
    (∃ m, (PrintCrashMessage sampleBuild hostYes (accessViolation 0 0x800) false).val = some m ∧
      "\nRead at 0x800\n".toList <:+: m.msgBuf) ∧
    (∃ m, (PrintCrashMessage sampleBuild hostYes (accessViolation 1 0) false).val = some m ∧
      "\nWrite at 0x0\n".toList <:+: m.msgBuf) ∧
    (∃ m, (PrintCrashMessage sampleBuild hostYes (accessViolation 8 0x14FE20) false).val =
        some m ∧
      "\nDEP Execute at 0x14FE20\n".toList <:+: m.msgBuf) :=
  ⟨(access_kind_line sampleBuild hostYes (accessViolation 0 0x800) false
      (by decide) (by decide) (by decide)).elim fun m hm => ⟨m, hm.1, hm.2.1 (by decide)⟩,
   (access_kind_line sampleBuild hostYes (accessViolation 1 0) false
      (by decide) (by decide) (by decide)).elim fun m hm => ⟨m, hm.1, hm.2.2.1 (by decide)⟩,
   (access_kind_line sampleBuild hostYes (accessViolation 8 0x14FE20) false
      (by decide) (by decide) (by decide)).elim fun m hm => ⟨m, hm.1, hm.2.2.2 (by decide)⟩⟩

/-- C8 as amended: `ExceptionFilter` returns EXCEPTION_EXECUTE_HANDLER exactly
for the codes access violation, integer divide by zero and stack overflow, and
EXCEPTION_CONTINUE_SEARCH for every other code, illegal instruction and breakpoint
included. -/
theorem ExceptionFilter_claims_three_codes (b : Build) (host : Host) (p : EXCEPTION_POINTERS)
    (hb : b.BUILD_GIT_REVISION.length + b.BUILD_GIT_BRANCH.length ≤ 700) :
    ((ExceptionFilter b host p).val = some EXCEPTION_EXECUTE_HANDLER ↔
      (p.ExceptionRecord.ExceptionCode = EXCEPTION_ACCESS_VIOLATION ∨
       p.ExceptionRecord.ExceptionCode = EXCEPTION_INT_DIVIDE_BY_ZERO ∨
       p.ExceptionRecord.ExceptionCode = EXCEPTION_STACK_OVERFLOW)) ∧
    ((ExceptionFilter b host p).val = some EXCEPTION_CONTINUE_SEARCH ↔
      ¬(p.ExceptionRecord.ExceptionCode = EXCEPTION_ACCESS_VIOLATION ∨
        p.ExceptionRecord.ExceptionCode = EXCEPTION_INT_DIVIDE_BY_ZERO ∨
        p.ExceptionRecord.ExceptionCode = EXCEPTION_STACK_OVERFLOW)) := by
  have hne : EXCEPTION_EXECUTE_HANDLER ≠ EXCEPTION_CONTINUE_SEARCH := by decide
  rw [ExceptionFilter_val b host p hb]
  by_cases hc : p.ExceptionRecord.ExceptionCode = EXCEPTION_ACCESS_VIOLATION ∨
      p.ExceptionRecord.ExceptionCode = EXCEPTION_INT_DIVIDE_BY_ZERO ∨
      p.ExceptionRecord.ExceptionCode = EXCEPTION_STACK_OVERFLOW
  · rw [if_pos hc]
    exact ⟨⟨fun _ => hc, fun _ => rfl⟩,
      ⟨fun h => absurd (Option.some.inj h) hne, fun h => absurd hc h⟩⟩
  · rw [if_neg hc]
    exact ⟨⟨fun h => absurd (Option.some.inj h).symm hne, fun h => absurd h hc⟩,
      ⟨fun _ => hc, fun _ => rfl⟩⟩

theorem ExceptionFilter_claims_three_codes_witness :
    (ExceptionFilter sampleBuild hostYes (accessViolation 1 0)).val =
      some EXCEPTION_EXECUTE_HANDLER ∧
    (ExceptionFilter sampleBuild hostYes (faultWithCode EXCEPTION_BREAKPOINT)).val =
      some EXCEPTION_CONTINUE_SEARCH :=
  ⟨(ExceptionFilter_claims_three_codes sampleBuild hostYes (accessViolation 1 0)
      (by decide)).1.mpr (by decide),
   (ExceptionFilter_claims_three_codes sampleBuild hostYes (faultWithCode EXCEPTION_BREAKPOINT)
      (by decide)).2.mpr (by decide)⟩

/-- C8 fails as stated: an illegal-instruction fault has a diagnosis (it is not
unclassified), yet `ExceptionFilter` returns EXCEPTION_CONTINUE_SEARCH for it. -/
theorem ExceptionFilter_defers_diagnosed_code :
    (∃ m, (PrintCrashMessage sampleBuild hostYes
        (faultWithCode EXCEPTION_ILLEGAL_INSTRUCTION) false).val = some m ∧
      m.diagnosis = diagIllegalInstruction ∧ m.diagnosis ≠ []) ∧
    (ExceptionFilter sampleBuild hostYes (faultWithCode EXCEPTION_ILLEGAL_INSTRUCTION)).val =
      some EXCEPTION_CONTINUE_SEARCH :=
  ⟨⟨_, PrintCrashMessage_val sampleBuild hostYes (faultWithCode EXCEPTION_ILLEGAL_INSTRUCTION)
      false (by decide), by decide, by decide⟩,
   (ExceptionFilter_val sampleBuild hostYes (faultWithCode EXCEPTION_ILLEGAL_INSTRUCTION)
      (by decide)).trans (by decide)⟩

/-- C9 as amended: for a fault whose diagnosis is empty (unclassified),
`DumpFilter` and `GameSim::GameCrashFilter` still claim the fault: both return
EXCEPTION_EXECUTE_HANDLER. -/
theorem dump_filters_claim_unclassified (b : Build) (host : Host) (p : EXCEPTION_POINTERS)
    (hr : b.BUILD_GIT_REVISION.length ≤ 113)
    (hb : b.BUILD_GIT_REVISION.length + b.BUILD_GIT_BRANCH.length ≤ 700)
    (_hu : ∃ m, (PrintCrashMessage b host p true).val = some m ∧ m.diagnosis = []) :
    (DumpFilter b host p).val = some EXCEPTION_EXECUTE_HANDLER ∧
    (GameSim.GameCrashFilter b host p).val = some EXCEPTION_EXECUTE_HANDLER :=
  ⟨DumpFilter_val b host p hr hb, GameCrashFilter_val b host p hr hb⟩

theorem dump_filters_claim_unclassified_witness :
    (DumpFilter sampleBuild hostYes (faultWithCode 0xE06D7363)).val =
      some EXCEPTION_EXECUTE_HANDLER ∧
    (GameSim.GameCrashFilter sampleBuild hostYes (faultWithCode 0xE06D7363)).val =
      some EXCEPTION_EXECUTE_HANDLER :=
  dump_filters_claim_unclassified sampleBuild hostYes (faultWithCode 0xE06D7363)
    (by decide) (by decide)
    ⟨_, PrintCrashMessage_val sampleBuild hostYes (faultWithCode 0xE06D7363) true (by decide),
      by decide⟩

/-- C9 fails as stated: a privileged-instruction fault has an empty diagnosis, and
neither `DumpFilter` nor `GameSim::GameCrashFilter` returns
EXCEPTION_CONTINUE_SEARCH for it. -/
theorem dump_filters_unclassified_counterexample :
    (∃ m, (PrintCrashMessage sampleBuild hostYes
        (faultWithCode EXCEPTION_PRIV_INSTRUCTION) true).val = some m ∧ m.diagnosis = []) ∧
    (DumpFilter sampleBuild hostYes (faultWithCode EXCEPTION_PRIV_INSTRUCTION)).val ≠
      some EXCEPTION_CONTINUE_SEARCH ∧
    (GameSim.GameCrashFilter sampleBuild hostYes (faultWithCode EXCEPTION_PRIV_INSTRUCTION)).val ≠
      some EXCEPTION_CONTINUE_SEARCH :=
  ⟨⟨_, PrintCrashMessage_val sampleBuild hostYes (faultWithCode EXCEPTION_PRIV_INSTRUCTION)
      true (by decide), by decide⟩,
   by rw [DumpFilter_val sampleBuild hostYes _ (by decide) (by decide)]; decide,
   by rw [GameCrashFilter_val sampleBuild hostYes _ (by decide) (by decide)]; decide⟩

/-- C10: for every fault descriptor, `DumpFilter` and `GameSim::GameCrashFilter`
return EXCEPTION_EXECUTE_HANDLER whatever the user answers and whether or not the
dump can be written, and what is shown is the same too: one dialog text `shown`,
which holds the Diagnosis section, is displayed in every run, and the events of
`PrintCrashMessage` do not depend on the host.  The build strings are assumed to
fit the buffers (revision at most 113 characters, revision and branch together at
most 700). -/
theorem dump_filters_outcome_independent_of_host (b : Build) (p : EXCEPTION_POINTERS)
    (hr : b.BUILD_GIT_REVISION.length ≤ 113)
    (hb : b.BUILD_GIT_REVISION.length + b.BUILD_GIT_BRANCH.length ≤ 700) :
    ∃ shown : List Char, ∀ host : Host,
      (DumpFilter b host p).val = some EXCEPTION_EXECUTE_HANDLER ∧
      (GameSim.GameCrashFilter b host p).val = some EXCEPTION_EXECUTE_HANDLER ∧
      (∃ m, (PrintCrashMessage b host p true).val = some m ∧
        shown = m.msgBuf ++ dumpQuestion ∧ diagnosisSection m.diagnosis <:+: shown) ∧
      Event.messageBoxA shown "ZeroCrashLab - Crash Detected".toList ∈
        (DumpFilter b host p).trace ∧
      Event.messageBoxA shown "ZeroCrashLab - Crash Detected".toList ∈
        (GameSim.GameCrashFilter b host p).trace ∧
      ∀ host' : Host,
        (PrintCrashMessage b host p true).trace = (PrintCrashMessage b host' p true).trace := by
  refine ⟨messageOf b p ++ dumpQuestion, fun host => ⟨DumpFilter_val b host p hr hb,
    GameCrashFilter_val b host p hr hb,
    ⟨_, PrintCrashMessage_val b host p true hb, rfl, ?_⟩, ?_, ?_,
    fun host' => PrintCrashMessage_trace_host b host host' p true⟩⟩
  · exact (diagnosisSection_in_messageOf b p).trans ⟨[], dumpQuestion, by rw [List.nil_append]⟩
  · obtain ⟨rest, hrest⟩ := DumpFilter_trace b host p
    rw [hrest]
    exact List.mem_cons_of_mem _ (List.mem_append_left _ (PrintCrashMessage_dialog b host p hb))
  · obtain ⟨rest, hrest⟩ := GameCrashFilter_trace b host p
    rw [hrest]
    exact List.mem_append_left _ (List.mem_append_right _ (PrintCrashMessage_dialog b host p hb))

theorem dump_filters_outcome_independent_of_host_witness :
    ∃ shown : List Char,
      (DumpFilter sampleBuild hostYes (accessViolation 1 0)).val =
        some EXCEPTION_EXECUTE_HANDLER ∧
      (DumpFilter sampleBuild hostYesWriteFails (accessViolation 1 0)).val =
        some EXCEPTION_EXECUTE_HANDLER ∧
      (DumpFilter sampleBuild hostNo (accessViolation 1 0)).val =
        some EXCEPTION_EXECUTE_HANDLER ∧
      (GameSim.GameCrashFilter sampleBuild hostYesWriteFails (accessViolation 1 0)).val =
        some EXCEPTION_EXECUTE_HANDLER ∧
      Event.messageBoxA shown "ZeroCrashLab - Crash Detected".toList ∈
        (DumpFilter sampleBuild hostYesWriteFails (accessViolation 1 0)).trace ∧
      Event.messageBoxA shown "ZeroCrashLab - Crash Detected".toList ∈
        (DumpFilter sampleBuild hostNo (accessViolation 1 0)).trace ∧
      "nullptr dereference!".toList <:+: shown := by
  obtain ⟨shown, h⟩ := dump_filters_outcome_independent_of_host sampleBuild
    (accessViolation 1 0) (by decide) (by decide)
  refine ⟨shown, (h hostYes).1, (h hostYesWriteFails).1, (h hostNo).1,
    (h hostYesWriteFails).2.1, (h hostYesWriteFails).2.2.2.1, (h hostNo).2.2.2.1, ?_⟩
  obtain ⟨m, hm, _, hinf⟩ := (h hostYes).2.2.1
  rw [PrintCrashMessage_val sampleBuild hostYes (accessViolation 1 0) true (by decide)] at hm
  cases hm
  exact List.IsInfix.trans
    ⟨"\nDiagnosis:\n".toList, "\nCheck pointer initialization.\n".toList, by decide⟩ hinf

/-! ## The sanitizer -/

theorem size_sub_one (dstSize : Nat) (h1 : 1 ≤ dstSize) (h2 : dstSize < 2 ^ 64) :
    (dstSize + 2 ^ 64 - 1) % 2 ^ 64 = dstSize - 1 := by
  have e : dstSize + 2 ^ 64 - 1 = (dstSize - 1) + 2 ^ 64 := by omega
  rw [e, Nat.add_mod_right, Nat.mod_eq_of_lt (by omega)]

theorem isForbiddenChar_iff (c : Char) :
    isForbiddenChar c = true ↔
      c ∈ ['/', Char.ofNat 92, ':', '*', '?', Char.ofNat 34, '<', '>', '|'] := by
  simp only [isForbiddenChar, Bool.or_eq_true, decide_eq_true_eq, List.mem_cons,
    List.mem_singleton, List.mem_nil_iff, or_false, or_assoc]

theorem isForbiddenChar_underscore : isForbiddenChar '_' = false := by decide

theorem MakeSafeFilenameLoop_getElem (n : Nat) (src : List Char) (i : Nat)
    (hi : i < (MakeSafeFilenameLoop n src).length) :
    ∃ c, src[i]? = some c ∧
      (MakeSafeFilenameLoop n src)[i]? = some (if isForbiddenChar c then '_' else c) := by
  induction n generalizing src i with
  | zero => simp [MakeSafeFilenameLoop] at hi
  | succ n ih =>
    cases src with
    | nil => simp [MakeSafeFilenameLoop] at hi
    | cons c rest =>
      unfold MakeSafeFilenameLoop at hi ⊢
      by_cases h0 : c = Char.ofNat 0
      · rw [if_pos h0] at hi; simp at hi
      · rw [if_neg h0] at hi ⊢
        cases i with
        | zero => exact ⟨c, by simp, by simp⟩
        | succ j =>
          simp only [List.length_cons, Nat.add_lt_add_iff_right] at hi
          simpa using ih rest j hi

theorem MakeSafeFilenameLoop_not_forbidden (n : Nat) (src : List Char) :
    ∀ c ∈ MakeSafeFilenameLoop n src, isForbiddenChar c = false ∧ c ≠ Char.ofNat 0 := by
  induction n generalizing src with
  | zero => simp [MakeSafeFilenameLoop]
  | succ n ih =>
    cases src with
    | nil => simp [MakeSafeFilenameLoop]
    | cons c rest =>
      unfold MakeSafeFilenameLoop
      by_cases h0 : c = Char.ofNat 0
      · rw [if_pos h0]; simp
      · rw [if_neg h0]
        intro d hd
        rcases List.mem_cons.mp hd with rfl | hd
        · by_cases hf : isForbiddenChar c = true
          · rw [if_pos hf]; exact ⟨by decide, by decide⟩
          · rw [if_neg hf]; exact ⟨by simpa using hf, h0⟩
        · exact ih rest d hd

theorem MakeSafeFilenameLoop_length_of_no_nul (n : Nat) (src : List Char)
    (h : Char.ofNat 0 ∉ src) : (MakeSafeFilenameLoop n src).length = min src.length n := by
  induction n generalizing src with
  | zero => simp [MakeSafeFilenameLoop]
  | succ n ih =>
    cases src with
    | nil => simp [MakeSafeFilenameLoop]
    | cons c rest =>
      unfold MakeSafeFilenameLoop
      have hc : c ≠ Char.ofNat 0 := fun e => h (e ▸ List.mem_cons_self _ _)
      have hr : Char.ofNat 0 ∉ rest := fun e => h (List.mem_cons_of_mem _ e)
      rw [if_neg hc, List.length_cons, ih rest hr, List.length_cons]
      omega

theorem MakeSafeFilenameLoop_length_le_src (n : Nat) (src : List Char) :
    (MakeSafeFilenameLoop n src).length ≤ src.length := by
  induction n generalizing src with
  | zero => simp [MakeSafeFilenameLoop]
  | succ n ih =>
    cases src with
    | nil => simp [MakeSafeFilenameLoop]
    | cons c rest =>
      unfold MakeSafeFilenameLoop
      split_ifs
      · simp
      · simp only [List.length_cons]; exact Nat.succ_le_succ (ih rest)
      · simp only [List.length_cons]; exact Nat.succ_le_succ (ih rest)

theorem MakeSafeFilenameLoop_fixed (n : Nat) (s : List Char)
    (h : ∀ c ∈ s, isForbiddenChar c = false ∧ c ≠ Char.ofNat 0) (hl : s.length ≤ n) :
    MakeSafeFilenameLoop n s = s := by
  induction n generalizing s with
  | zero =>
    have : s = [] := List.length_eq_zero.mp (Nat.le_zero.mp hl)
    subst this; rfl
  | succ n ih =>
    cases s with
    | nil => rfl
    | cons c rest =>
      unfold MakeSafeFilenameLoop
      have hc := h c (List.mem_cons_self _ _)
      rw [if_neg hc.2, hc.1]
      simp only [Bool.false_eq_true, if_false, List.cons.injEq, true_and]
      exact ih rest (fun d hd => h d (List.mem_cons_of_mem _ hd))
        (by simpa using hl)


theorem MakeSafeFilenameStoresFrom_chars (i n : Nat) (src : List Char) :
    (MakeSafeFilenameStoresFrom i n src).map Prod.snd =
      MakeSafeFilenameLoop n src ++ [Char.ofNat 0] := by
  induction n generalizing src i with
  | zero => simp [MakeSafeFilenameStoresFrom, MakeSafeFilenameLoop]
  | succ n ih =>
    cases src with
    | nil => simp [MakeSafeFilenameStoresFrom, MakeSafeFilenameLoop]
    | cons c rest =>
      unfold MakeSafeFilenameStoresFrom MakeSafeFilenameLoop
      by_cases h0 : c = Char.ofNat 0
      · rw [if_pos h0, if_pos h0]; rfl
      · rw [if_neg h0, if_neg h0, List.map_cons, ih]; rfl

theorem MakeSafeFilenameStoresFrom_index (i n : Nat) (src : List Char) :
    ∀ s ∈ MakeSafeFilenameStoresFrom i n src, i ≤ s.1 ∧ s.1 ≤ i + n := by
  induction n generalizing src i with
  | zero => simp [MakeSafeFilenameStoresFrom]
  | succ n ih =>
    cases src with
    | nil => simp [MakeSafeFilenameStoresFrom]
    | cons c rest =>
      unfold MakeSafeFilenameStoresFrom
      by_cases h0 : c = Char.ofNat 0
      · rw [if_pos h0]; simp
      · rw [if_neg h0]
        intro s hs
        rcases List.mem_cons.mp hs with rfl | hs
        · exact ⟨Nat.le_refl _, by omega⟩
        · have := ih (i + 1) rest s hs
          omega

theorem MakeSafeFilenameWStoresFrom_index (i n : Nat) (src : List Char) :
    ∀ s ∈ MakeSafeFilenameWStoresFrom i n src, i ≤ s.1 ∧ s.1 ≤ i + n := by
  induction n generalizing src i with
  | zero => simp [MakeSafeFilenameWStoresFrom]
  | succ n ih =>
    cases src with
    | nil => simp [MakeSafeFilenameWStoresFrom]
    | cons c rest =>
      unfold MakeSafeFilenameWStoresFrom
      by_cases h0 : c = Char.ofNat 0
      · rw [if_pos h0]; simp
      · rw [if_neg h0]
        intro s hs
        rcases List.mem_cons.mp hs with rfl | hs
        · exact ⟨Nat.le_refl _, by omega⟩
        · have := ih (i + 1) rest s hs
          omega

/-- For a destination of at least one element both sanitizers store below the
bound: every index they assign to is smaller than `dstSize`. -/
theorem MakeSafeFilenameStores_in_bounds (dstSize : Nat) (src : List Char)
    (h1 : 1 ≤ dstSize) (h2 : dstSize < 2 ^ 64) :
    (∀ s ∈ MakeSafeFilenameStores dstSize src, s.1 < dstSize) ∧
    (∀ s ∈ MakeSafeFilenameWStores dstSize src, s.1 < dstSize) := by
  unfold MakeSafeFilenameStores MakeSafeFilenameWStores
  rw [size_sub_one dstSize h1 h2]
  constructor
  · intro s hs
    have := MakeSafeFilenameStoresFrom_index 0 (dstSize - 1) src s hs
    omega
  · intro s hs
    have := MakeSafeFilenameWStoresFrom_index 0 (dstSize - 1) src s hs
    omega

/-- C13: every character of the output of `MakeSafeFilename(dst, dstSize, raw)`,
at an index `i`, comes from `raw[i]`: it is '_' when `raw[i]` is one of the nine
forbidden characters / \ : * ? " < > | and `raw[i]` itself otherwise. -/
theorem MakeSafeFilename_replaces_forbidden (dstSize : Nat) (raw : List Char) (i : Nat)
    (hi : i < (MakeSafeFilename dstSize raw).length) :
    ∃ c, raw[i]? = some c ∧
      (MakeSafeFilename dstSize raw)[i]? = some (if isForbiddenChar c then '_' else c) ∧
      (isForbiddenChar c = true ↔
        c ∈ ['/', Char.ofNat 92, ':', '*', '?', Char.ofNat 34, '<', '>', '|']) := by
  obtain ⟨c, h1, h2⟩ := MakeSafeFilenameLoop_getElem _ raw i hi
  exact ⟨c, h1, h2, isForbiddenChar_iff c⟩

theorem MakeSafeFilename_replaces_forbidden_witness :
    MakeSafeFilename 64 "feature/my-fix".toList = "feature_my-fix".toList ∧
    MakeSafeFilename 128 "claude/infallible-dubinsky".toList =
      "claude_infallible-dubinsky".toList ∧
    ∃ c, "feature/my-fix".toList[7]? = some c ∧
      (MakeSafeFilename 64 "feature/my-fix".toList)[7]? =
        some (if isForbiddenChar c then '_' else c) ∧
      (isForbiddenChar c = true ↔
        c ∈ ['/', Char.ofNat 92, ':', '*', '?', Char.ofNat 34, '<', '>', '|']) :=
  ⟨by decide, by decide,
   MakeSafeFilename_replaces_forbidden 64 "feature/my-fix".toList 7 (by decide)⟩

/-- C14: no character of the output of `MakeSafeFilename` is one of the nine
forbidden characters, for every input and every destination size. -/
theorem MakeSafeFilename_no_forbidden (dstSize : Nat) (raw : List Char) (c : Char)
    (hc : c ∈ MakeSafeFilename dstSize raw) :
    isForbiddenChar c = false ∧
      c ∉ ['/', Char.ofNat 92, ':', '*', '?', Char.ofNat 34, '<', '>', '|'] := by
  have h := (MakeSafeFilenameLoop_not_forbidden _ raw c hc).1
  refine ⟨h, fun hm => ?_⟩
  rw [(isForbiddenChar_iff c).mpr hm] at h
  exact Bool.noConfusion h

theorem MakeSafeFilename_no_forbidden_witness :
    MakeSafeFilename 64 [] = [] ∧
    MakeSafeFilename 64 "/:*?<>|".toList = "_______".toList ∧
    (isForbiddenChar '_' = false ∧
      '_' ∉ ['/', Char.ofNat 92, ':', '*', '?', Char.ofNat 34, '<', '>', '|']) :=
  ⟨by decide, by decide,
   MakeSafeFilename_no_forbidden 64 "/:*?<>|".toList '_' (by decide)⟩

/-- C15: for a destination size `dstSize >= 1` (a `size_t`, so below 2^64) the
output of `MakeSafeFilename` has at most `min (length raw) (dstSize - 1)`
characters, and exactly that many when `raw` holds no NUL before its end. -/
theorem MakeSafeFilename_length (dstSize : Nat) (raw : List Char)
    (h1 : 1 ≤ dstSize) (h2 : dstSize < 2 ^ 64) :
    (MakeSafeFilename dstSize raw).length ≤ min raw.length (dstSize - 1) ∧
    (Char.ofNat 0 ∉ raw →
      (MakeSafeFilename dstSize raw).length = min raw.length (dstSize - 1)) := by
  unfold MakeSafeFilename
  rw [size_sub_one dstSize h1 h2]
  exact ⟨Nat.le_min.mpr ⟨MakeSafeFilenameLoop_length_le_src _ _,
    MakeSafeFilenameLoop_length_le _ _⟩, MakeSafeFilenameLoop_length_of_no_nul _ _⟩

theorem MakeSafeFilename_length_witness :
    (MakeSafeFilename 8 "feature/my-fix".toList).length = 7 ∧
    (MakeSafeFilename 64 "feature/my-fix".toList).length = 14 :=
  ⟨((MakeSafeFilename_length 8 "feature/my-fix".toList (by decide) (by decide)).2
      (by decide)).trans (by decide),
   ((MakeSafeFilename_length 64 "feature/my-fix".toList (by decide) (by decide)).2
      (by decide)).trans (by decide)⟩

/-- C16: `MakeSafeFilename` is idempotent: sanitizing its output again with the
same destination size gives the same string. -/
theorem MakeSafeFilename_idempotent (dstSize : Nat) (x : List Char) :
    MakeSafeFilename dstSize (MakeSafeFilename dstSize x) = MakeSafeFilename dstSize x := by
  unfold MakeSafeFilename
  exact MakeSafeFilenameLoop_fixed _ _ (MakeSafeFilenameLoop_not_forbidden _ x)
    (MakeSafeFilenameLoop_length_le _ _)

/-- C17 fails at `dstSize = 0`: the bound `dstSize - 1` wraps around in `size_t`,
so `MakeSafeFilename(dst, 0, "a/b")` stores to `dst[0]` .. `dst[3]`, and so does
`MakeSafeFilenameW`; even for an empty source the terminator goes to `dst[0]`.  None
of these indices is below the destination size 0.  (No call in the program passes
0, and for `dstSize >= 1` the bound holds, see `MakeSafeFilenameStores_in_bounds`.) -/
theorem MakeSafeFilename_zero_size_stores :
    MakeSafeFilenameStores 0 "a/b".toList =
      [(0, 'a'), (1, '_'), (2, 'b'), (3, Char.ofNat 0)] ∧
    MakeSafeFilenameWStores 0 "a/b".toList =
      [(0, 'a'), (1, '_'), (2, 'b'), (3, Char.ofNat 0)] ∧
    MakeSafeFilenameStores 0 [] = [(0, Char.ofNat 0)] ∧
    (∃ s ∈ MakeSafeFilenameStores 0 "a/b".toList, ¬ s.1 < 0) ∧
    (∃ s ∈ MakeSafeFilenameWStores 0 "a/b".toList, ¬ s.1 < 0) :=
  ⟨by decide, by decide, by decide, ⟨(0, 'a'), by decide, by decide⟩,
    ⟨(0, 'a'), by decide, by decide⟩⟩

/-! ## File-system events of the runs -/

theorem systemCalls_bind {α β : Type} (m : Run α) (f : α → Run β) :
    systemCalls (m.bind f).trace =
      systemCalls m.trace ++ m.val.elim [] (fun a => systemCalls (f a).trace) := by
  rw [Run.trace_bind]
  unfold systemCalls
  rw [List.filter_append]
  cases m.val <;> rfl

theorem systemCalls_cout (t : List Char) : systemCalls (cout t).trace = [] := rfl

theorem systemCalls_pure {α : Type} (a : α) : systemCalls (pure a : Run α).trace = [] := rfl

theorem systemCalls_sprintf_s (buffer : List Char) (size : Nat) (text : List Char) :
    systemCalls (sprintf_s buffer size text).trace = [] := by
  unfold sprintf_s
  split_ifs <;> rfl

theorem snapshotWrites_systemCalls (t : List Event) :
    snapshotWrites (systemCalls t) = snapshotWrites t := by
  unfold snapshotWrites systemCalls
  induction t with
  | nil => rfl
  | cons e t ih =>
    cases e <;> simp [List.filter_cons, List.filterMap_cons, isSystemCall, ih]

theorem attributeQueries_systemCalls (t : List Event) :
    attributeQueries (systemCalls t) = attributeQueries t := by
  unfold attributeQueries systemCalls
  induction t with
  | nil => rfl
  | cons e t ih =>
    cases e <;> simp [List.filter_cons, List.filterMap_cons, isSystemCall, ih]

theorem PrintCrashMessage.diagnose_systemCalls (r : EXCEPTION_RECORD) (msgBuf : List Char) :
    systemCalls (PrintCrashMessage.diagnose r msgBuf).trace = [] := by
  unfold PrintCrashMessage.diagnose
  simp only [Run.bind_eq]
  split_ifs <;>
    simp only [systemCalls_bind, systemCalls_cout, systemCalls_pure, systemCalls_sprintf_s,
      elim_nil_nil, List.append_nil]

theorem PrintCrashMessage.registers_systemCalls (b : Build) (pCtx : CONTEXT)
    (msgBuf : List Char) :
    systemCalls (PrintCrashMessage.registers b pCtx msgBuf).trace = [] := by
  unfold PrintCrashMessage.registers
  simp only [Run.bind_eq]
  split_ifs <;>
    simp only [systemCalls_bind, systemCalls_cout, systemCalls_pure, systemCalls_sprintf_s,
      elim_nil_nil, List.append_nil]

theorem PrintCrashMessage.askDump_systemCalls (host : Host) (bAskDump : Bool)
    (msgBuf : List Char) :
    systemCalls (PrintCrashMessage.askDump host bAskDump msgBuf).trace = [] := by
  rw [PrintCrashMessage.askDump_trace]
  split_ifs
  · unfold systemCalls
    rw [List.filter_append]
    have h := systemCalls_sprintf_s [] 1280 (msgBuf ++ dumpQuestion)
    unfold systemCalls at h
    rw [h]
    cases (sprintf_s [] 1280 (msgBuf ++ dumpQuestion)).val <;> rfl
  · rfl

theorem PrintCrashMessage_systemCalls (b : Build) (host : Host) (p : EXCEPTION_POINTERS)
    (bAskDump : Bool) : systemCalls (PrintCrashMessage b host p bAskDump).trace = [] := by
  unfold PrintCrashMessage
  simp only [Run.bind_eq, systemCalls_bind, systemCalls_cout, systemCalls_pure,
    systemCalls_sprintf_s, PrintCrashMessage.diagnose_systemCalls,
    PrintCrashMessage.registers_systemCalls, PrintCrashMessage.askDump_systemCalls,
    apply_ite Run.trace, apply_ite systemCalls, ite_self,
    elim_nil_nil, List.append_nil]

theorem WriteMiniDump_trace (host : Host) (p : EXCEPTION_POINTERS) (filename : List Char) :
    (WriteMiniDump host p filename).trace =
      Event.createFileW filename ::
        (match host.CreateFileW with
          | none => [Event.cout (lit "  [ERROR] 덤프 파일 생성 실패!\n")]
          | some hFile => [Event.miniDumpWriteDump hFile, Event.closeHandle hFile]) := by
  unfold WriteMiniDump
  cases host.CreateFileW <;> rfl


theorem dumpFileName_fits (stem : List Char) (b : Build) (hs : stem.length = 10)
    (hr : b.BUILD_GIT_REVISION.length ≤ 113) :
    (dumpFileName stem b).length < 256 - ([] : List Char).length := by
  have h := MakeSafeFilename_128_length_le b.BUILD_GIT_BRANCH
  unfold dumpFileName
  simp only [List.length_append, String.toList, List.length_cons, List.length_nil]
  omega

theorem DumpFilter_trace_eq (b : Build) (host : Host) (p : EXCEPTION_POINTERS)
    (hr : b.BUILD_GIT_REVISION.length ≤ 113)
    (hb : b.BUILD_GIT_REVISION.length + b.BUILD_GIT_BRANCH.length ≤ 700) :
    ∃ post, systemCalls post = [] ∧
      (DumpFilter b host p).trace =
        [Event.cout "\n".toList] ++ (PrintCrashMessage b host p true).trace ++
          (if host.MessageBoxA = IDYES then
            [Event.cout (lit "  [덤프 필터] 미니덤프 생성 중: " ++
              dumpFileName "CrashDump_".toList b ++ "\n".toList)] ++
            (WriteMiniDump host p (dumpFileName "CrashDump_".toList b)).trace
           else []) ++ post := by
  have hf := dumpFileName_fits "CrashDump_".toList b rfl hr
  unfold dumpFileName at hf
  unfold DumpFilter swprintf_s widen dumpFileName
  simp only [Run.bind_eq]
  rw [sprintf_s_fit hf]
  simp only [Run.pure_bind, Run.trace_bind, cout_val, cout_trace, Option.elim_some,
    PrintCrashMessage_val b host p true hb, reduceIte]
  by_cases hyes : host.MessageBoxA = IDYES
  · simp only [hyes, decide_True, reduceIte, Run.trace_bind, cout_trace, cout_val,
      Option.elim_some, WriteMiniDump_val]
    by_cases hok : (∃ h, host.CreateFileW = some h) ∧ host.MiniDumpWriteDump ≠ 0
    swap
    · refine ⟨[Event.cout (lit "  [덤프 필터] ✗ 미니덤프 생성 실패!\n")], rfl, ?_⟩
      cases hc : host.CreateFileW with
      | none =>
        simp only [Bool.false_eq_true, reduceIte, Run.trace_bind, cout_trace, cout_val,
          Option.elim_some, trace_pure, List.append_nil, List.append_assoc, List.cons_append,
          List.nil_append]
      | some h =>
        have hz : host.MiniDumpWriteDump = 0 := by
          by_contra hne
          exact hok ⟨⟨h, hc⟩, hne⟩
        simp only [hz, ne_eq, not_true_eq_false, decide_False, Bool.false_eq_true, reduceIte,
          Run.trace_bind, cout_trace, cout_val,
          Option.elim_some, trace_pure, List.append_nil, List.append_assoc, List.cons_append,
          List.nil_append]
    · obtain ⟨⟨h, hc⟩, hne⟩ := hok
      refine ⟨[Event.cout (lit "  [덤프 필터] ✓ 미니덤프 생성 성공!\n"),
        Event.cout (lit "  [덤프 필터] Visual Studio에서 .dmp 파일을 열면\n"),
        Event.cout (lit "             크래시 시점의 콜스택을 확인할 수 있습니다.\n"),
        Event.cout (lit "  [덤프 필터] 방법: .dmp 더블클릭 → '네이티브만 디버깅'\n"),
        Event.cout (lit "  [덤프 필터] 조사식에 g_BuildGitRevision 입력 → revision 확인!\n")],
        rfl, ?_⟩
      simp only [hc, hne, ne_eq, not_false_eq_true, decide_True, reduceIte, Run.trace_bind,
        cout_trace, cout_val,
        Option.elim_some, trace_pure, List.append_nil, List.append_assoc, List.cons_append,
        List.nil_append]
  · refine ⟨[Event.cout (lit "  [덤프 필터] 사용자가 덤프 저장을 취소했습니다.\n")], rfl, ?_⟩
    simp only [hyes, decide_False, Bool.false_eq_true, reduceIte, Run.trace_bind, cout_trace,
      cout_val, Option.elim_some, trace_pure, List.append_nil, List.append_assoc,
      List.cons_append, List.nil_append]

theorem GameCrashFilter_trace_eq (b : Build) (host : Host) (p : EXCEPTION_POINTERS)
    (hr : b.BUILD_GIT_REVISION.length ≤ 113)
    (hb : b.BUILD_GIT_REVISION.length + b.BUILD_GIT_BRANCH.length ≤ 700) :
    ∃ post, systemCalls post = [] ∧
      (GameSim.GameCrashFilter b host p).trace =
        [Event.cout (lit "\n  ╔══════════════════════════════════════════╗\n"),
         Event.cout (lit "  ║       GAME CRASH DETECTED!               ║\n"),
         Event.cout (lit "  ╚══════════════════════════════════════════╝\n")] ++
        (PrintCrashMessage b host p true).trace ++
          (if host.MessageBoxA = IDYES then
            (WriteMiniDump host p (dumpFileName "GameCrash_".toList b)).trace
           else []) ++ post := by
  have hf := dumpFileName_fits "GameCrash_".toList b rfl hr
  unfold dumpFileName at hf
  unfold GameSim.GameCrashFilter swprintf_s widen dumpFileName
  simp only [Run.bind_eq]
  rw [sprintf_s_fit hf]
  simp only [Run.pure_bind, Run.trace_bind, cout_val, cout_trace, Option.elim_some,
    PrintCrashMessage_val b host p true hb, reduceIte]
  by_cases hyes : host.MessageBoxA = IDYES
  · simp only [hyes, decide_True, reduceIte, Run.trace_bind, cout_trace, cout_val,
      Option.elim_some, WriteMiniDump_val]
    by_cases hok : (∃ h, host.CreateFileW = some h) ∧ host.MiniDumpWriteDump ≠ 0
    swap
    · refine ⟨[Event.cout (lit "  Crash dump 생성 실패!\n")], rfl, ?_⟩
      cases hc : host.CreateFileW with
      | none =>
        simp only [Bool.false_eq_true, reduceIte, Run.trace_bind, cout_trace, cout_val,
          Option.elim_some, trace_pure, List.append_nil, List.append_assoc, List.cons_append,
          List.nil_append]
      | some h =>
        have hz : host.MiniDumpWriteDump = 0 := by
          by_contra hne
          exact hok ⟨⟨h, hc⟩, hne⟩
        simp only [hz, ne_eq, not_true_eq_false, decide_False, Bool.false_eq_true, reduceIte,
          Run.trace_bind, cout_trace, cout_val,
          Option.elim_some, trace_pure, List.append_nil, List.append_assoc, List.cons_append,
          List.nil_append]
    · obtain ⟨⟨h, hc⟩, hne⟩ := hok
      refine ⟨[Event.cout ("  Crash dump saved: ".toList ++
        ("GameCrash_".toList ++ b.BUILD_GIT_REVISION ++ "_".toList ++
          MakeSafeFilename 128 b.BUILD_GIT_BRANCH ++ ".dmp".toList) ++ "\n".toList)],
        rfl, ?_⟩
      simp only [hc, hne, ne_eq, not_false_eq_true, decide_True, reduceIte, Run.trace_bind,
        cout_trace, cout_val,
        Option.elim_some, trace_pure, List.append_nil, List.append_assoc, List.cons_append,
        List.nil_append]
  · refine ⟨[Event.cout (lit "  사용자가 덤프 저장을 취소했습니다.\n")], rfl, ?_⟩
    simp only [hyes, decide_False, Bool.false_eq_true, reduceIte, Run.trace_bind, cout_trace,
      cout_val, Option.elim_some, trace_pure, List.append_nil, List.append_assoc,
      List.cons_append, List.nil_append]


theorem systemCalls_append (s t : List Event) :
    systemCalls (s ++ t) = systemCalls s ++ systemCalls t := by
  unfold systemCalls
  exact List.filter_append _ _

theorem WriteMiniDump_systemCalls (host : Host) (p : EXCEPTION_POINTERS)
    (filename : List Char) :
    systemCalls (WriteMiniDump host p filename).trace =
      Event.createFileW filename ::
        (match host.CreateFileW with
          | none => []
          | some hFile => [Event.miniDumpWriteDump hFile, Event.closeHandle hFile]) := by
  rw [WriteMiniDump_trace]
  cases host.CreateFileW <;> rfl

theorem WriteMiniDump_snapshotWrites (host : Host) (p : EXCEPTION_POINTERS)
    (filename : List Char) :
    snapshotWrites (WriteMiniDump host p filename).trace = [filename] := by
  rw [WriteMiniDump_trace]
  cases host.CreateFileW <;> rfl

theorem DumpFilter_systemCalls (b : Build) (host : Host) (p : EXCEPTION_POINTERS)
    (hr : b.BUILD_GIT_REVISION.length ≤ 113)
    (hb : b.BUILD_GIT_REVISION.length + b.BUILD_GIT_BRANCH.length ≤ 700) :
    systemCalls (DumpFilter b host p).trace =
      if host.MessageBoxA = IDYES then
        systemCalls (WriteMiniDump host p (dumpFileName "CrashDump_".toList b)).trace
      else [] := by
  obtain ⟨post, hpost, htrace⟩ := DumpFilter_trace_eq b host p hr hb
  rw [htrace]
  simp only [systemCalls_append, PrintCrashMessage_systemCalls, hpost, List.append_nil]
  split_ifs
  · simp only [systemCalls_append]; rfl
  · rfl

theorem GameCrashFilter_systemCalls (b : Build) (host : Host) (p : EXCEPTION_POINTERS)
    (hr : b.BUILD_GIT_REVISION.length ≤ 113)
    (hb : b.BUILD_GIT_REVISION.length + b.BUILD_GIT_BRANCH.length ≤ 700) :
    systemCalls (GameSim.GameCrashFilter b host p).trace =
      if host.MessageBoxA = IDYES then
        systemCalls (WriteMiniDump host p (dumpFileName "GameCrash_".toList b)).trace
      else [] := by
  obtain ⟨post, hpost, htrace⟩ := GameCrashFilter_trace_eq b host p hr hb
  rw [htrace]
  simp only [systemCalls_append, PrintCrashMessage_systemCalls, hpost, List.append_nil]
  split_ifs <;> rfl

theorem DumpFilter_snapshotWrites (b : Build) (host : Host) (p : EXCEPTION_POINTERS)
    (hr : b.BUILD_GIT_REVISION.length ≤ 113)
    (hb : b.BUILD_GIT_REVISION.length + b.BUILD_GIT_BRANCH.length ≤ 700) :
    snapshotWrites (DumpFilter b host p).trace =
      if host.MessageBoxA = IDYES then [dumpFileName "CrashDump_".toList b] else [] := by
  rw [← snapshotWrites_systemCalls, DumpFilter_systemCalls b host p hr hb]
  split_ifs
  · rw [snapshotWrites_systemCalls, WriteMiniDump_snapshotWrites]
  · rfl

theorem GameCrashFilter_snapshotWrites (b : Build) (host : Host) (p : EXCEPTION_POINTERS)
    (hr : b.BUILD_GIT_REVISION.length ≤ 113)
    (hb : b.BUILD_GIT_REVISION.length + b.BUILD_GIT_BRANCH.length ≤ 700) :
    snapshotWrites (GameSim.GameCrashFilter b host p).trace =
      if host.MessageBoxA = IDYES then [dumpFileName "GameCrash_".toList b] else [] := by
  rw [← snapshotWrites_systemCalls, GameCrashFilter_systemCalls b host p hr hb]
  split_ifs
  · rw [snapshotWrites_systemCalls, WriteMiniDump_snapshotWrites]
  · rfl

theorem ExceptionFilter_trace_eq (b : Build) (host : Host) (p : EXCEPTION_POINTERS)
    (hb : b.BUILD_GIT_REVISION.length + b.BUILD_GIT_BRANCH.length ≤ 700) :
    ∃ post, systemCalls post = [] ∧
      (ExceptionFilter b host p).trace = (PrintCrashMessage b host p false).trace ++ post := by
  unfold ExceptionFilter
  simp only [Run.bind_eq, Run.trace_bind, PrintCrashMessage_val b host p false hb,
    Option.elim_some]
  split_ifs
  · exact ⟨[Event.cout (lit "  [필터] → EXCEPTION_EXECUTE_HANDLER (잡겠다!)\n")], rfl, rfl⟩
  · exact ⟨[Event.cout (lit "  [필터] → EXCEPTION_CONTINUE_SEARCH (상위로 전달)\n")], rfl, rfl⟩

/-! ## Demonstration F -/

theorem HandleF_SehWithDump_systemCalls (b : Build) (host : Host) (fs : FileAttributes)
    (p : EXCEPTION_POINTERS)
    (hr : b.BUILD_GIT_REVISION.length ≤ 113)
    (hb : b.BUILD_GIT_REVISION.length + b.BUILD_GIT_BRANCH.length ≤ 700) :
    systemCalls (HandleF_SehWithDump b host fs p).trace =
      systemCalls (DumpFilter b host p).trace ++
        Event.getFileAttributesW (dumpFileName "CrashDump_".toList b) ::
          (if fs.attr ≠ none then
            [Event.getFileAttributesExW (dumpFileName "CrashDump_".toList b)]
           else []) := by
  have hf := dumpFileName_fits "CrashDump_".toList b rfl hr
  unfold dumpFileName at hf
  unfold HandleF_SehWithDump swprintf_s widen dumpFileName
  simp only [Run.bind_eq]
  rw [sprintf_s_fit hf]
  simp only [Run.pure_bind, systemCalls_bind, systemCalls_cout, cout_val, Option.elim_some,
    DumpFilter_val b host p hr hb, reduceIte, List.nil_append]
  split_ifs <;>
    simp only [Run.bind_eq, systemCalls_bind, systemCalls_cout, systemCalls_pure, cout_val,
      emit_val, val_pure, Run.val_bind, Option.elim_some, Option.some_bind, List.nil_append,
      List.append_nil, elim_nil_nil] <;> rfl

theorem HandleF_SehWithDump_reports (b : Build) (host : Host) (fs : FileAttributes)
    (p : EXCEPTION_POINTERS)
    (hr : b.BUILD_GIT_REVISION.length ≤ 113)
    (hb : b.BUILD_GIT_REVISION.length + b.BUILD_GIT_BRANCH.length ≤ 700) :
    Event.cout ("  1. ".toList ++ dumpFileName "CrashDump_".toList b ++
        lit " 파일을 더블클릭\n") ∈
      (HandleF_SehWithDump b host fs p).trace := by
  have hf := dumpFileName_fits "CrashDump_".toList b rfl hr
  unfold dumpFileName at hf
  unfold HandleF_SehWithDump swprintf_s widen dumpFileName
  simp only [Run.bind_eq]
  rw [sprintf_s_fit hf]
  simp only [Run.pure_bind]
  refine mem_trace_bind (cout_val _) ?_
  refine mem_trace_bind (cout_val _) ?_
  refine mem_trace_bind (cout_val _) ?_
  refine mem_trace_bind (cout_val _) ?_
  refine mem_trace_bind (cout_val _) ?_
  refine mem_trace_bind (DumpFilter_val b host p hr hb) ?_
  rw [if_pos rfl]
  refine mem_trace_bind (cout_val _) ?_
  refine mem_trace_bind (cout_val _) ?_
  refine mem_trace_bind (emit_val _) ?_
  split_ifs
  · refine mem_trace_bind (emit_val _) ?_
    refine mem_trace_bind (cout_val _) ?_
    refine mem_trace_bind (cout_val _) ?_
    refine mem_trace_bind (cout_val _) ?_
    refine mem_trace_bind_left ?_
    simp only [cout_trace, List.nil_append, List.mem_singleton]
  · refine mem_trace_bind (val_pure _) ?_
    refine mem_trace_bind (cout_val _) ?_
    refine mem_trace_bind_left ?_
    simp only [cout_trace, List.nil_append, List.mem_singleton]


theorem HandleF_SehWithDump_val (b : Build) (host : Host) (fs : FileAttributes)
    (p : EXCEPTION_POINTERS)
    (hr : b.BUILD_GIT_REVISION.length ≤ 113)
    (hb : b.BUILD_GIT_REVISION.length + b.BUILD_GIT_BRANCH.length ≤ 700) :
    (HandleF_SehWithDump b host fs p).val = some () := by
  have hf := dumpFileName_fits "CrashDump_".toList b rfl hr
  unfold dumpFileName at hf
  unfold HandleF_SehWithDump swprintf_s widen
  simp only [Run.bind_eq]
  rw [sprintf_s_fit hf]
  simp only [Run.pure_bind, Run.val_bind, cout_val, Option.some_bind,
    DumpFilter_val b host p hr hb, reduceIte]
  split_ifs <;>
    simp only [Run.bind_eq, Run.val_bind, cout_val, emit_val, val_pure, Option.some_bind]

/-- C11: in `DumpFilter` and `GameSim::GameCrashFilter` a snapshot write is
attempted exactly once when the confirmation (the result of `PrintCrashMessage`) is
true and not at all when it is false; in the latter case the run touches no file,
and in both cases the filter returns its disposition.  The build strings are assumed
to fit the buffers (revision at most 113 characters, revision and branch together
at most 700). -/
theorem snapshot_write_iff_confirmed (b : Build) (host : Host) (p : EXCEPTION_POINTERS)
    (hr : b.BUILD_GIT_REVISION.length ≤ 113)
    (hb : b.BUILD_GIT_REVISION.length + b.BUILD_GIT_BRANCH.length ≤ 700) :
    ∃ m, (PrintCrashMessage b host p true).val = some m ∧
      (snapshotWrites (DumpFilter b host p).trace).length = (if m.result then 1 else 0) ∧
      (snapshotWrites (GameSim.GameCrashFilter b host p).trace).length =
        (if m.result then 1 else 0) ∧
      (m.result = false →
        systemCalls (DumpFilter b host p).trace = [] ∧
        systemCalls (GameSim.GameCrashFilter b host p).trace = []) ∧
      (DumpFilter b host p).val = some EXCEPTION_EXECUTE_HANDLER ∧
      (GameSim.GameCrashFilter b host p).val = some EXCEPTION_EXECUTE_HANDLER := by
  refine ⟨_, PrintCrashMessage_val b host p true hb, ?_, ?_, ?_,
    DumpFilter_val b host p hr hb, GameCrashFilter_val b host p hr hb⟩
  · rw [DumpFilter_snapshotWrites b host p hr hb]
    by_cases hyes : host.MessageBoxA = IDYES <;> simp [hyes]
  · rw [GameCrashFilter_snapshotWrites b host p hr hb]
    by_cases hyes : host.MessageBoxA = IDYES <;> simp [hyes]
  · intro hres
    have hno : ¬ host.MessageBoxA = IDYES := by simpa using hres
    rw [DumpFilter_systemCalls b host p hr hb, GameCrashFilter_systemCalls b host p hr hb,
      if_neg hno, if_neg hno]
    exact ⟨rfl, rfl⟩

theorem snapshot_write_iff_confirmed_witness :
    (snapshotWrites (DumpFilter sampleBuild hostYes (accessViolation 1 0)).trace).length = 1 ∧
    (DumpFilter sampleBuild hostYes (accessViolation 1 0)).val =
      some EXCEPTION_EXECUTE_HANDLER ∧
    (snapshotWrites (DumpFilter sampleBuild hostNo (accessViolation 1 0)).trace).length = 0 ∧
    systemCalls (DumpFilter sampleBuild hostNo (accessViolation 1 0)).trace = [] ∧
    (DumpFilter sampleBuild hostNo (accessViolation 1 0)).val =
      some EXCEPTION_EXECUTE_HANDLER := by
  obtain ⟨m, hm, h1, -, -, h4, -⟩ := snapshot_write_iff_confirmed sampleBuild hostYes
    (accessViolation 1 0) (by decide) (by decide)
  obtain ⟨n, hn, k1, -, k3, k4, -⟩ := snapshot_write_iff_confirmed sampleBuild hostNo
    (accessViolation 1 0) (by decide) (by decide)
  rw [PrintCrashMessage_val sampleBuild hostYes _ true (by decide)] at hm
  rw [PrintCrashMessage_val sampleBuild hostNo _ true (by decide)] at hn
  cases hm
  cases hn
  exact ⟨h1, h4, k1, (k3 rfl).1, k4⟩


/-- C12: the trace of every gate filter starts with the complete run of
`PrintCrashMessage` (it returns a report `m`, touches no file and, when asked, shows
the dialog with the message); only after it come the events of `WriteMiniDump`, when
`m.result` is true, and `WriteMiniDump` returns (`ok`) before the events that follow
it and before the filter returns its disposition.  `ExceptionFilter` consists of the
run of `PrintCrashMessage` and console output only. -/
theorem classification_before_snapshot_before_disposition (b : Build) (host : Host)
    (p : EXCEPTION_POINTERS)
    (hr : b.BUILD_GIT_REVISION.length ≤ 113)
    (hb : b.BUILD_GIT_REVISION.length + b.BUILD_GIT_BRANCH.length ≤ 700) :
    ∃ m ok okG post postG postE,
      (PrintCrashMessage b host p true).val = some m ∧
      systemCalls (PrintCrashMessage b host p true).trace = [] ∧
      Event.messageBoxA (m.msgBuf ++ dumpQuestion) "ZeroCrashLab - Crash Detected".toList ∈
        (PrintCrashMessage b host p true).trace ∧
      (WriteMiniDump host p (dumpFileName "CrashDump_".toList b)).val = some ok ∧
      (DumpFilter b host p).trace =
        [Event.cout "\n".toList] ++ (PrintCrashMessage b host p true).trace ++
          (if m.result then
            [Event.cout (lit "  [덤프 필터] 미니덤프 생성 중: " ++
              dumpFileName "CrashDump_".toList b ++ "\n".toList)] ++
            (WriteMiniDump host p (dumpFileName "CrashDump_".toList b)).trace
           else []) ++ post ∧
      systemCalls post = [] ∧
      (DumpFilter b host p).val = some EXCEPTION_EXECUTE_HANDLER ∧
      (WriteMiniDump host p (dumpFileName "GameCrash_".toList b)).val = some okG ∧
      (GameSim.GameCrashFilter b host p).trace =
        [Event.cout (lit "\n  ╔══════════════════════════════════════════╗\n"),
         Event.cout (lit "  ║       GAME CRASH DETECTED!               ║\n"),
         Event.cout (lit "  ╚══════════════════════════════════════════╝\n")] ++
        (PrintCrashMessage b host p true).trace ++
          (if m.result then
            (WriteMiniDump host p (dumpFileName "GameCrash_".toList b)).trace
           else []) ++ postG ∧
      systemCalls postG = [] ∧
      (GameSim.GameCrashFilter b host p).val = some EXCEPTION_EXECUTE_HANDLER ∧
      (PrintCrashMessage b host p false).val.isSome = true ∧
      (ExceptionFilter b host p).trace = (PrintCrashMessage b host p false).trace ++ postE ∧
      systemCalls (PrintCrashMessage b host p false).trace = [] ∧
      systemCalls postE = [] ∧
      (ExceptionFilter b host p).val.isSome = true := by
  obtain ⟨post, hpost, htrace⟩ := DumpFilter_trace_eq b host p hr hb
  obtain ⟨postG, hpostG, htraceG⟩ := GameCrashFilter_trace_eq b host p hr hb
  obtain ⟨postE, hpostE, htraceE⟩ := ExceptionFilter_trace_eq b host p hb
  refine ⟨_, _, _, post, postG, postE, PrintCrashMessage_val b host p true hb,
    PrintCrashMessage_systemCalls b host p true, PrintCrashMessage_dialog b host p hb,
    WriteMiniDump_val host p _, ?_, hpost, DumpFilter_val b host p hr hb,
    WriteMiniDump_val host p _, ?_, hpostG, GameCrashFilter_val b host p hr hb, ?_, htraceE,
    PrintCrashMessage_systemCalls b host p false, hpostE, ?_⟩
  · rw [htrace]
    by_cases hyes : host.MessageBoxA = IDYES <;> simp [hyes]
  · rw [htraceG]
    by_cases hyes : host.MessageBoxA = IDYES <;> simp [hyes]
  · rw [PrintCrashMessage_val b host p false hb]; rfl
  · rw [ExceptionFilter_val b host p hb]; rfl

theorem classification_before_snapshot_before_disposition_witness :
    ∃ shown rest,
      (DumpFilter sampleBuild hostYesWriteFails (accessViolation 1 0)).trace =
        [Event.cout "\n".toList] ++
        (PrintCrashMessage sampleBuild hostYesWriteFails (accessViolation 1 0) true).trace ++
        [Event.cout (lit "  [덤프 필터] 미니덤프 생성 중: " ++
          "CrashDump_a1b2c3d_claude_infallible-dubinsky.dmp".toList ++ "\n".toList),
         Event.createFileW "CrashDump_a1b2c3d_claude_infallible-dubinsky.dmp".toList,
         Event.cout (lit "  [ERROR] 덤프 파일 생성 실패!\n")] ++ rest ∧
      systemCalls rest = [] ∧
      Event.messageBoxA shown "ZeroCrashLab - Crash Detected".toList ∈
        (PrintCrashMessage sampleBuild hostYesWriteFails (accessViolation 1 0) true).trace ∧
      (DumpFilter sampleBuild hostYesWriteFails (accessViolation 1 0)).val =
        some EXCEPTION_EXECUTE_HANDLER := by
  obtain ⟨m, ok, okG, post, postG, postE, hm, -, hdlg, -, htrace, hpost, hval, -⟩ :=
    classification_before_snapshot_before_disposition sampleBuild hostYesWriteFails
      (accessViolation 1 0) (by decide) (by decide)
  rw [PrintCrashMessage_val sampleBuild hostYesWriteFails _ true (by decide)] at hm
  cases hm
  refine ⟨_, post, ?_, hpost, hdlg, hval⟩
  rw [htrace, WriteMiniDump_trace]
  have hn : dumpFileName "CrashDump_".toList sampleBuild =
      "CrashDump_a1b2c3d_claude_infallible-dubinsky.dmp".toList := by decide
  rw [hn]
  simp [hostYesWriteFails, IDYES]


/-- C18 as amended: the file `DumpFilter` writes to is named "CrashDump_", the
revision as it is, "_", the branch sanitized by `MakeSafeFilename` into 128
characters, ".dmp" (`GameSim::GameCrashFilter`: the same after "GameCrash_").  The
branch part holds no forbidden character, and the whole name holds none whenever the
revision holds none. -/
theorem dump_file_name_sanitizes_branch_only (b : Build) (host : Host) (p : EXCEPTION_POINTERS)
    (hr : b.BUILD_GIT_REVISION.length ≤ 113)
    (hb : b.BUILD_GIT_REVISION.length + b.BUILD_GIT_BRANCH.length ≤ 700)
    (hyes : host.MessageBoxA = IDYES) :
    snapshotWrites (DumpFilter b host p).trace =
      ["CrashDump_".toList ++ b.BUILD_GIT_REVISION ++ "_".toList ++
        MakeSafeFilename 128 b.BUILD_GIT_BRANCH ++ ".dmp".toList] ∧
    snapshotWrites (GameSim.GameCrashFilter b host p).trace =
      ["GameCrash_".toList ++ b.BUILD_GIT_REVISION ++ "_".toList ++
        MakeSafeFilename 128 b.BUILD_GIT_BRANCH ++ ".dmp".toList] ∧
    (∀ c ∈ MakeSafeFilename 128 b.BUILD_GIT_BRANCH, isForbiddenChar c = false) ∧
    ((∀ c ∈ b.BUILD_GIT_REVISION, isForbiddenChar c = false) →
      (∀ c ∈ "CrashDump_".toList ++ b.BUILD_GIT_REVISION ++ "_".toList ++
          MakeSafeFilename 128 b.BUILD_GIT_BRANCH ++ ".dmp".toList, isForbiddenChar c = false) ∧
      (∀ c ∈ "GameCrash_".toList ++ b.BUILD_GIT_REVISION ++ "_".toList ++
          MakeSafeFilename 128 b.BUILD_GIT_BRANCH ++ ".dmp".toList,
        isForbiddenChar c = false)) := by
  have hsafe : ∀ c ∈ MakeSafeFilename 128 b.BUILD_GIT_BRANCH, isForbiddenChar c = false :=
    fun c hc => (MakeSafeFilenameLoop_not_forbidden _ _ c hc).1
  have hlit : ∀ l : List Char, l.all (fun c => !isForbiddenChar c) = true →
      ∀ c ∈ l, isForbiddenChar c = false := by
    intro l hl c hc
    simpa using List.all_eq_true.mp hl c hc
  refine ⟨?_, ?_, hsafe, fun hrev => ⟨?_, ?_⟩⟩
  · rw [DumpFilter_snapshotWrites b host p hr hb, if_pos hyes]; rfl
  · rw [GameCrashFilter_snapshotWrites b host p hr hb, if_pos hyes]; rfl
  · intro c hc
    simp only [List.mem_append] at hc
    rcases hc with (((h | h) | h) | h) | h
    · exact hlit _ (by decide) c h
    · exact hrev c h
    · exact hlit _ (by decide) c h
    · exact hsafe c h
    · exact hlit _ (by decide) c h
  · intro c hc
    simp only [List.mem_append] at hc
    rcases hc with (((h | h) | h) | h) | h
    · exact hlit _ (by decide) c h
    · exact hrev c h
    · exact hlit _ (by decide) c h
    · exact hsafe c h
    · exact hlit _ (by decide) c h

theorem dump_file_name_sanitizes_branch_only_witness :
    snapshotWrites (DumpFilter sampleBuild hostYes (accessViolation 1 0)).trace =
      ["CrashDump_a1b2c3d_claude_infallible-dubinsky.dmp".toList] ∧
    snapshotWrites (GameSim.GameCrashFilter sampleBuild hostYes (accessViolation 1 0)).trace =
      ["GameCrash_a1b2c3d_claude_infallible-dubinsky.dmp".toList] :=
  have h := dump_file_name_sanitizes_branch_only sampleBuild hostYes (accessViolation 1 0)
    (by decide) (by decide) (by decide)
  ⟨h.1.trans (by decide), h.2.1.trans (by decide)⟩

/-- C18 fails as stated: with the revision "v1/rc" the file is named
"CrashDump_v1/rc_main.dmp"; the revision part is not sanitized and the name holds
the forbidden character '/'. -/
theorem dump_file_name_keeps_revision_unsanitized :
    snapshotWrites (DumpFilter slashBuild hostYes (accessViolation 1 0)).trace =
      ["CrashDump_v1/rc_main.dmp".toList] ∧
    "CrashDump_v1/rc_main.dmp".toList ≠
      "CrashDump_".toList ++ MakeSafeFilename 128 slashBuild.BUILD_GIT_REVISION ++
        "_".toList ++ MakeSafeFilename 128 slashBuild.BUILD_GIT_BRANCH ++ ".dmp".toList ∧
    '/' ∈ "CrashDump_v1/rc_main.dmp".toList ∧ isForbiddenChar '/' = true :=
  ⟨(DumpFilter_snapshotWrites slashBuild hostYes (accessViolation 1 0) (by decide)
      (by decide)).trans (by decide), by decide, by decide, by decide⟩

/-- C19: the dump file name depends on revision and branch only: builds with the
same two strings give the same name for every host and descriptor; and in
`HandleF_SehWithDump` the name passed to `CreateFileW` by `DumpFilter`, the name
passed to `GetFileAttributesW` afterwards and the name printed for the user are one
and the same string. -/
theorem dump_file_name_deterministic (b : Build) (host : Host) (fs : FileAttributes)
    (p : EXCEPTION_POINTERS)
    (hr : b.BUILD_GIT_REVISION.length ≤ 113)
    (hb : b.BUILD_GIT_REVISION.length + b.BUILD_GIT_BRANCH.length ≤ 700)
    (hyes : host.MessageBoxA = IDYES) :
    (∀ (b' : Build) (host' : Host) (p' : EXCEPTION_POINTERS),
      b'.BUILD_GIT_REVISION = b.BUILD_GIT_REVISION → b'.BUILD_GIT_BRANCH = b.BUILD_GIT_BRANCH →
      host'.MessageBoxA = IDYES →
        snapshotWrites (DumpFilter b' host' p').trace =
          snapshotWrites (DumpFilter b host p).trace) ∧
    (HandleF_SehWithDump b host fs p).val = some () ∧
    snapshotWrites (HandleF_SehWithDump b host fs p).trace =
      [dumpFileName "CrashDump_".toList b] ∧
    attributeQueries (HandleF_SehWithDump b host fs p).trace =
      [dumpFileName "CrashDump_".toList b] ∧
    Event.cout ("  1. ".toList ++ dumpFileName "CrashDump_".toList b ++
        lit " 파일을 더블클릭\n") ∈ (HandleF_SehWithDump b host fs p).trace := by
  have hsys := HandleF_SehWithDump_systemCalls b host fs p hr hb
  rw [DumpFilter_systemCalls b host p hr hb, if_pos hyes, WriteMiniDump_systemCalls] at hsys
  refine ⟨?_, HandleF_SehWithDump_val b host fs p hr hb, ?_, ?_,
    HandleF_SehWithDump_reports b host fs p hr hb⟩
  · intro b' host' p' hrev hbr hyes'
    rw [DumpFilter_snapshotWrites b host p hr hb, if_pos hyes,
      DumpFilter_snapshotWrites b' host' p' (by rw [hrev]; exact hr)
        (by rw [hrev, hbr]; exact hb), if_pos hyes']
    unfold dumpFileName
    rw [hrev, hbr]
  · rw [← snapshotWrites_systemCalls, hsys]
    cases host.CreateFileW <;> cases fs.attr <;> rfl
  · rw [← attributeQueries_systemCalls, hsys]
    cases host.CreateFileW <;> cases fs.attr <;> rfl

theorem dump_file_name_deterministic_witness :
    snapshotWrites (HandleF_SehWithDump sampleBuild hostYes sampleFile
        (accessViolation 1 0)).trace =
      ["CrashDump_a1b2c3d_claude_infallible-dubinsky.dmp".toList] ∧
    attributeQueries (HandleF_SehWithDump sampleBuild hostYes sampleFile
        (accessViolation 1 0)).trace =
      ["CrashDump_a1b2c3d_claude_infallible-dubinsky.dmp".toList] ∧
    Event.cout ("  1. ".toList ++ "CrashDump_a1b2c3d_claude_infallible-dubinsky.dmp".toList ++
        lit " 파일을 더블클릭\n") ∈
      (HandleF_SehWithDump sampleBuild hostYes sampleFile (accessViolation 1 0)).trace := by
  have h := dump_file_name_deterministic sampleBuild hostYes sampleFile (accessViolation 1 0)
    (by decide) (by decide) (by decide)
  have hn : dumpFileName "CrashDump_".toList sampleBuild =
      "CrashDump_a1b2c3d_claude_infallible-dubinsky.dmp".toList := by decide
  rw [hn] at h
  exact ⟨h.2.2.1, h.2.2.2.1, h.2.2.2.2⟩

/-- The outcomes of `WriteMiniDump`: it always returns; it returns true exactly
when the file was created and the dump write succeeded; when the file cannot be
created it prints an error message, returns false and attempts no dump write; when
the file is created it writes the dump and closes the handle. -/
theorem WriteMiniDump_outcomes (host : Host) (p : EXCEPTION_POINTERS) (filename : List Char) :
    ∃ r, (WriteMiniDump host p filename).val = some r ∧
      (r = true ↔ (∃ hFile, host.CreateFileW = some hFile) ∧ host.MiniDumpWriteDump ≠ 0) ∧
      (host.CreateFileW = none →
        r = false ∧
        (WriteMiniDump host p filename).trace =
          [Event.createFileW filename, Event.cout (lit "  [ERROR] 덤프 파일 생성 실패!\n")]) ∧
      (∀ hFile, host.CreateFileW = some hFile →
        (WriteMiniDump host p filename).trace =
          [Event.createFileW filename, Event.miniDumpWriteDump hFile,
            Event.closeHandle hFile]) := by
  refine ⟨_, WriteMiniDump_val host p filename, ?_, ?_, ?_⟩
  · cases h : host.CreateFileW <;> simp
  · intro h
    rw [WriteMiniDump_trace, h]
    exact ⟨rfl, rfl⟩
  · intro hFile h
    rw [WriteMiniDump_trace, h]

theorem WriteMiniDump_outcomes_witness :
    ((WriteMiniDump hostYesWriteFails (accessViolation 1 0) "CrashDump.dmp".toList).val =
        some false ∧
      (WriteMiniDump hostYesWriteFails (accessViolation 1 0) "CrashDump.dmp".toList).trace =
        [Event.createFileW "CrashDump.dmp".toList,
          Event.cout (lit "  [ERROR] 덤프 파일 생성 실패!\n")]) ∧
    (WriteMiniDump hostYes (accessViolation 1 0) "CrashDump.dmp".toList).val = some true := by
  obtain ⟨r, hr, -, hnone, -⟩ :=
    WriteMiniDump_outcomes hostYesWriteFails (accessViolation 1 0) "CrashDump.dmp".toList
  obtain ⟨r', hr', hiff, -, -⟩ :=
    WriteMiniDump_outcomes hostYes (accessViolation 1 0) "CrashDump.dmp".toList
  have h1 := hnone rfl
  have h2 : r' = true := hiff.mpr ⟨⟨_, rfl⟩, by decide⟩
  rw [h1.1] at hr
  rw [h2] at hr'
  exact ⟨⟨hr, h1.2⟩, hr'⟩

/-- With the file created and `MiniDumpWriteDump` reporting failure,
`WriteMiniDump` creates the file, writes, closes the handle and returns false; it
prints nothing itself on this path, the failure message is the one of the filter
that called it. -/
theorem WriteMiniDump_silent_on_write_failure :
    (WriteMiniDump hostYesDumpFails (accessViolation 1 0) "CrashDump.dmp".toList).val =
      some false ∧
    (WriteMiniDump hostYesDumpFails (accessViolation 1 0) "CrashDump.dmp".toList).trace =
      [Event.createFileW "CrashDump.dmp".toList, Event.miniDumpWriteDump 0x1F4,
        Event.closeHandle 0x1F4] ∧
    ∀ text, Event.cout text ∉
      (WriteMiniDump hostYesDumpFails (accessViolation 1 0) "CrashDump.dmp".toList).trace :=
  ⟨by decide, by decide, fun text h => by
    rw [WriteMiniDump_trace] at h
    simp [hostYesDumpFails] at h⟩

/-! ## The confirmation policy -/

theorem prompts_bind {α β : Type} (m : Run α) (f : α → Run β) :
    prompts (m.bind f).trace =
      prompts m.trace ++ m.val.elim [] (fun a => prompts (f a).trace) := by
  rw [Run.trace_bind]
  unfold prompts
  rw [List.filterMap_append]
  cases m.val <;> rfl

theorem prompts_cout (t : List Char) : prompts (cout t).trace = [] := rfl

theorem prompts_pure {α : Type} (a : α) : prompts (pure a : Run α).trace = [] := rfl

theorem prompts_sprintf_s (buffer : List Char) (size : Nat) (text : List Char) :
    prompts (sprintf_s buffer size text).trace = [] := by
  unfold sprintf_s
  split_ifs <;> rfl

theorem prompts_bind_of_val {α β : Type} {m : Run α} {f : α → Run β} {a : α}
    (h : m.val = some a) (hp : prompts m.trace = []) :
    prompts (m.bind f).trace = prompts (f a).trace := by
  rw [prompts_bind, h, hp]
  rfl

theorem PrintCrashMessage.diagnose_prompts (r : EXCEPTION_RECORD) (msgBuf : List Char) :
    prompts (PrintCrashMessage.diagnose r msgBuf).trace = [] := by
  unfold PrintCrashMessage.diagnose
  simp only [Run.bind_eq]
  split_ifs <;>
    simp only [prompts_bind, prompts_cout, prompts_pure, prompts_sprintf_s,
      elim_nil_nil, List.append_nil]

theorem PrintCrashMessage.registers_prompts (b : Build) (pCtx : CONTEXT)
    (msgBuf : List Char) :
    prompts (PrintCrashMessage.registers b pCtx msgBuf).trace = [] := by
  unfold PrintCrashMessage.registers
  simp only [Run.bind_eq]
  split_ifs <;>
    simp only [prompts_bind, prompts_cout, prompts_pure, prompts_sprintf_s,
      elim_nil_nil, List.append_nil]

theorem PrintCrashMessage.askDump_prompts (host : Host) (bAskDump : Bool)
    (msgBuf : List Char) (h : msgBuf.length ≤ 1023) :
    prompts (PrintCrashMessage.askDump host bAskDump msgBuf).trace =
      if bAskDump then [msgBuf ++ dumpQuestion] else [] := by
  have hq := dumpQuestion_length
  rw [PrintCrashMessage.askDump_trace]
  split_ifs
  · rw [sprintf_s_fit (by simp only [List.length_append, List.length_nil]; omega)]
    rfl
  · rfl

theorem PrintCrashMessage_prompts (b : Build) (host : Host) (p : EXCEPTION_POINTERS)
    (bAskDump : Bool)
    (hb : b.BUILD_GIT_REVISION.length + b.BUILD_GIT_BRANCH.length ≤ 700) :
    prompts (PrintCrashMessage b host p bAskDump).trace =
      if bAskDump then [messageOf b p ++ dumpQuestion] else [] := by
  have h1 := GetExceptionCodeString_length_le p.ExceptionRecord.ExceptionCode
  have h2 := hexUpper_length_le p.ExceptionRecord.ExceptionAddress
  have h3 := headerLines_length_le p.ExceptionRecord
  have h4 := accessLine_length_le p.ExceptionRecord
  have h5 := diagnosisSection_length_le p.ExceptionRecord
  have h6 := registerLines_length_le b p.ContextRecord
  have h7 := buildLine_length b
  have h8 := diagnosisOf_length_le p.ExceptionRecord
  have hlen : (messageOf b p).length ≤ 1023 := by
    unfold messageOf
    simp only [List.length_append]
    omega
  unfold PrintCrashMessage
  simp only [Run.bind_eq]
  rw [prompts_bind_of_val (a := "[ CRASH ]\n\nCode: ".toList ++
    GetExceptionCodeString p.ExceptionRecord.ExceptionCode ++ "\n".toList) (by
      rw [sprintf_s_fit (by
        simp only [List.length_append, String.toList, List.length_cons, List.length_nil]; omega)]
      rfl) (prompts_sprintf_s _ _ _)]
  rw [prompts_bind_of_val (a := headerLines p.ExceptionRecord) (by
      rw [sprintf_s_fit (by
        simp only [List.length_append, String.toList, List.length_cons, List.length_nil]; omega)]
      rfl) (prompts_sprintf_s _ _ _)]
  rw [prompts_bind_of_val (cout_val _) (prompts_cout _)]
  rw [prompts_bind_of_val (cout_val _) (prompts_cout _)]
  rw [prompts_bind_of_val (cout_val _) (prompts_cout _)]
  rw [prompts_bind_of_val (PrintCrashMessage.diagnose_val _ _ (by omega))
    (PrintCrashMessage.diagnose_prompts _ _)]
  rw [prompts_bind_of_val (a := headerLines p.ExceptionRecord ++ accessLine p.ExceptionRecord ++
    diagnosisSection (diagnosisOf p.ExceptionRecord)) (by
      unfold diagnosisSection
      split_ifs
      · rw [sprintf_s_fit (by
          simp only [List.length_append, String.toList, List.length_cons, List.length_nil]
          omega)]
        rfl
      · rw [List.append_nil]; rfl) (by
      split_ifs
      · exact prompts_sprintf_s _ _ _
      · rfl)]
  rw [prompts_bind_of_val (PrintCrashMessage.registers_val _ _ _ (by
    simp only [List.length_append]; omega)) (PrintCrashMessage.registers_prompts _ _ _)]
  rw [prompts_bind_of_val (a := messageOf b p) (by
      rw [sprintf_s_fit (by
        unfold buildLine at h7
        simp only [List.length_append, String.toList, List.length_cons, List.length_nil] at h7 ⊢
        omega)]
      rfl) (prompts_sprintf_s _ _ _)]
  rw [prompts_bind_of_val (cout_val _) (prompts_cout _)]
  rw [prompts_bind_of_val (cout_val _) (prompts_cout _)]
  rw [prompts_bind, PrintCrashMessage.askDump_prompts _ _ _ hlen,
    PrintCrashMessage.askDump_val _ _ _ hlen]
  simp only [Option.elim_some, prompts_pure, List.append_nil]

theorem ExceptionFilter_prompts (b : Build) (host : Host) (p : EXCEPTION_POINTERS)
    (hb : b.BUILD_GIT_REVISION.length + b.BUILD_GIT_BRANCH.length ≤ 700) :
    prompts (ExceptionFilter b host p).trace = [] := by
  unfold ExceptionFilter
  simp only [Run.bind_eq]
  have hp := PrintCrashMessage_prompts b host p false hb
  rw [if_neg (by decide)] at hp
  rw [prompts_bind, hp, PrintCrashMessage_val b host p false hb]
  simp only [Option.elim_some, List.nil_append]
  split_ifs <;> rfl

/-- C21: `PrintCrashMessage` with bAskDump = false returns true for every fault
record and puts no question to the user; with bAskDump = true it puts exactly one
question and returns true when the answer is IDYES and false for any other
answer; `ExceptionFilter` puts no question. -/
theorem confirmation_policy (b : Build) (host : Host) (p : EXCEPTION_POINTERS)
    (hb : b.BUILD_GIT_REVISION.length + b.BUILD_GIT_BRANCH.length ≤ 700) :
    (∃ m, (PrintCrashMessage b host p false).val = some m ∧ m.result = true) ∧
    prompts (PrintCrashMessage b host p false).trace = [] ∧
    (∃ m, (PrintCrashMessage b host p true).val = some m ∧
      (m.result = true ↔ host.MessageBoxA = IDYES) ∧
      (m.result = false ↔ host.MessageBoxA ≠ IDYES)) ∧
    prompts (PrintCrashMessage b host p true).trace = [messageOf b p ++ dumpQuestion] ∧
    prompts (ExceptionFilter b host p).trace = [] := by
  refine ⟨⟨_, PrintCrashMessage_val b host p false hb, rfl⟩,
    PrintCrashMessage_prompts b host p false hb,
    ⟨_, PrintCrashMessage_val b host p true hb, ?_, ?_⟩,
    PrintCrashMessage_prompts b host p true hb,
    ExceptionFilter_prompts b host p hb⟩
  · simp
  · simp

theorem confirmation_policy_witness :
    (∃ m, (PrintCrashMessage sampleBuild hostNo (accessViolation 1 0) false).val = some m ∧
      m.result = true) ∧
    (∃ m, (PrintCrashMessage sampleBuild hostNo (accessViolation 1 0) true).val = some m ∧
      m.result = false) ∧
    (∃ m, (PrintCrashMessage sampleBuild hostYes (accessViolation 1 0) true).val = some m ∧
      m.result = true) ∧
    prompts (ExceptionFilter sampleBuild hostYes (accessViolation 1 0)).trace = [] :=
  ⟨(confirmation_policy sampleBuild hostNo (accessViolation 1 0) (by decide)).1,
   (confirmation_policy sampleBuild hostNo (accessViolation 1 0) (by decide)).2.2.1.elim
     fun m hm => ⟨m, hm.1, hm.2.2.2 (by decide)⟩,
   (confirmation_policy sampleBuild hostYes (accessViolation 1 0) (by decide)).2.2.1.elim
     fun m hm => ⟨m, hm.1, hm.2.1.2 (by decide)⟩,
   (confirmation_policy sampleBuild hostYes (accessViolation 1 0) (by decide)).2.2.2.2⟩

/-! ## The build tag -/

theorem starts_within {pat u v : List Char} {c : Char} (hc : c ∉ pat)
    (h : pat <+: u ++ c :: v) : pat <+: u := by
  induction u generalizing pat with
  | nil =>
    cases pat with
    | nil => exact List.nil_prefix
    | cons x pat' =>
      rw [List.nil_append, List.cons_prefix_cons] at h
      exact absurd (h.1 ▸ List.mem_cons_self x pat') hc
  | cons a u ih =>
    cases pat with
    | nil => exact List.nil_prefix
    | cons x pat' =>
      rw [List.cons_append, List.cons_prefix_cons] at h
      rw [List.cons_prefix_cons]
      exact ⟨h.1, ih (fun hm => hc (List.mem_cons_of_mem x hm)) h.2⟩

theorem occurrence_split {pat t u v : List Char} {c : Char} (hc : c ∉ pat) (hne : pat ≠ [])
    (ht : t <:+ u ++ c :: v) (hp : pat <+: t) :
    (∃ t', t = t' ++ c :: v ∧ t' <:+ u ∧ pat <+: t') ∨ t <:+ v := by
  obtain ⟨pre, hpre⟩ := ht
  rcases List.append_eq_append_iff.mp hpre with ⟨a', hu, htt⟩ | ⟨c', hpre', hw⟩
  · left
    refine ⟨a', htt, ⟨pre, hu.symm⟩, ?_⟩
    rw [htt] at hp
    exact starts_within hc hp
  · right
    cases c' with
    | nil =>
      rw [List.nil_append] at hw
      rw [← hw] at hp
      cases pat with
      | nil => exact absurd rfl hne
      | cons x pat' =>
        rw [List.cons_prefix_cons] at hp
        exact absurd (hp.1 ▸ List.mem_cons_self x pat') hc
    | cons y c'' =>
      rw [List.cons_append, List.cons.injEq] at hw
      exact ⟨c'', hw.2.symm⟩

theorem skip_word {pat t w v : List Char} {c : Char} (hc : c ∉ pat)
    (hlen : w.length < pat.length) (ht : t <:+ w ++ c :: v) (hp : pat <+: t) : t <:+ v := by
  have hne : pat ≠ [] := by
    intro h; rw [h] at hlen; simp at hlen
  rcases occurrence_split hc hne ht hp with ⟨t', _, hs, hp'⟩ | h
  · have h1 := hp'.length_le
    have h2 := hs.length_le
    omega
  · exact h

theorem skip_string {pat t x v : List Char} {c : Char} (hc : c ∉ pat) (hne : pat ≠ [])
    (hx : ¬ pat <:+: x) (ht : t <:+ x ++ c :: v) (hp : pat <+: t) : t <:+ v := by
  rcases occurrence_split hc hne ht hp with ⟨t', _, hs, hp'⟩ | h
  · exact absurd (hp'.isInfix.trans hs.isInfix) hx
  · exact h

theorem g_BuildTag_nested (b : Build) :
    g_BuildTag b = openingSentinel ++ ' ' :: ("Rev".toList ++ ':' :: (b.BUILD_GIT_REVISION ++
      ' ' :: ("Branch".toList ++ ':' :: (b.BUILD_GIT_BRANCH ++ ' ' :: ("Date".toList ++
      ':' :: (b.BUILD_GIT_DATE ++ ' ' :: ("Built".toList ++ ':' :: (b.BUILD_TIMESTAMP ++
      ' ' :: closingSentinel)))))))) := by
  simp [g_BuildTag, openingSentinel, closingSentinel]

theorem g_BuildTag_occurrence (b : Build) (pat t : List Char)
    (hsp : ' ' ∉ pat) (hco : ':' ∉ pat) (hlen : 6 < pat.length)
    (h1 : ¬ pat <:+: b.BUILD_GIT_REVISION) (h2 : ¬ pat <:+: b.BUILD_GIT_BRANCH)
    (h3 : ¬ pat <:+: b.BUILD_GIT_DATE) (h4 : ¬ pat <:+: b.BUILD_TIMESTAMP)
    (ht : t <:+ g_BuildTag b) (hp : pat <+: t) :
    (∃ t', t' <:+ openingSentinel ∧ pat <+: t' ∧
      t.length = t'.length + ((g_BuildTag b).length - openingSentinel.length)) ∨
    t <:+ closingSentinel := by
  have hne : pat ≠ [] := by
    intro h; rw [h] at hlen; simp at hlen
  rw [g_BuildTag_nested] at ht
  rcases occurrence_split hsp hne ht hp with ⟨t', ht', hs, hp'⟩ | h
  · left
    refine ⟨t', hs, hp', ?_⟩
    rw [g_BuildTag_nested, ht']
    simp only [List.length_append, List.length_cons]
    omega
  · right
    have h := skip_word hco (by simpa using by omega) h hp
    have h := skip_string hsp hne h1 h hp
    have h := skip_word hco (by simpa using hlen) h hp
    have h := skip_string hsp hne h2 h hp
    have h := skip_word hco (by simpa using by omega) h hp
    have h := skip_string hsp hne h3 h hp
    have h := skip_word hco (by simpa using by omega) h hp
    exact skip_string hsp hne h4 h hp

theorem occurrences_eq_singleton {pat s : List Char} {k : Nat} (hk : k ≤ s.length)
    (h : ∀ i, i ≤ s.length → (pat <+: s.drop i ↔ i = k)) : occurrences pat s = [k] := by
  have hnd : (occurrences pat s).Nodup := (List.nodup_range _).filter _
  have hmem : ∀ a, a ∈ occurrences pat s ↔ a ∈ [k] := by
    intro a
    unfold occurrences
    rw [List.mem_filter, List.mem_range, List.isPrefixOf_iff_prefix, List.mem_singleton]
    constructor
    · rintro ⟨ha, hpre⟩
      exact (h a (by omega)).mp hpre
    · intro ha
      subst ha
      exact ⟨by omega, (h a hk).mpr rfl⟩
  exact List.perm_singleton.mp
    ((List.perm_ext_iff_of_nodup hnd (List.nodup_singleton k)).mpr hmem)

theorem g_BuildTag_length (b : Build) :
    (g_BuildTag b).length = 59 + b.BUILD_GIT_REVISION.length + b.BUILD_GIT_BRANCH.length +
      b.BUILD_GIT_DATE.length + b.BUILD_TIMESTAMP.length := by
  simp only [g_BuildTag, List.length_append, String.toList, List.length_cons, List.length_nil]
  omega

theorem g_BuildTag_opening (b : Build) (i : Nat) (hi : i ≤ (g_BuildTag b).length)
    (h1 : sentinelFree b.BUILD_GIT_REVISION) (h2 : sentinelFree b.BUILD_GIT_BRANCH)
    (h3 : sentinelFree b.BUILD_GIT_DATE) (h4 : sentinelFree b.BUILD_TIMESTAMP) :
    openingSentinel <+: (g_BuildTag b).drop i ↔ i = 0 := by
  constructor
  · intro hp
    rcases g_BuildTag_occurrence b openingSentinel _ (by decide) (by decide) (by decide)
      h1.1 h2.1 h3.1 h4.1 (List.drop_suffix i _) hp with ⟨t', hs, hp', hl⟩ | h
    · have e1 := hp'.length_le
      have e2 := hs.length_le
      have e3 := g_BuildTag_length b
      have e4 : openingSentinel.length = 14 := rfl
      rw [List.length_drop] at hl
      omega
    · exact absurd (hp.isInfix.trans h.isInfix) (by decide)
  · intro h
    subst h
    rw [List.drop_zero, g_BuildTag_nested]
    exact ⟨_, rfl⟩

theorem g_BuildTag_closing (b : Build) (i : Nat) (hi : i ≤ (g_BuildTag b).length)
    (h1 : sentinelFree b.BUILD_GIT_REVISION) (h2 : sentinelFree b.BUILD_GIT_BRANCH)
    (h3 : sentinelFree b.BUILD_GIT_DATE) (h4 : sentinelFree b.BUILD_TIMESTAMP) :
    closingSentinel <+: (g_BuildTag b).drop i ↔ i = (g_BuildTag b).length - 18 := by
  have e3 := g_BuildTag_length b
  have e4 : openingSentinel.length = 14 := rfl
  have e5 : closingSentinel.length = 18 := rfl
  constructor
  · intro hp
    rcases g_BuildTag_occurrence b closingSentinel _ (by decide) (by decide) (by decide)
      h1.2 h2.2 h3.2 h4.2 (List.drop_suffix i _) hp with ⟨t', hs, hp', _⟩ | h
    · have e1 := hp'.length_le
      have e2 := hs.length_le
      omega
    · have e1 := hp.length_le
      have e2 := h.length_le
      rw [List.length_drop] at e1 e2
      omega
  · intro h
    subst h
    have hsuf : closingSentinel <:+ g_BuildTag b := ⟨_, rfl⟩
    rw [List.suffix_iff_eq_drop] at hsuf
    rw [e5] at hsuf
    rw [← hsuf]

/-- C22 as amended: the tag is the opening sentinel, " Rev:" and the revision,
" Branch:" and the branch, " Date:" and the commit date, " Built:" and the
timestamp, a space and the closing sentinel; it is longer than the form without
the Date field by that field. -/
theorem build_tag_form (b : Build) :
    g_BuildTag b = openingSentinel ++ " Rev:".toList ++ b.BUILD_GIT_REVISION ++
      " Branch:".toList ++ b.BUILD_GIT_BRANCH ++ " Date:".toList ++ b.BUILD_GIT_DATE ++
      " Built:".toList ++ b.BUILD_TIMESTAMP ++ " ".toList ++ closingSentinel ∧
    (g_BuildTag b).length =
      (specTagForm b.BUILD_GIT_REVISION b.BUILD_GIT_BRANCH b.BUILD_TIMESTAMP).length +
        (" Date:".toList ++ b.BUILD_GIT_DATE).length ∧
    g_BuildTag b ≠ specTagForm b.BUILD_GIT_REVISION b.BUILD_GIT_BRANCH b.BUILD_TIMESTAMP := by
  have hlen : (g_BuildTag b).length =
      (specTagForm b.BUILD_GIT_REVISION b.BUILD_GIT_BRANCH b.BUILD_TIMESTAMP).length +
        (" Date:".toList ++ b.BUILD_GIT_DATE).length := by
    simp only [g_BuildTag, specTagForm, openingSentinel, closingSentinel, List.length_append,
      String.toList, List.length_cons, List.length_nil]
    omega
  refine ⟨?_, hlen, ?_⟩
  · simp [g_BuildTag, openingSentinel, closingSentinel]
  · intro h
    rw [h] at hlen
    simp only [List.length_append, String.toList, List.length_cons, List.length_nil] at hlen
    omega

/-- C22 fails on the code: for the sample build the tag holds the field
"Date:2025-01-15" between the branch and the build time, so it is not of the form
the claim gives. -/
theorem build_tag_has_date_field :
    g_BuildTag sampleBuild ≠ specTagForm sampleBuild.BUILD_GIT_REVISION
      sampleBuild.BUILD_GIT_BRANCH sampleBuild.BUILD_TIMESTAMP ∧
    g_BuildTag sampleBuild = ("<<<BUILDTAG>>> Rev:a1b2c3d Branch:claude/infallible-dubinsky " ++
      "Date:2025-01-15 Built:2025-01-15 10:30:00 <<<END_BUILDTAG>>>").toList := by
  decide

/-- C23: when none of the four build strings contains a sentinel, the tag begins
with the opening sentinel and ends with the closing one, a search for the
opening sentinel finds index 0 and nothing else, a search for the closing
sentinel finds the last 18 characters and nothing else, and the closing sentinel
does not contain the opening one. -/
theorem build_tag_sentinels_once (b : Build)
    (h1 : sentinelFree b.BUILD_GIT_REVISION) (h2 : sentinelFree b.BUILD_GIT_BRANCH)
    (h3 : sentinelFree b.BUILD_GIT_DATE) (h4 : sentinelFree b.BUILD_TIMESTAMP) :
    openingSentinel <+: g_BuildTag b ∧ closingSentinel <:+ g_BuildTag b ∧
    occurrences openingSentinel (g_BuildTag b) = [0] ∧
    occurrences closingSentinel (g_BuildTag b) = [(g_BuildTag b).length - 18] ∧
    ¬ openingSentinel <:+: closingSentinel := by
  refine ⟨?_, ⟨_, rfl⟩, ?_, ?_, by decide⟩
  · rw [g_BuildTag_nested]
    exact ⟨_, rfl⟩
  · exact occurrences_eq_singleton (Nat.zero_le _)
      fun i hi => g_BuildTag_opening b i hi h1 h2 h3 h4
  · exact occurrences_eq_singleton (Nat.sub_le _ _)
      fun i hi => g_BuildTag_closing b i hi h1 h2 h3 h4

theorem build_tag_sentinels_once_witness :
    sentinelFree sampleBuild.BUILD_GIT_REVISION ∧ sentinelFree sampleBuild.BUILD_GIT_BRANCH ∧
    sentinelFree sampleBuild.BUILD_GIT_DATE ∧ sentinelFree sampleBuild.BUILD_TIMESTAMP ∧
    occurrences openingSentinel (g_BuildTag sampleBuild) = [0] ∧
    occurrences closingSentinel (g_BuildTag sampleBuild) = [103] :=
  ⟨by decide, by decide, by decide, by decide,
   (build_tag_sentinels_once sampleBuild (by decide) (by decide) (by decide) (by decide)).2.2.1,
   ((build_tag_sentinels_once sampleBuild (by decide) (by decide) (by decide)
      (by decide)).2.2.2.1).trans (by decide)⟩

/-! ## Exceptions turned into error codes -/

theorem string_find_eq_none (s : List Char) (c : Char) : string_find s c = none ↔ c ∉ s := by
  unfold string_find
  rw [← List.indexOf_lt_length]
  split_ifs with h
  · simp [h]
  · simp [h]

theorem ParseConfig_ok_iff (data : List Char) :
    (ThirdPartyLib.ParseConfig data =
        Except.ok { name := "Hero".toList, hp := 100, speed := 5.5 } ↔
      data ≠ [] ∧ Char.ofNat 123 ∈ data) ∧
    (data = [] → ThirdPartyLib.ParseConfig data =
      Except.error (CppException.invalid_argument "Empty config data".toList)) ∧
    (data ≠ [] → Char.ofNat 123 ∉ data → ThirdPartyLib.ParseConfig data =
      Except.error (CppException.runtime_error "Invalid JSON format".toList)) := by
  unfold ThirdPartyLib.ParseConfig
  cases data with
  | nil => simp
  | cons c rest =>
    by_cases h : string_find (c :: rest) (Char.ofNat 123) = none
    · have h' := (string_find_eq_none _ _).mp h
      simp [h, h']
    · have h' : Char.ofNat 123 ∈ c :: rest := by
        by_contra hn
        exact h ((string_find_eq_none _ _).mpr hn)
      simp [h, h']

/-- C25: `SafeParseConfig` returns true exactly when `data` is not empty and
contains the opening brace (character 123), and no exception leaves it for any
input; on true `outResult` holds the record Hero, 100, 5.5 and on false it holds
what it held before.  The three inputs of demonstration B give true, false and
false. -/
theorem SafeParseConfig_contract (data : List Char) (outResult : ThirdPartyLib.ParseResult) :
    (SafeParseConfig data outResult).val =
      some (Except.ok
        (if data ≠ [] ∧ Char.ofNat 123 ∈ data then
          (true, { name := "Hero".toList, hp := 100, speed := 5.5 })
        else (false, outResult))) ∧
    (SafeParseConfig "\x7bname:Hero\x7d".toList outResult).val =
      some (Except.ok (true, { name := "Hero".toList, hp := 100, speed := 5.5 })) ∧
    (SafeParseConfig [] outResult).val = some (Except.ok (false, outResult)) ∧
    (SafeParseConfig "invalid data".toList outResult).val =
      some (Except.ok (false, outResult)) := by
  have key : ∀ d : List Char, (SafeParseConfig d outResult).val =
      some (Except.ok
        (if d ≠ [] ∧ Char.ofNat 123 ∈ d then
          (true, { name := "Hero".toList, hp := 100, speed := 5.5 })
        else (false, outResult))) := by
    intro d
    have hp := ParseConfig_ok_iff d
    unfold SafeParseConfig
    by_cases h : d ≠ [] ∧ Char.ofNat 123 ∈ d
    · rw [hp.1.mpr h, if_pos h]
      rfl
    · rw [if_neg h]
      by_cases he : d = []
      · rw [hp.2.1 he]
        rfl
      · rw [hp.2.2 he (fun hm => h ⟨he, hm⟩)]
        rfl
  refine ⟨key data, ?_, ?_, ?_⟩
  · rw [key, if_pos (by decide)]
  · rw [key, if_neg (by decide)]
  · rw [key, if_neg (by decide)]

theorem Initialize_val (maxObjects : Int) :
    (ExternalPhysicsLib.Initialize maxObjects).val =
      some (if maxObjects ≤ 0 then
          Except.error (CppException.invalid_argument "maxObjects must be > 0".toList)
        else if maxObjects > 100000 then
          Except.error
            (CppException.runtime_error "Too many objects for physics simulation".toList)
        else Except.ok ()) := by
  unfold ExternalPhysicsLib.Initialize
  split_ifs <;> rfl

/-- C26: `PhysicsWrapper::Init` returns true exactly when 1 <= maxObjects <= 100000
and false otherwise, and no exception leaves it for any integer; the inputs of
demonstration H, 1000, -1 and 999999, give true, false and false. -/
theorem PhysicsWrapper_Init_contract (maxObjects : Int) :
    (PhysicsWrapper.Init maxObjects).val =
      some (Except.ok (decide (1 ≤ maxObjects ∧ maxObjects ≤ 100000))) ∧
    (PhysicsWrapper.Init 1000).val = some (Except.ok true) ∧
    (PhysicsWrapper.Init (-1)).val = some (Except.ok false) ∧
    (PhysicsWrapper.Init 999999).val = some (Except.ok false) := by
  have key : ∀ n : Int, (PhysicsWrapper.Init n).val =
      some (Except.ok (decide (1 ≤ n ∧ n ≤ 100000))) := by
    intro n
    unfold PhysicsWrapper.Init
    simp only [Run.bind_eq, Run.val_bind, Initialize_val, Option.some_bind]
    by_cases h0 : n ≤ 0
    · rw [if_pos h0]
      have : ¬ (1 ≤ n ∧ n ≤ 100000) := by omega
      simp only [this, decide_False]
      rfl
    · rw [if_neg h0]
      by_cases h1 : n > 100000
      · rw [if_pos h1]
        have : ¬ (1 ≤ n ∧ n ≤ 100000) := by omega
        simp only [this, decide_False]
        rfl
      · rw [if_neg h1]
        have : 1 ≤ n ∧ n ≤ 100000 := by omega
        simp only [this, decide_True]
        rfl
  exact ⟨key maxObjects, by rw [key]; rfl, by rw [key]; rfl, by rw [key]; rfl⟩

/-! ## The length of the dump file name -/

theorem sprintf_s_overflow {buffer text : List Char} {size : Nat}
    (h : ¬ text.length < size - buffer.length) :
    sprintf_s buffer size text = ⟨[Event.invalidParameter], none⟩ := by
  unfold sprintf_s
  rw [if_neg h]

theorem dumpFileName_length (stem : List Char) (b : Build)
    (hnul : Char.ofNat 0 ∉ b.BUILD_GIT_BRANCH) :
    (dumpFileName stem b).length =
      stem.length + 5 + b.BUILD_GIT_REVISION.length + min b.BUILD_GIT_BRANCH.length 127 := by
  have h := MakeSafeFilenameLoop_length_of_no_nul 127 b.BUILD_GIT_BRANCH hnul
  unfold dumpFileName MakeSafeFilename
  simp only [List.length_append, String.toList, List.length_cons, List.length_nil]
  have e : (128 + 2 ^ 64 - 1) % 2 ^ 64 = 127 := by norm_num
  rw [e, h]
  omega

theorem DumpFilter_overflow (b : Build) (host : Host) (p : EXCEPTION_POINTERS)
    (hb : b.BUILD_GIT_REVISION.length + b.BUILD_GIT_BRANCH.length ≤ 700)
    (hyes : host.MessageBoxA = IDYES)
    (hlen : 256 ≤ (dumpFileName "CrashDump_".toList b).length) :
    (DumpFilter b host p).val = none := by
  unfold dumpFileName at hlen
  unfold DumpFilter swprintf_s widen
  simp only [Run.bind_eq, Run.val_bind, cout_val, PrintCrashMessage_val b host p true hb,
    Option.some_bind, reduceIte]
  simp only [hyes, decide_True, reduceIte]
  rw [sprintf_s_overflow (by
    simp only [List.length_nil]
    omega)]
  rfl

theorem GameCrashFilter_overflow (b : Build) (host : Host) (p : EXCEPTION_POINTERS)
    (hb : b.BUILD_GIT_REVISION.length + b.BUILD_GIT_BRANCH.length ≤ 700)
    (hyes : host.MessageBoxA = IDYES)
    (hlen : 256 ≤ (dumpFileName "GameCrash_".toList b).length) :
    (GameSim.GameCrashFilter b host p).val = none := by
  unfold dumpFileName at hlen
  unfold GameSim.GameCrashFilter swprintf_s widen
  simp only [Run.bind_eq, Run.val_bind, cout_val, PrintCrashMessage_val b host p true hb,
    Option.some_bind, reduceIte]
  simp only [hyes, decide_True, reduceIte]
  rw [sprintf_s_overflow (by
    simp only [List.length_nil]
    omega)]
  rfl

/-- C27: for a branch string without an embedded NUL the file name both dump
filters format has 15 + length(revision) + min(length(branch), 127) characters.
With a revision of at most 113 characters it has at most 255, both formatting
calls fit their 256-element buffers and the filters return; with a revision of
114 or more characters and a branch of 127 or more it has at least 256, the
formatting call runs the invalid-parameter handler, and a filter whose user
answers Yes does not return. -/
theorem dump_file_name_length_bound (b : Build) (host : Host) (p : EXCEPTION_POINTERS)
    (hnul : Char.ofNat 0 ∉ b.BUILD_GIT_BRANCH)
    (hb : b.BUILD_GIT_REVISION.length + b.BUILD_GIT_BRANCH.length ≤ 700) :
    (dumpFileName "CrashDump_".toList b).length =
      15 + b.BUILD_GIT_REVISION.length + min b.BUILD_GIT_BRANCH.length 127 ∧
    (dumpFileName "GameCrash_".toList b).length =
      15 + b.BUILD_GIT_REVISION.length + min b.BUILD_GIT_BRANCH.length 127 ∧
    (b.BUILD_GIT_REVISION.length ≤ 113 →
      (dumpFileName "CrashDump_".toList b).length ≤ 255 ∧
      (dumpFileName "GameCrash_".toList b).length ≤ 255 ∧
      swprintf_s 256 (dumpFileName "CrashDump_".toList b) =
        Run.pure (dumpFileName "CrashDump_".toList b) ∧
      swprintf_s 256 (dumpFileName "GameCrash_".toList b) =
        Run.pure (dumpFileName "GameCrash_".toList b) ∧
      (DumpFilter b host p).val = some EXCEPTION_EXECUTE_HANDLER ∧
      (GameSim.GameCrashFilter b host p).val = some EXCEPTION_EXECUTE_HANDLER) ∧
    (114 ≤ b.BUILD_GIT_REVISION.length → 127 ≤ b.BUILD_GIT_BRANCH.length →
      256 ≤ (dumpFileName "CrashDump_".toList b).length ∧
      256 ≤ (dumpFileName "GameCrash_".toList b).length ∧
      swprintf_s 256 (dumpFileName "CrashDump_".toList b) = ⟨[Event.invalidParameter], none⟩ ∧
      swprintf_s 256 (dumpFileName "GameCrash_".toList b) = ⟨[Event.invalidParameter], none⟩ ∧
      (host.MessageBoxA = IDYES → (DumpFilter b host p).val = none ∧
        (GameSim.GameCrashFilter b host p).val = none)) := by
  have hc := dumpFileName_length "CrashDump_".toList b hnul
  have hg := dumpFileName_length "GameCrash_".toList b hnul
  simp only [String.toList, List.length_cons, List.length_nil] at hc hg
  refine ⟨by simp only [String.toList]; omega, by simp only [String.toList]; omega, ?_, ?_⟩
  · intro hr
    have fc := dumpFileName_fits "CrashDump_".toList b rfl hr
    have fg := dumpFileName_fits "GameCrash_".toList b rfl hr
    refine ⟨?_, ?_, sprintf_s_fit fc, sprintf_s_fit fg, DumpFilter_val b host p hr hb,
      GameCrashFilter_val b host p hr hb⟩
    · simp only [List.length_nil] at fc; omega
    · simp only [List.length_nil] at fg; omega
  · intro hr hbr
    have lc : 256 ≤ (dumpFileName "CrashDump_".toList b).length := by
      simp only [String.toList]; omega
    have lg : 256 ≤ (dumpFileName "GameCrash_".toList b).length := by
      simp only [String.toList]; omega
    refine ⟨lc, lg, sprintf_s_overflow (by simp only [List.length_nil]; omega),
      sprintf_s_overflow (by simp only [List.length_nil]; omega), fun hyes =>
        ⟨DumpFilter_overflow b host p hb hyes lc, GameCrashFilter_overflow b host p hb hyes lg⟩⟩

theorem dump_file_name_length_bound_witness :
    (dumpFileName "CrashDump_".toList edgeBuild).length = 255 ∧
    (DumpFilter edgeBuild hostYes (accessViolation 1 0)).val = some EXCEPTION_EXECUTE_HANDLER ∧
    (dumpFileName "CrashDump_".toList longBuild).length = 256 ∧
    (DumpFilter longBuild hostYes (accessViolation 1 0)).val = none :=
  ⟨((dump_file_name_length_bound edgeBuild hostYes (accessViolation 1 0) (by decide)
      (by decide)).1).trans (by decide),
   ((dump_file_name_length_bound edgeBuild hostYes (accessViolation 1 0) (by decide)
      (by decide)).2.2.1 (by decide)).2.2.2.2.1,
   ((dump_file_name_length_bound longBuild hostYes (accessViolation 1 0) (by decide)
      (by decide)).1).trans (by decide),
   (((dump_file_name_length_bound longBuild hostYes (accessViolation 1 0) (by decide)
      (by decide)).2.2.2 (by decide) (by decide)).2.2.2.2 (by decide)).1⟩

/-! ## Dialog wording and console wording -/

theorem PrintCrashMessage.diagnose_cause (r : EXCEPTION_RECORD) (msgBuf : List Char)
    (h : msgBuf.length ≤ 900) (hcode : r.ExceptionCode = EXCEPTION_ACCESS_VIOLATION)
    (hn : r.NumberParameters ≥ 2) :
    Event.cout (causeLine r) ∈ (PrintCrashMessage.diagnose r msgBuf).trace := by
  have h1 := accessAction_length_le (r.ExceptionInformation 0)
  have h2 := hexUpper_length_le (r.ExceptionInformation 1)
  unfold PrintCrashMessage.diagnose
  unfold accessAction at h1
  simp only [Run.bind_eq]
  rw [if_pos ⟨hcode, hn⟩]
  refine mem_trace_bind (a := msgBuf ++ ("\n".toList ++
    (if r.ExceptionInformation 0 = 1 then "Write".toList
      else if r.ExceptionInformation 0 = 8 then "DEP Execute".toList else "Read".toList) ++
    " at 0x".toList ++ hexUpper (ull (r.ExceptionInformation 1)) ++ "\n".toList)) ?_ ?_
  · rw [sprintf_s_fit (by
      simp only [List.length_append, String.toList, List.length_cons, List.length_nil] at h1 ⊢
      omega)]
    rfl
  refine mem_trace_bind_left ?_
  rw [cout_trace]
  exact List.mem_singleton.mpr rfl

theorem PrintCrashMessage_cause (b : Build) (host : Host) (p : EXCEPTION_POINTERS)
    (bAskDump : Bool)
    (hcode : p.ExceptionRecord.ExceptionCode = EXCEPTION_ACCESS_VIOLATION)
    (hn : p.ExceptionRecord.NumberParameters ≥ 2) :
    Event.cout (causeLine p.ExceptionRecord) ∈ (PrintCrashMessage b host p bAskDump).trace := by
  have h1 := GetExceptionCodeString_length_le p.ExceptionRecord.ExceptionCode
  have h2 := hexUpper_length_le p.ExceptionRecord.ExceptionAddress
  have h3 := headerLines_length_le p.ExceptionRecord
  unfold PrintCrashMessage
  simp only [Run.bind_eq]
  refine mem_trace_bind (a := "[ CRASH ]\n\nCode: ".toList ++
    GetExceptionCodeString p.ExceptionRecord.ExceptionCode ++ "\n".toList) ?_ ?_
  · rw [sprintf_s_fit (by
      simp only [List.length_append, String.toList, List.length_cons, List.length_nil]; omega)]
    rfl
  refine mem_trace_bind (a := headerLines p.ExceptionRecord) ?_ ?_
  · rw [sprintf_s_fit (by
      simp only [List.length_append, String.toList, List.length_cons, List.length_nil]; omega)]
    rfl
  refine mem_trace_bind (cout_val _) ?_
  refine mem_trace_bind (cout_val _) ?_
  refine mem_trace_bind (cout_val _) ?_
  refine mem_trace_bind_left ?_
  exact PrintCrashMessage.diagnose_cause _ _ (by omega) hcode hn

/-- C28: for an access violation with parameters the message (the text of the
dialog when one is shown) holds the line with the `action` word and the console
holds the cause line with its own word.  For access flag 0, 1 or 8 the two words
name the same access kind; for every other flag the message says Read and the
console says DEP 실행 (execute). -/
theorem access_kind_dialog_and_console (b : Build) (host : Host) (p : EXCEPTION_POINTERS)
    (bAskDump : Bool)
    (hb : b.BUILD_GIT_REVISION.length + b.BUILD_GIT_BRANCH.length ≤ 700)
    (hcode : p.ExceptionRecord.ExceptionCode = EXCEPTION_ACCESS_VIOLATION)
    (hn : p.ExceptionRecord.NumberParameters ≥ 2) :
    (∃ m, (PrintCrashMessage b host p bAskDump).val = some m ∧
      ("\n".toList ++ accessAction (p.ExceptionRecord.ExceptionInformation 0) ++
        " at 0x".toList ++ hexUpper (ull (p.ExceptionRecord.ExceptionInformation 1)) ++
        "\n".toList) <:+: m.msgBuf ∧
      prompts (PrintCrashMessage b host p bAskDump).trace =
        if bAskDump then [m.msgBuf ++ dumpQuestion] else []) ∧
    Event.cout (lit "  │ 원인:    0x" ++ hexLower (p.ExceptionRecord.ExceptionInformation 1) ++
      lit " 주소에 " ++ accessWord (p.ExceptionRecord.ExceptionInformation 0) ++
      lit " 시도\n") ∈ (PrintCrashMessage b host p bAskDump).trace ∧
    (p.ExceptionRecord.ExceptionInformation 0 = 0 ∨ p.ExceptionRecord.ExceptionInformation 0 = 1 ∨
        p.ExceptionRecord.ExceptionInformation 0 = 8 →
      dialogAccessKind (accessAction (p.ExceptionRecord.ExceptionInformation 0)) ≠ none ∧
      dialogAccessKind (accessAction (p.ExceptionRecord.ExceptionInformation 0)) =
        consoleAccessKind (accessWord (p.ExceptionRecord.ExceptionInformation 0))) ∧
    (p.ExceptionRecord.ExceptionInformation 0 ≠ 0 → p.ExceptionRecord.ExceptionInformation 0 ≠ 1 →
        p.ExceptionRecord.ExceptionInformation 0 ≠ 8 →
      accessAction (p.ExceptionRecord.ExceptionInformation 0) = "Read".toList ∧
      accessWord (p.ExceptionRecord.ExceptionInformation 0) = lit "DEP 실행" ∧
      dialogAccessKind (accessAction (p.ExceptionRecord.ExceptionInformation 0)) =
        some AccessKind.read ∧
      consoleAccessKind (accessWord (p.ExceptionRecord.ExceptionInformation 0)) =
        some AccessKind.execute) := by
  have hi := accessLine_in_messageOf b p
  rw [accessLine_accessViolation _ hcode hn] at hi
  refine ⟨⟨_, PrintCrashMessage_val b host p bAskDump hb, hi,
    PrintCrashMessage_prompts b host p bAskDump hb⟩,
    PrintCrashMessage_cause b host p bAskDump hcode hn, ?_, ?_⟩
  · rintro (h | h | h) <;> rw [h] <;> decide
  · intro h0 h1 h8
    have ea : accessAction (p.ExceptionRecord.ExceptionInformation 0) = "Read".toList := by
      unfold accessAction
      rw [if_neg h1, if_neg h8]
    have ew : accessWord (p.ExceptionRecord.ExceptionInformation 0) = lit "DEP 실행" := by
      unfold accessWord
      rw [if_neg h0, if_neg h1]
    rw [ea, ew]
    exact ⟨rfl, rfl, by decide, by decide⟩

theorem access_kind_dialog_and_console_witness :
    (dialogAccessKind (accessAction 0) = some AccessKind.read ∧
      consoleAccessKind (accessWord 0) = some AccessKind.read) ∧
    (dialogAccessKind (accessAction 1) = some AccessKind.write ∧
      consoleAccessKind (accessWord 1) = some AccessKind.write) ∧
    (dialogAccessKind (accessAction 8) = some AccessKind.execute ∧
      consoleAccessKind (accessWord 8) = some AccessKind.execute) ∧
    accessAction 2 = "Read".toList ∧ accessWord 2 = lit "DEP 실행" ∧
    Event.cout (lit "  │ 원인:    0x14fe20 주소에 DEP 실행 시도\n") ∈
      (PrintCrashMessage sampleBuild hostYes (accessViolation 2 0x14FE20) true).trace ∧
    (∃ m, (PrintCrashMessage sampleBuild hostYes (accessViolation 2 0x14FE20) true).val =
        some m ∧ "\nRead at 0x14FE20\n".toList <:+: m.msgBuf) :=
  ⟨by decide, by decide, by decide,
   ((access_kind_dialog_and_console sampleBuild hostYes (accessViolation 2 0x14FE20) true
      (by decide) (by decide) (by decide)).2.2.2 (by decide) (by decide) (by decide)).1,
   ((access_kind_dialog_and_console sampleBuild hostYes (accessViolation 2 0x14FE20) true
      (by decide) (by decide) (by decide)).2.2.2 (by decide) (by decide) (by decide)).2.1,
   (access_kind_dialog_and_console sampleBuild hostYes (accessViolation 2 0x14FE20) true
      (by decide) (by decide) (by decide)).2.1,
   (access_kind_dialog_and_console sampleBuild hostYes (accessViolation 2 0x14FE20) true
      (by decide) (by decide) (by decide)).1.elim fun m hm => ⟨m, hm.1, hm.2.1⟩⟩

/-! ## Code names and the wide sanitizer -/

theorem GetExceptionCodeString_unknown (code : Nat)
    (h : code ∉ knownCodes.map Prod.fst) : GetExceptionCodeString code = "UNKNOWN".toList := by
  simp only [knownCodes, List.map_cons, List.map_nil, List.mem_cons, List.mem_singleton,
    List.mem_nil_iff, or_false, not_or] at h
  unfold GetExceptionCodeString
  rw [if_neg h.1, if_neg h.2.1, if_neg h.2.2.1, if_neg h.2.2.2.1, if_neg h.2.2.2.2.1,
    if_neg h.2.2.2.2.2.1, if_neg h.2.2.2.2.2.2]

theorem GetExceptionCodeString_known :
    ∀ c ∈ knownCodes.map Prod.fst, GetExceptionCodeString c ≠ "UNKNOWN".toList := by
  decide

theorem diagnosisOf_known (r : EXCEPTION_RECORD) (h : diagnosisOf r ≠ []) :
    r.ExceptionCode ∈ knownCodes.map Prod.fst := by
  by_contra hn
  apply h
  simp only [knownCodes, List.map_cons, List.map_nil, List.mem_cons, List.mem_singleton,
    List.mem_nil_iff, or_false, not_or] at hn
  unfold diagnosisOf
  rw [if_neg (fun hc => hn.1 hc.1), if_neg hn.2.1, if_neg hn.2.2.1, if_neg hn.2.2.2.1,
    if_neg hn.2.2.2.2.2.1]

/-- C29: for each of the seven known codes `GetExceptionCodeString` returns the
name of the macro followed by the value of the code in hexadecimal, in
parentheses; distinct known codes give distinct strings; every other value gives
"UNKNOWN"; and a code for which `PrintCrashMessage` produces a diagnosis has a
name other than "UNKNOWN". -/
theorem exception_code_names (b : Build) (host : Host) (p : EXCEPTION_POINTERS)
    (bAskDump : Bool)
    (hb : b.BUILD_GIT_REVISION.length + b.BUILD_GIT_BRANCH.length ≤ 700) :
    knownCodes.map Prod.fst = [0xC0000005, 0xC0000094, 0xC00000FD, 0xC000001D, 0xC0000096,
      0x80000003, 0xC000008E] ∧
    (∀ cn ∈ knownCodes,
      GetExceptionCodeString cn.1 = cn.2 ++ " (0x".toList ++ hexUpper cn.1 ++ ")".toList) ∧
    (∀ c ∈ knownCodes.map Prod.fst, ∀ d ∈ knownCodes.map Prod.fst,
      GetExceptionCodeString c = GetExceptionCodeString d → c = d) ∧
    (∀ code, code ∉ knownCodes.map Prod.fst → GetExceptionCodeString code = "UNKNOWN".toList) ∧
    (∃ m, (PrintCrashMessage b host p bAskDump).val = some m ∧
      (m.diagnosis ≠ [] →
        GetExceptionCodeString p.ExceptionRecord.ExceptionCode ≠ "UNKNOWN".toList)) := by
  refine ⟨by decide, by decide, by decide, GetExceptionCodeString_unknown,
    _, PrintCrashMessage_val b host p bAskDump hb, fun h => ?_⟩
  exact GetExceptionCodeString_known _ (diagnosisOf_known _ h)

theorem exception_code_names_witness :
    GetExceptionCodeString 0xC0000005 = "EXCEPTION_ACCESS_VIOLATION (0xC0000005)".toList ∧
    GetExceptionCodeString 0xC0000006 = "UNKNOWN".toList ∧
    (∃ m, (PrintCrashMessage sampleBuild hostYes (faultWithCode EXCEPTION_BREAKPOINT) false).val =
        some m ∧ m.diagnosis ≠ [] ∧
      GetExceptionCodeString (faultWithCode EXCEPTION_BREAKPOINT).ExceptionRecord.ExceptionCode ≠
        "UNKNOWN".toList) :=
  ⟨(exception_code_names sampleBuild hostYes (faultWithCode EXCEPTION_BREAKPOINT) false
      (by decide)).2.1 (EXCEPTION_ACCESS_VIOLATION, "EXCEPTION_ACCESS_VIOLATION".toList)
      (by decide),
   (exception_code_names sampleBuild hostYes (faultWithCode EXCEPTION_BREAKPOINT) false
      (by decide)).2.2.2.1 0xC0000006 (by decide),
   (exception_code_names sampleBuild hostYes (faultWithCode EXCEPTION_BREAKPOINT) false
      (by decide)).2.2.2.2.elim fun m hm =>
        ⟨m, hm.1, by
          have e := PrintCrashMessage_val sampleBuild hostYes
            (faultWithCode EXCEPTION_BREAKPOINT) false (by decide)
          rw [e] at hm
          have e2 := Option.some.inj hm.1
          rw [← e2]
          decide, by decide⟩⟩

theorem isForbiddenWChar_eq (c : Char) : isForbiddenWChar c = isForbiddenChar c := rfl

theorem MakeSafeFilenameWLoop_eq (n : Nat) (src : List Char) :
    MakeSafeFilenameWLoop n src = MakeSafeFilenameLoop n src := by
  induction n generalizing src with
  | zero => rfl
  | succ n ih =>
    cases src with
    | nil => rfl
    | cons c rest =>
      unfold MakeSafeFilenameWLoop MakeSafeFilenameLoop
      rw [ih rest, isForbiddenWChar_eq]

theorem MakeSafeFilenameWStoresFrom_eq (i n : Nat) (src : List Char) :
    MakeSafeFilenameWStoresFrom i n src = MakeSafeFilenameStoresFrom i n src := by
  induction n generalizing i src with
  | zero => rfl
  | succ n ih =>
    cases src with
    | nil => rfl
    | cons c rest =>
      unfold MakeSafeFilenameWStoresFrom MakeSafeFilenameStoresFrom
      rw [ih (i + 1) rest, isForbiddenWChar_eq]

theorem widen_eq (s : List Char) : widen s = s := rfl

theorem MakeSafeFilenameW_eq (dstSize : Nat) (src : List Char) :
    MakeSafeFilenameW dstSize src = MakeSafeFilename dstSize src := by
  unfold MakeSafeFilenameW MakeSafeFilename
  exact MakeSafeFilenameWLoop_eq _ _

/-- C30: the wide sanitizer applied to the widened input gives the widening of
what the narrow sanitizer gives, for every size and every string (a character is
widened to the wide character of the same value); both test the same nine
characters. -/
theorem sanitizers_agree (dstSize : Nat) (src : List Char) :
    MakeSafeFilenameW dstSize (widen src) = widen (MakeSafeFilename dstSize src) ∧
    (∀ c, isForbiddenWChar c = isForbiddenChar c) ∧
    MakeSafeFilenameW 128 (widen "claude/infallible-dubinsky".toList) =
      widen "claude_infallible-dubinsky".toList := by
  refine ⟨?_, isForbiddenWChar_eq, ?_⟩
  · rw [widen_eq, widen_eq]
    exact MakeSafeFilenameW_eq _ _
  · rw [widen_eq, widen_eq, MakeSafeFilenameW_eq]
    decide

/-! ## Stores within the destination, and reported write failures -/

/-- C17 as amended: for a destination of at least one element, in particular the
128 elements every call in the program passes, both sanitizers assign only to
indices below `dstSize`, whatever the length of the source. -/
theorem MakeSafeFilename_stores_below_size (dstSize : Nat) (src : List Char)
    (h1 : 1 ≤ dstSize) (h2 : dstSize < 2 ^ 64) :
    (∀ s ∈ MakeSafeFilenameStores dstSize src, s.1 < dstSize) ∧
    (∀ s ∈ MakeSafeFilenameWStores dstSize src, s.1 < dstSize) ∧
    (∀ s ∈ MakeSafeFilenameStores 128 src, s.1 < 128) ∧
    (∀ s ∈ MakeSafeFilenameWStores 128 src, s.1 < 128) :=
  ⟨(MakeSafeFilenameStores_in_bounds dstSize src h1 h2).1,
   (MakeSafeFilenameStores_in_bounds dstSize src h1 h2).2,
   (MakeSafeFilenameStores_in_bounds 128 src (by decide) (by decide)).1,
   (MakeSafeFilenameStores_in_bounds 128 src (by decide) (by decide)).2⟩

theorem MakeSafeFilename_stores_below_size_witness :
    MakeSafeFilenameStores 1 "a/b".toList = [(0, Char.ofNat 0)] ∧
    MakeSafeFilenameStores 3 "a/b".toList = [(0, 'a'), (1, '_'), (2, Char.ofNat 0)] ∧
    (∀ s ∈ MakeSafeFilenameStores 1 "a/b".toList, s.1 < 1) ∧
    (∀ s ∈ MakeSafeFilenameWStores 3 "a/b".toList, s.1 < 3) ∧
    (∀ s ∈ MakeSafeFilenameStores 128 (List.replicate 300 '/'), s.1 < 128) :=
  ⟨by decide, by decide,
   (MakeSafeFilename_stores_below_size 1 "a/b".toList (by decide) (by decide)).1,
   (MakeSafeFilename_stores_below_size 3 "a/b".toList (by decide) (by decide)).2.1,
   (MakeSafeFilename_stores_below_size 128 (List.replicate 300 '/') (by decide)
     (by decide)).1⟩

end ZeroCrashLab
